import Mathlib

/-!
# Z80 core: shallow embedding and verified properties

The processor state of `z80.go` is a record of natural numbers; every byte
operation of the Go source is followed by an explicit `% 256` (and every
16-bit operation by `% 65536`) wherever the Go type would wrap.  A subtraction
`x - y` of bytes is `(x + 256 - y) % 256` and the decrement `x - 1` of a byte is
`(x + 255) % 256`; a decrement of a 16-bit word is computed over the integers
and converted back with `uint16`.  Methods on
`*CPU` become functions `CPU → CPU` (or `CPU → α × CPU` when they also return
a value).
-/

namespace Z80

/-! ## Flag masks (`z80.go`, lines 21-37) -/

/-- Carry flag mask. -/
def FLAG_C : Nat := 0x01
/-- Add/Subtract flag mask. -/
def FLAG_N : Nat := 0x02
/-- Parity/Overflow flag mask. -/
def FLAG_PV : Nat := 0x04
/-- Undocumented bit-3 flag mask. -/
def FLAG_3 : Nat := 0x08
/-- Half-carry flag mask. -/
def FLAG_H : Nat := 0x10
/-- Undocumented bit-5 flag mask. -/
def FLAG_5 : Nat := 0x20
/-- Zero flag mask. -/
def FLAG_Z : Nat := 0x40
/-- Sign flag mask. -/
def FLAG_S : Nat := 0x80
/-- Alias of `FLAG_3`. -/
def FLAG_X : Nat := FLAG_3
/-- Alias of `FLAG_5`. -/
def FLAG_Y : Nat := FLAG_5

/-! ## Processor state (`z80.go`, lines 39-64) -/

/-- The `CPU` struct.  Byte fields hold values below 256 and word fields values
below 65536 (see `CPU.WF`).  The two collaborator handles of the Go struct are
represented by their observable content: `Memory` is the byte store, and the
I/O handle is the triple `IntPending` / `PortIn` / `PortOut`. -/
structure CPU where
  A : Nat
  F : Nat
  B : Nat
  C : Nat
  D : Nat
  E : Nat
  H : Nat
  L : Nat
  A_ : Nat
  F_ : Nat
  B_ : Nat
  C_ : Nat
  D_ : Nat
  E_ : Nat
  H_ : Nat
  L_ : Nat
  IX : Nat
  IY : Nat
  SP : Nat
  PC : Nat
  I : Nat
  R : Nat
  IM : Nat
  IFF1 : Bool
  IFF2 : Bool
  HALT : Bool
  MEMPTR : Nat
  /-- Modelled from the spec: the memory collaborator (interface `Memory`, whose
  implementation is outside the core) is a flat store of bytes addressed by a
  16-bit address. -/
  Memory : Nat → Nat
  /-- Modelled from the spec: answer of the I/O collaborator's `CheckInterrupt`. -/
  IntPending : Bool
  /-- Modelled from the spec: value the I/O collaborator's `ReadPort` returns for a port. -/
  PortIn : Nat → Nat
  /-- Modelled from the spec: the `WritePort` calls made so far, latest first. -/
  PortOut : List (Nat × Nat)

/-- Well-formedness: every field is in the range of its Go type. -/
structure CPU.WF (cpu : CPU) : Prop where
  hA : cpu.A < 256
  hF : cpu.F < 256
  hB : cpu.B < 256
  hC : cpu.C < 256
  hD : cpu.D < 256
  hE : cpu.E < 256
  hH : cpu.H < 256
  hL : cpu.L < 256
  hA_ : cpu.A_ < 256
  hF_ : cpu.F_ < 256
  hB_ : cpu.B_ < 256
  hC_ : cpu.C_ < 256
  hD_ : cpu.D_ < 256
  hE_ : cpu.E_ < 256
  hH_ : cpu.H_ < 256
  hL_ : cpu.L_ < 256
  hIX : cpu.IX < 65536
  hIY : cpu.IY < 65536
  hSP : cpu.SP < 65536
  hPC : cpu.PC < 65536
  hI : cpu.I < 256
  hR : cpu.R < 256
  hIM : cpu.IM < 256
  hMEMPTR : cpu.MEMPTR < 65536
  hMem : ∀ a, cpu.Memory a < 256
  hPort : ∀ p, cpu.PortIn p < 256

/-! ## Memory and I/O collaborators -/

/-- Modelled from the spec: `Memory.ReadByte`, a read of the flat byte store. -/
def ReadByte (cpu : CPU) (address : Nat) : Nat := cpu.Memory address

/-- Modelled from the spec: `Memory.WriteByte`, an update of the flat byte store. -/
def WriteByte (cpu : CPU) (address value : Nat) : CPU :=
  { cpu with Memory := fun a => if a = address then value else cpu.Memory a }

/-- Modelled from the spec: `Memory.ReadWord` is little-endian, low byte from
`addr`, high byte from `addr + 1` with 16-bit wraparound. -/
def ReadWord (cpu : CPU) (address : Nat) : Nat :=
  ((cpu.Memory ((address + 1) % 65536)) <<< 8) ||| cpu.Memory address

/-- Modelled from the spec: `Memory.WriteWord` is little-endian, low byte to
`addr`, high byte to `addr + 1` with 16-bit wraparound. -/
def WriteWord (cpu : CPU) (address value : Nat) : CPU :=
  WriteByte (WriteByte cpu address (value % 256)) ((address + 1) % 65536) ((value >>> 8) % 256)

/-- Modelled from the spec: `IO.ReadPort`. -/
def ReadPort (cpu : CPU) (port : Nat) : Nat := cpu.PortIn port

/-- Modelled from the spec: `IO.WritePort`, recorded in the output log. -/
def WritePort (cpu : CPU) (port value : Nat) : CPU :=
  { cpu with PortOut := (port, value) :: cpu.PortOut }

/-- Modelled from the spec: `IO.CheckInterrupt`. -/
def CheckInterrupt (cpu : CPU) : Bool := cpu.IntPending

/-! ## Byte-level helpers for Go operators -/

/-- Go's `x &^ y` (bit clear) on bytes: `x & (^y)`. -/
def bitClear (x y : Nat) : Nat := x &&& (y ^^^ 0xFF)

/-- Go's conversion `int8(b)` of a byte, as an integer. -/
def int8 (b : Nat) : Int := if b < 128 then (b : Int) else (b : Int) - 256

/-- Go's conversion `uint16(i)` of a signed 32-bit value. -/
def uint16 (i : Int) : Nat := (i % 65536).toNat

/-! ## Register pairs (`z80.go`, lines 74-145, 369-422) -/

def GetBC (cpu : CPU) : Nat := (cpu.B <<< 8) ||| cpu.C
def GetDE (cpu : CPU) : Nat := (cpu.D <<< 8) ||| cpu.E
def GetHL (cpu : CPU) : Nat := (cpu.H <<< 8) ||| cpu.L
def SetBC (cpu : CPU) (value : Nat) : CPU := { cpu with B := (value >>> 8) % 256, C := value % 256 }
def SetDE (cpu : CPU) (value : Nat) : CPU := { cpu with D := (value >>> 8) % 256, E := value % 256 }
def SetHL (cpu : CPU) (value : Nat) : CPU := { cpu with H := (value >>> 8) % 256, L := value % 256 }
def GetIXH (cpu : CPU) : Nat := (cpu.IX >>> 8) % 256
def GetIXL (cpu : CPU) : Nat := cpu.IX % 256
def GetIYH (cpu : CPU) : Nat := (cpu.IY >>> 8) % 256
def GetIYL (cpu : CPU) : Nat := cpu.IY % 256
def SetIXH (cpu : CPU) (value : Nat) : CPU := { cpu with IX := (cpu.IX &&& 0x00FF) ||| (value <<< 8) }
def SetIXL (cpu : CPU) (value : Nat) : CPU := { cpu with IX := (cpu.IX &&& 0xFF00) ||| value }
def SetIYH (cpu : CPU) (value : Nat) : CPU := { cpu with IY := (cpu.IY &&& 0x00FF) ||| (value <<< 8) }
def SetIYL (cpu : CPU) (value : Nat) : CPU := { cpu with IY := (cpu.IY &&& 0xFF00) ||| value }
def GetAF (cpu : CPU) : Nat := (cpu.A <<< 8) ||| cpu.F
def SetAF (cpu : CPU) (value : Nat) : CPU := { cpu with A := (value >>> 8) % 256, F := value % 256 }
def GetAF_ (cpu : CPU) : Nat := (cpu.A_ <<< 8) ||| cpu.F_
def SetAF_ (cpu : CPU) (value : Nat) : CPU := { cpu with A_ := (value >>> 8) % 256, F_ := value % 256 }
def GetBC_ (cpu : CPU) : Nat := (cpu.B_ <<< 8) ||| cpu.C_
def GetDE_ (cpu : CPU) : Nat := (cpu.D_ <<< 8) ||| cpu.E_
def GetHL_ (cpu : CPU) : Nat := (cpu.H_ <<< 8) ||| cpu.L_
def SetBC_ (cpu : CPU) (value : Nat) : CPU := { cpu with B_ := (value >>> 8) % 256, C_ := value % 256 }
def SetDE_ (cpu : CPU) (value : Nat) : CPU := { cpu with D_ := (value >>> 8) % 256, E_ := value % 256 }
def SetHL_ (cpu : CPU) (value : Nat) : CPU := { cpu with H_ := (value >>> 8) % 256, L_ := value % 256 }

/-! ## Flag accessors (`z80.go`, lines 147-178) -/

def GetFlag (cpu : CPU) (flag : Nat) : Bool := (cpu.F &&& flag) != 0

def SetFlag (cpu : CPU) (flag : Nat) (state : Bool) : CPU :=
  if state then { cpu with F := cpu.F ||| flag } else { cpu with F := bitClear cpu.F flag }

def SetFlagState (cpu : CPU) (flag : Nat) (condition : Bool) : CPU :=
  if condition then { cpu with F := cpu.F ||| flag } else { cpu with F := bitClear cpu.F flag }

def ClearFlag (cpu : CPU) (flag : Nat) : CPU := { cpu with F := bitClear cpu.F flag }

def ClearAllFlags (cpu : CPU) : CPU := { cpu with F := 0 }

/-! ## Fetch helpers (`z80.go`, lines 180-226) -/

def ReadImmediateByte (cpu : CPU) : Nat × CPU :=
  let value := ReadByte cpu cpu.PC
  (value, { cpu with PC := (cpu.PC + 1) % 65536 })

def ReadImmediateWord (cpu : CPU) : Nat × CPU :=
  let lo := ReadByte cpu cpu.PC
  let cpu := { cpu with PC := (cpu.PC + 1) % 65536 }
  let hi := ReadByte cpu cpu.PC
  let cpu := { cpu with PC := (cpu.PC + 1) % 65536 }
  ((hi <<< 8) ||| lo, cpu)

def ReadDisplacement (cpu : CPU) : Int × CPU :=
  let value := int8 (ReadByte cpu cpu.PC)
  (value, { cpu with PC := (cpu.PC + 1) % 65536 })

def ReadOpcode (cpu : CPU) : Nat × CPU :=
  let opcode := ReadByte cpu cpu.PC
  let cpu := { cpu with PC := (cpu.PC + 1) % 65536 }
  (opcode, { cpu with R := (cpu.R &&& 0x80) ||| (((cpu.R + 1) % 256) &&& 0x7F) })

def Push (cpu : CPU) (value : Nat) : CPU :=
  let cpu := { cpu with SP := uint16 ((cpu.SP : Int) - 2) }
  WriteWord cpu cpu.SP value

def Pop (cpu : CPU) : Nat × CPU :=
  let lo := ReadByte cpu cpu.SP
  let hi := ReadByte cpu ((cpu.SP + 1) % 65536)
  ((hi <<< 8) ||| lo, { cpu with SP := (cpu.SP + 2) % 65536 })

/-! ## Composite flag updates (`z80.go`, lines 228-284, 424-428) -/

def UpdateSZFlags (cpu : CPU) (result : Nat) : CPU :=
  let cpu := SetFlagState cpu FLAG_S ((result &&& 0x80) != 0)
  SetFlagState cpu FLAG_Z (result == 0)

/-- The parity loop shared by `UpdatePVFlags` and `UpdateSZXYPVFlags`:
`parity := 1; for i := 0; i < 8; i++ { parity ^= (result >> i) & 1 }`. -/
def parityLoop (result : Nat) : Nat :=
  (List.range 8).foldl (fun parity i => parity ^^^ ((result >>> i) &&& 1)) 1

def UpdatePVFlags (cpu : CPU) (result : Nat) : CPU :=
  SetFlagState cpu FLAG_PV (parityLoop result != 0)

def UpdateSZXYPVFlags (cpu : CPU) (result : Nat) : CPU :=
  let cpu := SetFlagState cpu FLAG_S ((result &&& 0x80) != 0)
  let cpu := SetFlagState cpu FLAG_Z (result == 0)
  let cpu := SetFlagState cpu FLAG_X ((result &&& FLAG_X) != 0)
  let cpu := SetFlagState cpu FLAG_Y ((result &&& FLAG_Y) != 0)
  SetFlagState cpu FLAG_PV (parityLoop result != 0)

def UpdateFlags3and5FromValue (cpu : CPU) (value : Nat) : CPU :=
  let cpu := SetFlagState cpu FLAG_X ((value &&& FLAG_X) != 0)
  SetFlagState cpu FLAG_Y ((value &&& FLAG_Y) != 0)

def UpdateFlags3and5FromAddress (cpu : CPU) (address : Nat) : CPU :=
  let cpu := SetFlagState cpu FLAG_X ((((address >>> 8) % 256) &&& FLAG_X) != 0)
  SetFlagState cpu FLAG_Y ((((address >>> 8) % 256) &&& FLAG_Y) != 0)

def UpdateSZXYFlags (cpu : CPU) (result : Nat) : CPU :=
  let cpu := SetFlagState cpu FLAG_S ((result &&& 0x80) != 0)
  let cpu := SetFlagState cpu FLAG_Z (result == 0)
  let cpu := SetFlagState cpu FLAG_X ((result &&& FLAG_X) != 0)
  SetFlagState cpu FLAG_Y ((result &&& FLAG_Y) != 0)

def boolToByte (b : Bool) : Nat := if b then 1 else 0

def UpdateXYFlags (cpu : CPU) (result : Nat) : CPU :=
  let cpu := SetFlagState cpu FLAG_X ((result &&& FLAG_X) != 0)
  SetFlagState cpu FLAG_Y ((result &&& FLAG_Y) != 0)

/-! ## ALU primitives (`opcodes.go`, lines 1021-1324) -/

def inc8 (cpu : CPU) (value : Nat) : Nat × CPU :=
  let result := (value + 1) % 256
  let cpu := SetFlagState cpu FLAG_H ((value &&& 0x0F) == 0x0F)
  let cpu := ClearFlag cpu FLAG_N
  let cpu := UpdateSZXYFlags cpu result
  let cpu := SetFlagState cpu FLAG_PV (value == 0x7F)
  (result, cpu)

def dec8 (cpu : CPU) (value : Nat) : Nat × CPU :=
  let result := (value + 255) % 256
  let cpu := SetFlagState cpu FLAG_H ((value &&& 0x0F) == 0x00)
  let cpu := SetFlag cpu FLAG_N true
  let cpu := UpdateSZXYFlags cpu result
  let cpu := SetFlagState cpu FLAG_PV (value == 0x80)
  (result, cpu)

def rlca (cpu : CPU) : CPU :=
  let result := ((cpu.A <<< 1) % 256) ||| (cpu.A >>> 7)
  let cpu := { cpu with A := result }
  let cpu := SetFlagState cpu FLAG_C ((cpu.A &&& 0x01) != 0)
  let cpu := ClearFlag cpu FLAG_H
  let cpu := ClearFlag cpu FLAG_N
  UpdateXYFlags cpu cpu.A

def rla (cpu : CPU) : CPU :=
  let oldCarry := GetFlag cpu FLAG_C
  let result := (cpu.A <<< 1) % 256
  let result := if oldCarry then result ||| 0x01 else result
  let cpu := SetFlagState cpu FLAG_C ((cpu.A &&& 0x80) != 0)
  let cpu := { cpu with A := result }
  let cpu := ClearFlag cpu FLAG_H
  let cpu := ClearFlag cpu FLAG_N
  UpdateXYFlags cpu cpu.A

def rrca (cpu : CPU) : CPU :=
  let result := (cpu.A >>> 1) ||| ((cpu.A <<< 7) % 256)
  let cpu := { cpu with A := result }
  let cpu := SetFlagState cpu FLAG_C ((cpu.A &&& 0x80) != 0)
  let cpu := ClearFlag cpu FLAG_H
  let cpu := ClearFlag cpu FLAG_N
  UpdateXYFlags cpu cpu.A

def rra (cpu : CPU) : CPU :=
  let oldCarry := GetFlag cpu FLAG_C
  let result := cpu.A >>> 1
  let result := if oldCarry then result ||| 0x80 else result
  let cpu := SetFlagState cpu FLAG_C ((cpu.A &&& 0x01) != 0)
  let cpu := { cpu with A := result }
  let cpu := ClearFlag cpu FLAG_H
  let cpu := ClearFlag cpu FLAG_N
  UpdateXYFlags cpu cpu.A

/-- Helper `parity` of `opcodes.go`: counts the set bits of `val` and reports
whether the count is even. -/
def parity (val : Nat) : Bool :=
  let count := (List.range 8).foldl
    (fun count i => if (val &&& ((1 <<< i) % 256)) != 0 then count + 1 else count) 0
  count % 2 == 0

def daa (cpu : CPU) : CPU :=
  let temp := cpu.A
  let correction := 0
  let carry := GetFlag cpu FLAG_C
  let correction := if GetFlag cpu FLAG_H || decide ((cpu.A &&& 0x0F) > 9)
    then correction ||| 0x06 else correction
  let correction := if carry || decide (cpu.A > 0x99) then correction ||| 0x60 else correction
  let cpu := if GetFlag cpu FLAG_N
    then { cpu with A := (cpu.A + 256 - correction) % 256 }
    else { cpu with A := (cpu.A + correction) % 256 }
  let cpu := SetFlag cpu FLAG_S ((cpu.A &&& 0x80) != 0)
  let cpu := SetFlag cpu FLAG_Z (cpu.A == 0)
  let cpu := SetFlag cpu FLAG_H ((((temp ^^^ correction) ^^^ cpu.A) &&& 0x10) != 0)
  let cpu := SetFlag cpu FLAG_PV (parity cpu.A)
  let cpu := SetFlag cpu FLAG_C (carry || ((correction &&& 0x60) != 0))
  let cpu := SetFlag cpu FLAG_X ((cpu.A &&& FLAG_X) != 0)
  SetFlag cpu FLAG_Y ((cpu.A &&& FLAG_Y) != 0)

def cpl (cpu : CPU) : CPU :=
  let cpu := { cpu with A := cpu.A ^^^ 0xFF }
  let cpu := SetFlag cpu FLAG_H true
  let cpu := SetFlag cpu FLAG_N true
  UpdateXYFlags cpu cpu.A

def scf (cpu : CPU) : CPU :=
  let cpu := SetFlag cpu FLAG_C true
  let cpu := ClearFlag cpu FLAG_H
  let cpu := ClearFlag cpu FLAG_N
  if (cpu.A &&& FLAG_Y) == FLAG_Y && (cpu.A &&& FLAG_X) == FLAG_X then
    let cpu := SetFlag cpu FLAG_Y true
    SetFlag cpu FLAG_X true
  else cpu

def ccf (cpu : CPU) : CPU :=
  let oldCarry := GetFlag cpu FLAG_C
  let cpu := SetFlagState cpu FLAG_C (!oldCarry)
  let cpu := SetFlagState cpu FLAG_H oldCarry
  let cpu := ClearFlag cpu FLAG_N
  if (cpu.A &&& FLAG_Y) == FLAG_Y && (cpu.A &&& FLAG_X) == FLAG_X then
    let cpu := SetFlag cpu FLAG_Y true
    SetFlag cpu FLAG_X true
  else cpu

def add16 (cpu : CPU) (a b : Nat) : Nat × CPU :=
  let result := (a + b) % 65536
  let cpu := SetFlagState cpu FLAG_C (decide (result < a))
  let cpu := SetFlagState cpu FLAG_H (decide (((a &&& 0x0FFF) + (b &&& 0x0FFF)) % 65536 > 0x0FFF))
  let cpu := ClearFlag cpu FLAG_N
  let cpu := UpdateFlags3and5FromAddress cpu result
  (result, cpu)

def add8 (cpu : CPU) (value : Nat) : CPU :=
  let a := cpu.A
  let result := (a + value) % 256
  let cpu := SetFlagState cpu FLAG_C (decide (result < a))
  let cpu := SetFlagState cpu FLAG_H (decide (((a &&& 0x0F) + (value &&& 0x0F)) % 256 > 0x0F))
  let cpu := ClearFlag cpu FLAG_N
  let cpu := UpdateSZXYFlags cpu result
  let sameSign := ((a ^^^ value) &&& 0x80) == 0
  let differentResultSign := ((a ^^^ result) &&& 0x80) != 0
  let overflow := sameSign && differentResultSign
  let cpu := SetFlagState cpu FLAG_PV overflow
  { cpu with A := result }

def adc8 (cpu : CPU) (value : Nat) : CPU :=
  let a := cpu.A
  let carry := GetFlag cpu FLAG_C
  let result := if carry then ((a + value) % 256 + 1) % 256 else (a + value) % 256
  let cpu := SetFlagState cpu FLAG_C
    (decide ((a : Int) + (value : Int) + (boolToByte carry : Int) > 0xFF))
  let cpu := SetFlagState cpu FLAG_H
    (decide ((((a &&& 0x0F) + (value &&& 0x0F)) % 256 + boolToByte carry) % 256 > 0x0F))
  let cpu := ClearFlag cpu FLAG_N
  let cpu := UpdateSZXYFlags cpu result
  let originalValue := a
  let cpu :=
    if carry then
      let sameSign := ((originalValue ^^^ value) &&& 0x80) == 0
      let differentResultSign := ((originalValue ^^^ result) &&& 0x80) != 0
      let overflow := sameSign && differentResultSign
      SetFlagState cpu FLAG_PV overflow
    else
      let sameSign := ((originalValue ^^^ value) &&& 0x80) == 0
      let differentResultSign := ((originalValue ^^^ result) &&& 0x80) != 0
      let overflow := sameSign && differentResultSign
      SetFlagState cpu FLAG_PV overflow
  { cpu with A := result }

def sub8 (cpu : CPU) (value : Nat) : CPU :=
  let a := cpu.A
  let result := (a + 256 - value) % 256
  let cpu := SetFlagState cpu FLAG_C (decide (a < value))
  let cpu := SetFlagState cpu FLAG_H (decide ((a &&& 0x0F) < (value &&& 0x0F)))
  let cpu := SetFlag cpu FLAG_N true
  let cpu := UpdateSZXYFlags cpu result
  let overflow := (((a ^^^ value) &&& 0x80) != 0) && (((a ^^^ result) &&& 0x80) != 0)
  let cpu := SetFlagState cpu FLAG_PV overflow
  { cpu with A := result }

def sbc8 (cpu : CPU) (value : Nat) : CPU :=
  let a := cpu.A
  let carry := GetFlag cpu FLAG_C
  let result := if carry then ((a + 256 - value) % 256 + 255) % 256 else (a + 256 - value) % 256
  let cpu := SetFlagState cpu FLAG_C
    (decide ((a : Int) - (value : Int) - (boolToByte carry : Int) < 0))
  let cpu := SetFlagState cpu FLAG_H
    (decide ((a &&& 0x0F) < ((value &&& 0x0F) + boolToByte carry) % 256))
  let cpu := SetFlag cpu FLAG_N true
  let cpu := UpdateSZXYFlags cpu result
  let originalValue := a
  let cpu :=
    if carry then
      let overflow := (((originalValue ^^^ value) &&& 0x80) != 0)
        && (((originalValue ^^^ result) &&& 0x80) != 0)
      SetFlagState cpu FLAG_PV overflow
    else
      let overflow := (((originalValue ^^^ value) &&& 0x80) != 0)
        && (((originalValue ^^^ result) &&& 0x80) != 0)
      SetFlagState cpu FLAG_PV overflow
  { cpu with A := result }

def and8 (cpu : CPU) (value : Nat) : CPU :=
  let cpu := { cpu with A := cpu.A &&& value }
  let cpu := ClearFlag cpu FLAG_C
  let cpu := ClearFlag cpu FLAG_N
  let cpu := SetFlag cpu FLAG_H true
  let cpu := UpdateSZXYFlags cpu cpu.A
  SetFlagState cpu FLAG_PV (parity cpu.A)

def xor8 (cpu : CPU) (value : Nat) : CPU :=
  let cpu := { cpu with A := cpu.A ^^^ value }
  let cpu := ClearFlag cpu FLAG_C
  let cpu := ClearFlag cpu FLAG_N
  let cpu := ClearFlag cpu FLAG_H
  let cpu := UpdateSZXYFlags cpu cpu.A
  SetFlagState cpu FLAG_PV (parity cpu.A)

def or8 (cpu : CPU) (value : Nat) : CPU :=
  let cpu := { cpu with A := cpu.A ||| value }
  let cpu := ClearFlag cpu FLAG_C
  let cpu := ClearFlag cpu FLAG_N
  let cpu := ClearFlag cpu FLAG_H
  let cpu := UpdateSZXYFlags cpu cpu.A
  SetFlagState cpu FLAG_PV (parity cpu.A)

def cp8 (cpu : CPU) (value : Nat) : CPU :=
  let a := cpu.A
  let result := (a + 256 - value) % 256
  let cpu := SetFlagState cpu FLAG_C (decide (a < value))
  let cpu := SetFlagState cpu FLAG_H (decide ((a &&& 0x0F) < (value &&& 0x0F)))
  let cpu := SetFlag cpu FLAG_N true
  let cpu := UpdateSZFlags cpu result
  let cpu := UpdateFlags3and5FromValue cpu value
  let overflow := (((a ^^^ value) &&& 0x80) != 0) && (((a ^^^ result) &&& 0x80) != 0)
  SetFlagState cpu FLAG_PV overflow

/-! ## CB primitives (`cb_opcodes.go`, lines 310-454) -/

def rlc (cpu : CPU) (value : Nat) : Nat × CPU :=
  let result := ((value <<< 1) % 256) ||| (value >>> 7)
  let cpu := SetFlagState cpu FLAG_C ((value &&& 0x80) != 0)
  let cpu := ClearFlag cpu FLAG_H
  let cpu := ClearFlag cpu FLAG_N
  let cpu := UpdateSZXYPVFlags cpu result
  (result, cpu)

def rrc (cpu : CPU) (value : Nat) : Nat × CPU :=
  let result := (value >>> 1) ||| ((value <<< 7) % 256)
  let cpu := SetFlagState cpu FLAG_C ((value &&& 0x01) != 0)
  let cpu := ClearFlag cpu FLAG_H
  let cpu := ClearFlag cpu FLAG_N
  let cpu := UpdateSZXYPVFlags cpu result
  (result, cpu)

def rl (cpu : CPU) (value : Nat) : Nat × CPU :=
  let oldCarry := GetFlag cpu FLAG_C
  let result := (value <<< 1) % 256
  let result := if oldCarry then result ||| 0x01 else result
  let cpu := SetFlagState cpu FLAG_C ((value &&& 0x80) != 0)
  let cpu := ClearFlag cpu FLAG_H
  let cpu := ClearFlag cpu FLAG_N
  let cpu := UpdateSZXYPVFlags cpu result
  (result, cpu)

def rr (cpu : CPU) (value : Nat) : Nat × CPU :=
  let oldCarry := GetFlag cpu FLAG_C
  let result := value >>> 1
  let result := if oldCarry then result ||| 0x80 else result
  let cpu := SetFlagState cpu FLAG_C ((value &&& 0x01) != 0)
  let cpu := ClearFlag cpu FLAG_H
  let cpu := ClearFlag cpu FLAG_N
  let cpu := UpdateSZXYPVFlags cpu result
  (result, cpu)

def sla (cpu : CPU) (value : Nat) : Nat × CPU :=
  let result := (value <<< 1) % 256
  let cpu := SetFlagState cpu FLAG_C ((value &&& 0x80) != 0)
  let cpu := ClearFlag cpu FLAG_H
  let cpu := ClearFlag cpu FLAG_N
  let cpu := UpdateSZXYPVFlags cpu result
  (result, cpu)

def sra (cpu : CPU) (value : Nat) : Nat × CPU :=
  let result := (value >>> 1) ||| (value &&& 0x80)
  let cpu := SetFlagState cpu FLAG_C ((value &&& 0x01) != 0)
  let cpu := ClearFlag cpu FLAG_H
  let cpu := ClearFlag cpu FLAG_N
  let cpu := UpdateSZXYPVFlags cpu result
  (result, cpu)

def sll (cpu : CPU) (value : Nat) : Nat × CPU :=
  let result := ((value <<< 1) % 256) ||| 0x01
  let cpu := SetFlagState cpu FLAG_C ((value &&& 0x80) != 0)
  let cpu := ClearFlag cpu FLAG_H
  let cpu := ClearFlag cpu FLAG_N
  let cpu := UpdateSZXYPVFlags cpu result
  (result, cpu)

def srl (cpu : CPU) (value : Nat) : Nat × CPU :=
  let result := value >>> 1
  let cpu := SetFlagState cpu FLAG_C ((value &&& 0x01) != 0)
  let cpu := ClearFlag cpu FLAG_H
  let cpu := ClearFlag cpu FLAG_N
  let cpu := UpdateSZXYPVFlags cpu result
  (result, cpu)

def bit (cpu : CPU) (bitNum value : Nat) : CPU :=
  let mask := (1 <<< bitNum) % 256
  let result := value &&& mask
  let cpu := SetFlagState cpu FLAG_Z (result == 0)
  let cpu := SetFlagState cpu FLAG_Y ((value &&& (1 <<< 5)) != 0)
  let cpu := SetFlagState cpu FLAG_X ((value &&& (1 <<< 3)) != 0)
  let cpu := SetFlag cpu FLAG_H true
  let cpu := ClearFlag cpu FLAG_N
  if result == 0 then
    let cpu := SetFlag cpu FLAG_PV true
    ClearFlag cpu FLAG_S
  else
    let cpu := ClearFlag cpu FLAG_PV
    if bitNum == 7 then SetFlagState cpu FLAG_S ((value &&& 0x80) != 0)
    else ClearFlag cpu FLAG_S

def res (bitNum value : Nat) : Nat :=
  let mask := ((1 <<< bitNum) % 256) ^^^ 0xFF
  value &&& mask

def bitMem (cpu : CPU) (bitNum value addrHi : Nat) : CPU :=
  let mask := (1 <<< bitNum) % 256
  let result := value &&& mask
  let cpu := SetFlagState cpu FLAG_Z (result == 0)
  let cpu := SetFlagState cpu FLAG_Y ((addrHi &&& (1 <<< 5)) != 0)
  let cpu := SetFlagState cpu FLAG_X ((addrHi &&& (1 <<< 3)) != 0)
  let cpu := SetFlag cpu FLAG_H true
  let cpu := ClearFlag cpu FLAG_N
  if result == 0 then
    let cpu := SetFlag cpu FLAG_PV true
    ClearFlag cpu FLAG_S
  else
    let cpu := ClearFlag cpu FLAG_PV
    if bitNum == 7 then SetFlagState cpu FLAG_S ((value &&& 0x80) != 0)
    else ClearFlag cpu FLAG_S

def set (bitNum value : Nat) : Nat :=
  let mask := (1 <<< bitNum) % 256
  value ||| mask

/-! ## Unprefixed opcodes (`opcodes.go`, lines 7-1019)

The single `switch opcode` of `ExecuteOpcode` is written as sixteen blocks of
sixteen cases, one block per high nibble; each arm is the body of the Go
`case` of the same opcode.  A result `none` stands for the `panic` of the
`default` branch. -/

/-- Cases `0x00`-`0x0F` of the `switch` in `ExecuteOpcode`. -/
def ExecuteOpcode_00 (cpu : CPU) (opcode : Nat) : Option (Nat × CPU) :=
  match opcode with
  | 0x00 =>
    some (4, cpu)
  | 0x01 =>
    let r := ReadImmediateWord cpu
    some (10, SetBC r.2 r.1)
  | 0x02 =>
    let cpu := WriteByte cpu (GetBC cpu) cpu.A
    let cpu := { cpu with MEMPTR := (cpu.A <<< 8) ||| (((GetBC cpu + 1) % 65536) &&& 0xff) }
    some (7, cpu)
  | 0x03 =>
    some (6, SetBC cpu ((GetBC cpu + 1) % 65536))
  | 0x04 =>
    let r := inc8 cpu cpu.B
    some (4, { r.2 with B := r.1 })
  | 0x05 =>
    let r := dec8 cpu cpu.B
    some (4, { r.2 with B := r.1 })
  | 0x06 =>
    let r := ReadImmediateByte cpu
    some (7, { r.2 with B := r.1 })
  | 0x07 =>
    some (4, rlca cpu)
  | 0x08 =>
    let temp := GetAF cpu
    let cpu := SetAF cpu (GetAF_ cpu)
    let cpu := SetAF_ cpu temp
    some (4, cpu)
  | 0x09 =>
    let r := add16 cpu (GetHL cpu) (GetBC cpu)
    let cpu := { r.2 with MEMPTR := (GetHL r.2 + 1) % 65536 }
    some (11, SetHL cpu r.1)
  | 0x0A =>
    let cpu := { cpu with A := ReadByte cpu (GetBC cpu) }
    let cpu := { cpu with MEMPTR := (GetBC cpu + 1) % 65536 }
    some (7, cpu)
  | 0x0B =>
    some (6, SetBC cpu (uint16 ((GetBC cpu : Int) - 1)))
  | 0x0C =>
    let r := inc8 cpu cpu.C
    some (4, { r.2 with C := r.1 })
  | 0x0D =>
    let r := dec8 cpu cpu.C
    some (4, { r.2 with C := r.1 })
  | 0x0E =>
    let r := ReadImmediateByte cpu
    some (7, { r.2 with C := r.1 })
  | 0x0F =>
    some (4, rrca cpu)
  | _ => none

/-- Cases `0x10`-`0x1F` of the `switch` in `ExecuteOpcode`. -/
def ExecuteOpcode_10 (cpu : CPU) (opcode : Nat) : Option (Nat × CPU) :=
  match opcode with
  | 0x10 =>
    let cpu := { cpu with B := (cpu.B + 255) % 256 }
    if cpu.B != 0 then
      let r := ReadDisplacement cpu
      some (13, { r.2 with PC := uint16 ((r.2.PC : Int) + r.1) })
    else
      some (8, { cpu with PC := (cpu.PC + 1) % 65536 })
  | 0x11 =>
    let r := ReadImmediateWord cpu
    some (10, SetDE r.2 r.1)
  | 0x12 =>
    let cpu := WriteByte cpu (GetDE cpu) cpu.A
    let cpu := { cpu with MEMPTR := (cpu.A <<< 8) ||| (((GetDE cpu + 1) % 65536) &&& 0xff) }
    some (7, cpu)
  | 0x13 =>
    some (6, SetDE cpu ((GetDE cpu + 1) % 65536))
  | 0x14 =>
    let r := inc8 cpu cpu.D
    some (4, { r.2 with D := r.1 })
  | 0x15 =>
    let r := dec8 cpu cpu.D
    some (4, { r.2 with D := r.1 })
  | 0x16 =>
    let r := ReadImmediateByte cpu
    some (7, { r.2 with D := r.1 })
  | 0x17 =>
    some (4, rla cpu)
  | 0x18 =>
    let r := ReadDisplacement cpu
    let cpu := { r.2 with MEMPTR := (r.2.PC + uint16 r.1) % 65536 }
    some (12, { cpu with PC := uint16 ((cpu.PC : Int) + r.1) })
  | 0x19 =>
    let r := add16 cpu (GetHL cpu) (GetDE cpu)
    let cpu := { r.2 with MEMPTR := (GetHL r.2 + 1) % 65536 }
    some (11, SetHL cpu r.1)
  | 0x1A =>
    let cpu := { cpu with A := ReadByte cpu (GetDE cpu) }
    let cpu := { cpu with MEMPTR := (GetDE cpu + 1) % 65536 }
    some (7, cpu)
  | 0x1B =>
    some (6, SetDE cpu (uint16 ((GetDE cpu : Int) - 1)))
  | 0x1C =>
    let r := inc8 cpu cpu.E
    some (4, { r.2 with E := r.1 })
  | 0x1D =>
    let r := dec8 cpu cpu.E
    some (4, { r.2 with E := r.1 })
  | 0x1E =>
    let r := ReadImmediateByte cpu
    some (7, { r.2 with E := r.1 })
  | 0x1F =>
    some (4, rra cpu)
  | _ => none

/-- Cases `0x20`-`0x2F` of the `switch` in `ExecuteOpcode`. -/
def ExecuteOpcode_20 (cpu : CPU) (opcode : Nat) : Option (Nat × CPU) :=
  match opcode with
  | 0x20 =>
    if !GetFlag cpu FLAG_Z then
      let r := ReadDisplacement cpu
      let cpu := { r.2 with MEMPTR := (r.2.PC + uint16 r.1) % 65536 }
      some (12, { cpu with PC := uint16 ((cpu.PC : Int) + r.1) })
    else
      some (7, { cpu with PC := (cpu.PC + 1) % 65536 })
  | 0x21 =>
    let r := ReadImmediateWord cpu
    some (10, SetHL r.2 r.1)
  | 0x22 =>
    let r := ReadImmediateWord cpu
    let cpu := WriteWord r.2 r.1 (GetHL r.2)
    some (16, { cpu with MEMPTR := (r.1 + 1) % 65536 })
  | 0x23 =>
    some (6, SetHL cpu ((GetHL cpu + 1) % 65536))
  | 0x24 =>
    let r := inc8 cpu cpu.H
    some (4, { r.2 with H := r.1 })
  | 0x25 =>
    let r := dec8 cpu cpu.H
    some (4, { r.2 with H := r.1 })
  | 0x26 =>
    let r := ReadImmediateByte cpu
    some (7, { r.2 with H := r.1 })
  | 0x27 =>
    some (4, daa cpu)
  | 0x28 =>
    if GetFlag cpu FLAG_Z then
      let r := ReadDisplacement cpu
      let cpu := { r.2 with MEMPTR := uint16 ((r.2.PC : Int) + r.1) }
      some (12, { cpu with PC := uint16 ((cpu.PC : Int) + r.1) })
    else
      let r := ReadDisplacement cpu
      some (7, r.2)
  | 0x29 =>
    let r := add16 cpu (GetHL cpu) (GetHL cpu)
    let cpu := { r.2 with MEMPTR := (GetHL r.2 + 1) % 65536 }
    some (11, SetHL cpu r.1)
  | 0x2A =>
    let r := ReadImmediateWord cpu
    let cpu := SetHL r.2 (ReadWord r.2 r.1)
    some (16, { cpu with MEMPTR := (r.1 + 1) % 65536 })
  | 0x2B =>
    some (6, SetHL cpu (uint16 ((GetHL cpu : Int) - 1)))
  | 0x2C =>
    let r := inc8 cpu cpu.L
    some (4, { r.2 with L := r.1 })
  | 0x2D =>
    let r := dec8 cpu cpu.L
    some (4, { r.2 with L := r.1 })
  | 0x2E =>
    let r := ReadImmediateByte cpu
    some (7, { r.2 with L := r.1 })
  | 0x2F =>
    some (4, cpl cpu)
  | _ => none

/-- Cases `0x30`-`0x3F` of the `switch` in `ExecuteOpcode`. -/
def ExecuteOpcode_30 (cpu : CPU) (opcode : Nat) : Option (Nat × CPU) :=
  match opcode with
  | 0x30 =>
    if !GetFlag cpu FLAG_C then
      let r := ReadDisplacement cpu
      let cpu := { r.2 with MEMPTR := (r.2.PC + uint16 r.1) % 65536 }
      some (12, { cpu with PC := uint16 ((cpu.PC : Int) + r.1) })
    else
      some (7, { cpu with PC := (cpu.PC + 1) % 65536 })
  | 0x31 =>
    let r := ReadImmediateWord cpu
    some (10, { r.2 with SP := r.1 })
  | 0x32 =>
    let r := ReadImmediateWord cpu
    let cpu := WriteByte r.2 r.1 r.2.A
    some (13, { cpu with MEMPTR := (cpu.A <<< 8) ||| (((r.1 + 1) % 65536) &&& 0xFF) })
  | 0x33 =>
    some (6, { cpu with SP := (cpu.SP + 1) % 65536 })
  | 0x34 =>
    let value := ReadByte cpu (GetHL cpu)
    let r := inc8 cpu value
    some (11, WriteByte r.2 (GetHL r.2) r.1)
  | 0x35 =>
    let value := ReadByte cpu (GetHL cpu)
    let r := dec8 cpu value
    some (11, WriteByte r.2 (GetHL r.2) r.1)
  | 0x36 =>
    let r := ReadImmediateByte cpu
    some (10, WriteByte r.2 (GetHL r.2) r.1)
  | 0x37 =>
    some (4, scf cpu)
  | 0x38 =>
    if GetFlag cpu FLAG_C then
      let r := ReadDisplacement cpu
      let cpu := { r.2 with MEMPTR := (r.2.PC + uint16 r.1) % 65536 }
      some (12, { cpu with PC := uint16 ((cpu.PC : Int) + r.1) })
    else
      some (7, { cpu with PC := (cpu.PC + 1) % 65536 })
  | 0x39 =>
    let r := add16 cpu (GetHL cpu) (cpu.SP)
    let cpu := { r.2 with MEMPTR := (GetHL r.2 + 1) % 65536 }
    some (11, SetHL cpu r.1)
  | 0x3A =>
    let r := ReadImmediateWord cpu
    let cpu := { r.2 with A := ReadByte r.2 r.1 }
    some (13, { cpu with MEMPTR := (r.1 + 1) % 65536 })
  | 0x3B =>
    some (6, { cpu with SP := uint16 ((cpu.SP : Int) - 1) })
  | 0x3C =>
    let r := inc8 cpu cpu.A
    some (4, { r.2 with A := r.1 })
  | 0x3D =>
    let r := dec8 cpu cpu.A
    some (4, { r.2 with A := r.1 })
  | 0x3E =>
    let r := ReadImmediateByte cpu
    some (7, { r.2 with A := r.1 })
  | 0x3F =>
    some (4, ccf cpu)
  | _ => none

/-- Cases `0x40`-`0x4F` of the `switch` in `ExecuteOpcode`. -/
def ExecuteOpcode_40 (cpu : CPU) (opcode : Nat) : Option (Nat × CPU) :=
  match opcode with
  | 0x40 =>
    some (4, cpu)
  | 0x41 =>
    some (4, { cpu with B := cpu.C })
  | 0x42 =>
    some (4, { cpu with B := cpu.D })
  | 0x43 =>
    some (4, { cpu with B := cpu.E })
  | 0x44 =>
    some (4, { cpu with B := cpu.H })
  | 0x45 =>
    some (4, { cpu with B := cpu.L })
  | 0x46 =>
    some (7, { cpu with B := ReadByte cpu (GetHL cpu) })
  | 0x47 =>
    some (4, { cpu with B := cpu.A })
  | 0x48 =>
    some (4, { cpu with C := cpu.B })
  | 0x49 =>
    some (4, cpu)
  | 0x4A =>
    some (4, { cpu with C := cpu.D })
  | 0x4B =>
    some (4, { cpu with C := cpu.E })
  | 0x4C =>
    some (4, { cpu with C := cpu.H })
  | 0x4D =>
    some (4, { cpu with C := cpu.L })
  | 0x4E =>
    some (7, { cpu with C := ReadByte cpu (GetHL cpu) })
  | 0x4F =>
    some (4, { cpu with C := cpu.A })
  | _ => none

/-- Cases `0x50`-`0x5F` of the `switch` in `ExecuteOpcode`. -/
def ExecuteOpcode_50 (cpu : CPU) (opcode : Nat) : Option (Nat × CPU) :=
  match opcode with
  | 0x50 =>
    some (4, { cpu with D := cpu.B })
  | 0x51 =>
    some (4, { cpu with D := cpu.C })
  | 0x52 =>
    some (4, cpu)
  | 0x53 =>
    some (4, { cpu with D := cpu.E })
  | 0x54 =>
    some (4, { cpu with D := cpu.H })
  | 0x55 =>
    some (4, { cpu with D := cpu.L })
  | 0x56 =>
    some (7, { cpu with D := ReadByte cpu (GetHL cpu) })
  | 0x57 =>
    some (4, { cpu with D := cpu.A })
  | 0x58 =>
    some (4, { cpu with E := cpu.B })
  | 0x59 =>
    some (4, { cpu with E := cpu.C })
  | 0x5A =>
    some (4, { cpu with E := cpu.D })
  | 0x5B =>
    some (4, cpu)
  | 0x5C =>
    some (4, { cpu with E := cpu.H })
  | 0x5D =>
    some (4, { cpu with E := cpu.L })
  | 0x5E =>
    some (7, { cpu with E := ReadByte cpu (GetHL cpu) })
  | 0x5F =>
    some (4, { cpu with E := cpu.A })
  | _ => none

/-- Cases `0x60`-`0x6F` of the `switch` in `ExecuteOpcode`. -/
def ExecuteOpcode_60 (cpu : CPU) (opcode : Nat) : Option (Nat × CPU) :=
  match opcode with
  | 0x60 =>
    some (4, { cpu with H := cpu.B })
  | 0x61 =>
    some (4, { cpu with H := cpu.C })
  | 0x62 =>
    some (4, { cpu with H := cpu.D })
  | 0x63 =>
    some (4, { cpu with H := cpu.E })
  | 0x64 =>
    some (4, cpu)
  | 0x65 =>
    some (4, { cpu with H := cpu.L })
  | 0x66 =>
    some (7, { cpu with H := ReadByte cpu (GetHL cpu) })
  | 0x67 =>
    some (4, { cpu with H := cpu.A })
  | 0x68 =>
    some (4, { cpu with L := cpu.B })
  | 0x69 =>
    some (4, { cpu with L := cpu.C })
  | 0x6A =>
    some (4, { cpu with L := cpu.D })
  | 0x6B =>
    some (4, { cpu with L := cpu.E })
  | 0x6C =>
    some (4, { cpu with L := cpu.H })
  | 0x6D =>
    some (4, cpu)
  | 0x6E =>
    some (7, { cpu with L := ReadByte cpu (GetHL cpu) })
  | 0x6F =>
    some (4, { cpu with L := cpu.A })
  | _ => none

/-- Cases `0x70`-`0x7F` of the `switch` in `ExecuteOpcode`. -/
def ExecuteOpcode_70 (cpu : CPU) (opcode : Nat) : Option (Nat × CPU) :=
  match opcode with
  | 0x70 =>
    some (7, WriteByte cpu (GetHL cpu) cpu.B)
  | 0x71 =>
    some (7, WriteByte cpu (GetHL cpu) cpu.C)
  | 0x72 =>
    some (7, WriteByte cpu (GetHL cpu) cpu.D)
  | 0x73 =>
    some (7, WriteByte cpu (GetHL cpu) cpu.E)
  | 0x74 =>
    some (7, WriteByte cpu (GetHL cpu) cpu.H)
  | 0x75 =>
    some (7, WriteByte cpu (GetHL cpu) cpu.L)
  | 0x76 =>
    let cpu := { cpu with HALT := true }
    some (4, { cpu with PC := uint16 ((cpu.PC : Int) - 1) })
  | 0x77 =>
    some (7, WriteByte cpu (GetHL cpu) cpu.A)
  | 0x78 =>
    some (4, { cpu with A := cpu.B })
  | 0x79 =>
    some (4, { cpu with A := cpu.C })
  | 0x7A =>
    some (4, { cpu with A := cpu.D })
  | 0x7B =>
    some (4, { cpu with A := cpu.E })
  | 0x7C =>
    some (4, { cpu with A := cpu.H })
  | 0x7D =>
    some (4, { cpu with A := cpu.L })
  | 0x7E =>
    some (7, { cpu with A := ReadByte cpu (GetHL cpu) })
  | 0x7F =>
    some (4, cpu)
  | _ => none

/-- Cases `0x80`-`0x8F` of the `switch` in `ExecuteOpcode`. -/
def ExecuteOpcode_80 (cpu : CPU) (opcode : Nat) : Option (Nat × CPU) :=
  match opcode with
  | 0x80 =>
    some (4, add8 cpu cpu.B)
  | 0x81 =>
    some (4, add8 cpu cpu.C)
  | 0x82 =>
    some (4, add8 cpu cpu.D)
  | 0x83 =>
    some (4, add8 cpu cpu.E)
  | 0x84 =>
    some (4, add8 cpu cpu.H)
  | 0x85 =>
    some (4, add8 cpu cpu.L)
  | 0x86 =>
    let value := ReadByte cpu (GetHL cpu)
    some (7, add8 cpu value)
  | 0x87 =>
    some (4, add8 cpu cpu.A)
  | 0x88 =>
    some (4, adc8 cpu cpu.B)
  | 0x89 =>
    some (4, adc8 cpu cpu.C)
  | 0x8A =>
    some (4, adc8 cpu cpu.D)
  | 0x8B =>
    some (4, adc8 cpu cpu.E)
  | 0x8C =>
    some (4, adc8 cpu cpu.H)
  | 0x8D =>
    some (4, adc8 cpu cpu.L)
  | 0x8E =>
    let value := ReadByte cpu (GetHL cpu)
    some (7, adc8 cpu value)
  | 0x8F =>
    some (4, adc8 cpu cpu.A)
  | _ => none

/-- Cases `0x90`-`0x9F` of the `switch` in `ExecuteOpcode`. -/
def ExecuteOpcode_90 (cpu : CPU) (opcode : Nat) : Option (Nat × CPU) :=
  match opcode with
  | 0x90 =>
    some (4, sub8 cpu cpu.B)
  | 0x91 =>
    some (4, sub8 cpu cpu.C)
  | 0x92 =>
    some (4, sub8 cpu cpu.D)
  | 0x93 =>
    some (4, sub8 cpu cpu.E)
  | 0x94 =>
    some (4, sub8 cpu cpu.H)
  | 0x95 =>
    some (4, sub8 cpu cpu.L)
  | 0x96 =>
    let value := ReadByte cpu (GetHL cpu)
    some (7, sub8 cpu value)
  | 0x97 =>
    some (4, sub8 cpu cpu.A)
  | 0x98 =>
    some (4, sbc8 cpu cpu.B)
  | 0x99 =>
    some (4, sbc8 cpu cpu.C)
  | 0x9A =>
    some (4, sbc8 cpu cpu.D)
  | 0x9B =>
    some (4, sbc8 cpu cpu.E)
  | 0x9C =>
    some (4, sbc8 cpu cpu.H)
  | 0x9D =>
    some (4, sbc8 cpu cpu.L)
  | 0x9E =>
    let value := ReadByte cpu (GetHL cpu)
    some (7, sbc8 cpu value)
  | 0x9F =>
    some (4, sbc8 cpu cpu.A)
  | _ => none

/-- Cases `0xA0`-`0xAF` of the `switch` in `ExecuteOpcode`. -/
def ExecuteOpcode_A0 (cpu : CPU) (opcode : Nat) : Option (Nat × CPU) :=
  match opcode with
  | 0xA0 =>
    some (4, and8 cpu cpu.B)
  | 0xA1 =>
    some (4, and8 cpu cpu.C)
  | 0xA2 =>
    some (4, and8 cpu cpu.D)
  | 0xA3 =>
    some (4, and8 cpu cpu.E)
  | 0xA4 =>
    some (4, and8 cpu cpu.H)
  | 0xA5 =>
    some (4, and8 cpu cpu.L)
  | 0xA6 =>
    let value := ReadByte cpu (GetHL cpu)
    some (7, and8 cpu value)
  | 0xA7 =>
    some (4, and8 cpu cpu.A)
  | 0xA8 =>
    some (4, xor8 cpu cpu.B)
  | 0xA9 =>
    some (4, xor8 cpu cpu.C)
  | 0xAA =>
    some (4, xor8 cpu cpu.D)
  | 0xAB =>
    some (4, xor8 cpu cpu.E)
  | 0xAC =>
    some (4, xor8 cpu cpu.H)
  | 0xAD =>
    some (4, xor8 cpu cpu.L)
  | 0xAE =>
    let value := ReadByte cpu (GetHL cpu)
    some (7, xor8 cpu value)
  | 0xAF =>
    some (4, xor8 cpu cpu.A)
  | _ => none

/-- Cases `0xB0`-`0xBF` of the `switch` in `ExecuteOpcode`. -/
def ExecuteOpcode_B0 (cpu : CPU) (opcode : Nat) : Option (Nat × CPU) :=
  match opcode with
  | 0xB0 =>
    some (4, or8 cpu cpu.B)
  | 0xB1 =>
    some (4, or8 cpu cpu.C)
  | 0xB2 =>
    some (4, or8 cpu cpu.D)
  | 0xB3 =>
    some (4, or8 cpu cpu.E)
  | 0xB4 =>
    some (4, or8 cpu cpu.H)
  | 0xB5 =>
    some (4, or8 cpu cpu.L)
  | 0xB6 =>
    let value := ReadByte cpu (GetHL cpu)
    some (7, or8 cpu value)
  | 0xB7 =>
    some (4, or8 cpu cpu.A)
  | 0xB8 =>
    some (4, cp8 cpu cpu.B)
  | 0xB9 =>
    some (4, cp8 cpu cpu.C)
  | 0xBA =>
    some (4, cp8 cpu cpu.D)
  | 0xBB =>
    some (4, cp8 cpu cpu.E)
  | 0xBC =>
    some (4, cp8 cpu cpu.H)
  | 0xBD =>
    some (4, cp8 cpu cpu.L)
  | 0xBE =>
    let value := ReadByte cpu (GetHL cpu)
    some (7, cp8 cpu value)
  | 0xBF =>
    some (4, cp8 cpu cpu.A)
  | _ => none

/-- Cases `0xC0`-`0xCF` of the `switch` in `ExecuteOpcode`. -/
def ExecuteOpcode_C0 (cpu : CPU) (opcode : Nat) : Option (Nat × CPU) :=
  match opcode with
  | 0xC0 =>
    if !GetFlag cpu FLAG_Z then
      let r := Pop cpu
      let cpu := { r.2 with PC := r.1 }
      some (11, { cpu with MEMPTR := cpu.PC })
    else
      some (5, cpu)
  | 0xC1 =>
    let r := Pop cpu
    some (10, SetBC r.2 r.1)
  | 0xC2 =>
    let r := ReadImmediateWord cpu
    let cpu := { r.2 with MEMPTR := r.1 }
    if !GetFlag cpu FLAG_Z then
      some (10, { cpu with PC := r.1 })
    else
      some (10, cpu)
  | 0xC3 =>
    let r := ReadImmediateWord cpu
    let cpu := { r.2 with PC := r.1 }
    some (10, { cpu with MEMPTR := r.1 })
  | 0xC4 =>
    let r := ReadImmediateWord cpu
    let cpu := { r.2 with MEMPTR := r.1 }
    if !GetFlag cpu FLAG_Z then
      let cpu := Push cpu cpu.PC
      some (17, { cpu with PC := r.1 })
    else
      some (10, cpu)
  | 0xC5 =>
    some (11, Push cpu (GetBC cpu))
  | 0xC6 =>
    let r := ReadImmediateByte cpu
    some (7, add8 r.2 r.1)
  | 0xC7 =>
    let cpu := Push cpu cpu.PC
    let cpu := { cpu with PC := 0x0000 }
    some (11, { cpu with MEMPTR := 0x0000 })
  | 0xC8 =>
    if GetFlag cpu FLAG_Z then
      let r := Pop cpu
      let cpu := { r.2 with PC := r.1 }
      some (11, { cpu with MEMPTR := cpu.PC })
    else
      some (5, cpu)
  | 0xC9 =>
    let r := Pop cpu
    let cpu := { r.2 with PC := r.1 }
    some (10, { cpu with MEMPTR := cpu.PC })
  | 0xCA =>
    let r := ReadImmediateWord cpu
    let cpu := { r.2 with MEMPTR := r.1 }
    if GetFlag cpu FLAG_Z then
      some (10, { cpu with PC := r.1 })
    else
      some (10, cpu)
  | 0xCB =>
    some (0, cpu)
  | 0xCC =>
    let r := ReadImmediateWord cpu
    let cpu := { r.2 with MEMPTR := r.1 }
    if GetFlag cpu FLAG_Z then
      let cpu := Push cpu cpu.PC
      some (17, { cpu with PC := r.1 })
    else
      some (10, cpu)
  | 0xCD =>
    let r := ReadImmediateWord cpu
    let cpu := Push r.2 r.2.PC
    let cpu := { cpu with PC := r.1 }
    some (17, { cpu with MEMPTR := r.1 })
  | 0xCE =>
    let r := ReadImmediateByte cpu
    some (7, adc8 r.2 r.1)
  | 0xCF =>
    let cpu := Push cpu cpu.PC
    let cpu := { cpu with PC := 0x0008 }
    some (11, { cpu with MEMPTR := 0x0008 })
  | _ => none

/-- Cases `0xD0`-`0xDF` of the `switch` in `ExecuteOpcode`. -/
def ExecuteOpcode_D0 (cpu : CPU) (opcode : Nat) : Option (Nat × CPU) :=
  match opcode with
  | 0xD0 =>
    if !GetFlag cpu FLAG_C then
      let r := Pop cpu
      let cpu := { r.2 with PC := r.1 }
      some (11, { cpu with MEMPTR := cpu.PC })
    else
      some (5, cpu)
  | 0xD1 =>
    let r := Pop cpu
    some (10, SetDE r.2 r.1)
  | 0xD2 =>
    let r := ReadImmediateWord cpu
    let cpu := { r.2 with MEMPTR := r.1 }
    if !GetFlag cpu FLAG_C then
      some (10, { cpu with PC := r.1 })
    else
      some (10, cpu)
  | 0xD3 =>
    let r := ReadImmediateByte cpu
    let port := r.1 ||| (r.2.A <<< 8)
    let cpu := WritePort r.2 port r.2.A
    some (11, { cpu with MEMPTR := (cpu.A <<< 8) ||| (((r.1 + 1) % 256) &&& 0xFF) })
  | 0xD4 =>
    let r := ReadImmediateWord cpu
    let cpu := { r.2 with MEMPTR := r.1 }
    if !GetFlag cpu FLAG_C then
      let cpu := Push cpu cpu.PC
      some (17, { cpu with PC := r.1 })
    else
      some (10, cpu)
  | 0xD5 =>
    some (11, Push cpu (GetDE cpu))
  | 0xD6 =>
    let r := ReadImmediateByte cpu
    some (7, sub8 r.2 r.1)
  | 0xD7 =>
    let cpu := Push cpu cpu.PC
    let cpu := { cpu with PC := 0x0010 }
    some (11, { cpu with MEMPTR := 0x0010 })
  | 0xD8 =>
    if GetFlag cpu FLAG_C then
      let r := Pop cpu
      let cpu := { r.2 with PC := r.1 }
      some (11, { cpu with MEMPTR := cpu.PC })
    else
      some (5, cpu)
  | 0xD9 =>
    let tempBC := GetBC cpu
    let tempDE := GetDE cpu
    let tempHL := GetHL cpu
    let cpu := SetBC cpu (GetBC_ cpu)
    let cpu := SetDE cpu (GetDE_ cpu)
    let cpu := SetHL cpu (GetHL_ cpu)
    let cpu := SetBC_ cpu tempBC
    let cpu := SetDE_ cpu tempDE
    let cpu := SetHL_ cpu tempHL
    some (4, cpu)
  | 0xDA =>
    let r := ReadImmediateWord cpu
    let cpu := { r.2 with MEMPTR := r.1 }
    if GetFlag cpu FLAG_C then
      some (10, { cpu with PC := r.1 })
    else
      some (10, cpu)
  | 0xDB =>
    let r := ReadImmediateByte cpu
    let port := r.1 ||| (r.2.A <<< 8)
    let cpu := { r.2 with A := ReadPort r.2 port }
    some (11, { cpu with MEMPTR := (cpu.A <<< 8) ||| (((r.1 + 1) % 256) &&& 0xFF) })
  | 0xDC =>
    let r := ReadImmediateWord cpu
    let cpu := { r.2 with MEMPTR := r.1 }
    if GetFlag cpu FLAG_C then
      let cpu := Push cpu cpu.PC
      some (17, { cpu with PC := r.1 })
    else
      some (10, cpu)
  | 0xDD =>
    some (0, cpu)
  | 0xDE =>
    let r := ReadImmediateByte cpu
    some (7, sbc8 r.2 r.1)
  | 0xDF =>
    let cpu := Push cpu cpu.PC
    let cpu := { cpu with PC := 0x0018 }
    some (11, { cpu with MEMPTR := 0x0018 })
  | _ => none

/-- Cases `0xE0`-`0xEF` of the `switch` in `ExecuteOpcode`. -/
def ExecuteOpcode_E0 (cpu : CPU) (opcode : Nat) : Option (Nat × CPU) :=
  match opcode with
  | 0xE0 =>
    if !GetFlag cpu FLAG_PV then
      let r := Pop cpu
      let cpu := { r.2 with PC := r.1 }
      some (11, { cpu with MEMPTR := cpu.PC })
    else
      some (5, cpu)
  | 0xE1 =>
    let r := Pop cpu
    some (10, SetHL r.2 r.1)
  | 0xE2 =>
    let r := ReadImmediateWord cpu
    let cpu := { r.2 with MEMPTR := r.1 }
    if !GetFlag cpu FLAG_PV then
      some (10, { cpu with PC := r.1 })
    else
      some (10, cpu)
  | 0xE3 =>
    let temp := ReadWord cpu cpu.SP
    let cpu := WriteWord cpu cpu.SP (GetHL cpu)
    let cpu := SetHL cpu temp
    some (19, { cpu with MEMPTR := temp })
  | 0xE4 =>
    let r := ReadImmediateWord cpu
    let cpu := { r.2 with MEMPTR := r.1 }
    if !GetFlag cpu FLAG_PV then
      let cpu := Push cpu cpu.PC
      some (17, { cpu with PC := r.1 })
    else
      some (10, cpu)
  | 0xE5 =>
    some (11, Push cpu (GetHL cpu))
  | 0xE6 =>
    let r := ReadImmediateByte cpu
    some (7, and8 r.2 r.1)
  | 0xE7 =>
    let cpu := Push cpu cpu.PC
    let cpu := { cpu with PC := 0x0020 }
    some (11, { cpu with MEMPTR := 0x0020 })
  | 0xE8 =>
    if GetFlag cpu FLAG_PV then
      let r := Pop cpu
      let cpu := { r.2 with PC := r.1 }
      some (11, { cpu with MEMPTR := cpu.PC })
    else
      some (5, cpu)
  | 0xE9 =>
    some (4, { cpu with PC := GetHL cpu })
  | 0xEA =>
    let r := ReadImmediateWord cpu
    let cpu := { r.2 with MEMPTR := r.1 }
    if GetFlag cpu FLAG_PV then
      some (10, { cpu with PC := r.1 })
    else
      some (10, cpu)
  | 0xEB =>
    let temp := GetDE cpu
    let cpu := SetDE cpu (GetHL cpu)
    let cpu := SetHL cpu temp
    some (4, cpu)
  | 0xEC =>
    let r := ReadImmediateWord cpu
    let cpu := { r.2 with MEMPTR := r.1 }
    if GetFlag cpu FLAG_PV then
      let cpu := Push cpu cpu.PC
      some (17, { cpu with PC := r.1 })
    else
      some (10, cpu)
  | 0xED =>
    some (0, cpu)
  | 0xEE =>
    let r := ReadImmediateByte cpu
    some (7, xor8 r.2 r.1)
  | 0xEF =>
    let cpu := Push cpu cpu.PC
    let cpu := { cpu with PC := 0x0028 }
    some (11, { cpu with MEMPTR := 0x0028 })
  | _ => none

/-- Cases `0xF0`-`0xFF` of the `switch` in `ExecuteOpcode`. -/
def ExecuteOpcode_F0 (cpu : CPU) (opcode : Nat) : Option (Nat × CPU) :=
  match opcode with
  | 0xF0 =>
    if !GetFlag cpu FLAG_S then
      let r := Pop cpu
      let cpu := { r.2 with PC := r.1 }
      some (11, { cpu with MEMPTR := cpu.PC })
    else
      some (5, cpu)
  | 0xF1 =>
    let r := Pop cpu
    some (10, SetAF r.2 r.1)
  | 0xF2 =>
    let r := ReadImmediateWord cpu
    let cpu := { r.2 with MEMPTR := r.1 }
    if !GetFlag cpu FLAG_S then
      some (10, { cpu with PC := r.1 })
    else
      some (10, cpu)
  | 0xF3 =>
    let cpu := { cpu with IFF1 := false }
    some (4, { cpu with IFF2 := false })
  | 0xF4 =>
    let r := ReadImmediateWord cpu
    let cpu := { r.2 with MEMPTR := r.1 }
    if !GetFlag cpu FLAG_S then
      let cpu := Push cpu cpu.PC
      some (17, { cpu with PC := r.1 })
    else
      some (10, cpu)
  | 0xF5 =>
    some (11, Push cpu (GetAF cpu))
  | 0xF6 =>
    let r := ReadImmediateByte cpu
    some (7, or8 r.2 r.1)
  | 0xF7 =>
    let cpu := Push cpu cpu.PC
    let cpu := { cpu with PC := 0x0030 }
    some (11, { cpu with MEMPTR := 0x0030 })
  | 0xF8 =>
    if GetFlag cpu FLAG_S then
      let r := Pop cpu
      let cpu := { r.2 with PC := r.1 }
      some (11, { cpu with MEMPTR := cpu.PC })
    else
      some (5, cpu)
  | 0xF9 =>
    some (6, { cpu with SP := GetHL cpu })
  | 0xFA =>
    let r := ReadImmediateWord cpu
    let cpu := { r.2 with MEMPTR := r.1 }
    if GetFlag cpu FLAG_S then
      some (10, { cpu with PC := r.1 })
    else
      some (10, cpu)
  | 0xFB =>
    let cpu := { cpu with IFF1 := true }
    some (4, { cpu with IFF2 := true })
  | 0xFC =>
    let r := ReadImmediateWord cpu
    let cpu := { r.2 with MEMPTR := r.1 }
    if GetFlag cpu FLAG_S then
      let cpu := Push cpu cpu.PC
      some (17, { cpu with PC := r.1 })
    else
      some (10, cpu)
  | 0xFD =>
    some (0, cpu)
  | 0xFE =>
    let r := ReadImmediateByte cpu
    some (7, cp8 r.2 r.1)
  | 0xFF =>
    let cpu := Push cpu cpu.PC
    let cpu := { cpu with PC := 0x0038 }
    some (11, { cpu with MEMPTR := 0x0038 })
  | _ => none

/-- `ExecuteOpcode` executes a base (unprefixed) opcode and returns the number of
T-states used together with the new state; `none` is the `panic` of the
`default` branch. -/
def ExecuteOpcode (cpu : CPU) (opcode : Nat) : Option (Nat × CPU) :=
  match opcode / 16 with
  | 0 => ExecuteOpcode_00 cpu opcode
  | 1 => ExecuteOpcode_10 cpu opcode
  | 2 => ExecuteOpcode_20 cpu opcode
  | 3 => ExecuteOpcode_30 cpu opcode
  | 4 => ExecuteOpcode_40 cpu opcode
  | 5 => ExecuteOpcode_50 cpu opcode
  | 6 => ExecuteOpcode_60 cpu opcode
  | 7 => ExecuteOpcode_70 cpu opcode
  | 8 => ExecuteOpcode_80 cpu opcode
  | 9 => ExecuteOpcode_90 cpu opcode
  | 10 => ExecuteOpcode_A0 cpu opcode
  | 11 => ExecuteOpcode_B0 cpu opcode
  | 12 => ExecuteOpcode_C0 cpu opcode
  | 13 => ExecuteOpcode_D0 cpu opcode
  | 14 => ExecuteOpcode_E0 cpu opcode
  | 15 => ExecuteOpcode_F0 cpu opcode
  | _ => none

/-! ## CB-prefixed opcodes (`cb_opcodes.go`, lines 5-308) -/

/-- `ExecuteCBOpcode` executes a CB-prefixed opcode and returns the number of
T-states used together with the new state.  The arms `| _ =>` of the inner
matches stand for a Go `switch` without a matching `case`: control then falls
out of the enclosing `if` and reaches the final `return 8`. -/
def ExecuteCBOpcode (cpu : CPU) (opcode : Nat) : Nat × CPU :=
  if opcode ≤ 0x3F then
    let opType := (opcode >>> 3) &&& 0x07
    let reg := opcode &&& 0x07
    if reg == 6 then
      let addr := GetHL cpu
      let value := ReadByte cpu addr
      match opType with
      | 0 =>
        let r := rlc cpu value
        (15, WriteByte r.2 addr r.1)
      | 1 =>
        let r := rrc cpu value
        (15, WriteByte r.2 addr r.1)
      | 2 =>
        let r := rl cpu value
        (15, WriteByte r.2 addr r.1)
      | 3 =>
        let r := rr cpu value
        (15, WriteByte r.2 addr r.1)
      | 4 =>
        let r := sla cpu value
        (15, WriteByte r.2 addr r.1)
      | 5 =>
        let r := sra cpu value
        (15, WriteByte r.2 addr r.1)
      | 6 =>
        let r := sll cpu value
        (15, WriteByte r.2 addr r.1)
      | 7 =>
        let r := srl cpu value
        (15, WriteByte r.2 addr r.1)
      | _ => (8, cpu)
    else
      match opType with
      | 0 =>
        match reg with
        | 0 => let r := rlc cpu cpu.B; (8, { r.2 with B := r.1 })
        | 1 => let r := rlc cpu cpu.C; (8, { r.2 with C := r.1 })
        | 2 => let r := rlc cpu cpu.D; (8, { r.2 with D := r.1 })
        | 3 => let r := rlc cpu cpu.E; (8, { r.2 with E := r.1 })
        | 4 => let r := rlc cpu cpu.H; (8, { r.2 with H := r.1 })
        | 5 => let r := rlc cpu cpu.L; (8, { r.2 with L := r.1 })
        | 7 => let r := rlc cpu cpu.A; (8, { r.2 with A := r.1 })
        | _ => (8, cpu)
      | 1 =>
        match reg with
        | 0 => let r := rrc cpu cpu.B; (8, { r.2 with B := r.1 })
        | 1 => let r := rrc cpu cpu.C; (8, { r.2 with C := r.1 })
        | 2 => let r := rrc cpu cpu.D; (8, { r.2 with D := r.1 })
        | 3 => let r := rrc cpu cpu.E; (8, { r.2 with E := r.1 })
        | 4 => let r := rrc cpu cpu.H; (8, { r.2 with H := r.1 })
        | 5 => let r := rrc cpu cpu.L; (8, { r.2 with L := r.1 })
        | 7 => let r := rrc cpu cpu.A; (8, { r.2 with A := r.1 })
        | _ => (8, cpu)
      | 2 =>
        match reg with
        | 0 => let r := rl cpu cpu.B; (8, { r.2 with B := r.1 })
        | 1 => let r := rl cpu cpu.C; (8, { r.2 with C := r.1 })
        | 2 => let r := rl cpu cpu.D; (8, { r.2 with D := r.1 })
        | 3 => let r := rl cpu cpu.E; (8, { r.2 with E := r.1 })
        | 4 => let r := rl cpu cpu.H; (8, { r.2 with H := r.1 })
        | 5 => let r := rl cpu cpu.L; (8, { r.2 with L := r.1 })
        | 7 => let r := rl cpu cpu.A; (8, { r.2 with A := r.1 })
        | _ => (8, cpu)
      | 3 =>
        match reg with
        | 0 => let r := rr cpu cpu.B; (8, { r.2 with B := r.1 })
        | 1 => let r := rr cpu cpu.C; (8, { r.2 with C := r.1 })
        | 2 => let r := rr cpu cpu.D; (8, { r.2 with D := r.1 })
        | 3 => let r := rr cpu cpu.E; (8, { r.2 with E := r.1 })
        | 4 => let r := rr cpu cpu.H; (8, { r.2 with H := r.1 })
        | 5 => let r := rr cpu cpu.L; (8, { r.2 with L := r.1 })
        | 7 => let r := rr cpu cpu.A; (8, { r.2 with A := r.1 })
        | _ => (8, cpu)
      | 4 =>
        match reg with
        | 0 => let r := sla cpu cpu.B; (8, { r.2 with B := r.1 })
        | 1 => let r := sla cpu cpu.C; (8, { r.2 with C := r.1 })
        | 2 => let r := sla cpu cpu.D; (8, { r.2 with D := r.1 })
        | 3 => let r := sla cpu cpu.E; (8, { r.2 with E := r.1 })
        | 4 => let r := sla cpu cpu.H; (8, { r.2 with H := r.1 })
        | 5 => let r := sla cpu cpu.L; (8, { r.2 with L := r.1 })
        | 7 => let r := sla cpu cpu.A; (8, { r.2 with A := r.1 })
        | _ => (8, cpu)
      | 5 =>
        match reg with
        | 0 => let r := sra cpu cpu.B; (8, { r.2 with B := r.1 })
        | 1 => let r := sra cpu cpu.C; (8, { r.2 with C := r.1 })
        | 2 => let r := sra cpu cpu.D; (8, { r.2 with D := r.1 })
        | 3 => let r := sra cpu cpu.E; (8, { r.2 with E := r.1 })
        | 4 => let r := sra cpu cpu.H; (8, { r.2 with H := r.1 })
        | 5 => let r := sra cpu cpu.L; (8, { r.2 with L := r.1 })
        | 7 => let r := sra cpu cpu.A; (8, { r.2 with A := r.1 })
        | _ => (8, cpu)
      | 6 =>
        match reg with
        | 0 => let r := sll cpu cpu.B; (8, { r.2 with B := r.1 })
        | 1 => let r := sll cpu cpu.C; (8, { r.2 with C := r.1 })
        | 2 => let r := sll cpu cpu.D; (8, { r.2 with D := r.1 })
        | 3 => let r := sll cpu cpu.E; (8, { r.2 with E := r.1 })
        | 4 => let r := sll cpu cpu.H; (8, { r.2 with H := r.1 })
        | 5 => let r := sll cpu cpu.L; (8, { r.2 with L := r.1 })
        | 7 => let r := sll cpu cpu.A; (8, { r.2 with A := r.1 })
        | _ => (8, cpu)
      | 7 =>
        match reg with
        | 0 => let r := srl cpu cpu.B; (8, { r.2 with B := r.1 })
        | 1 => let r := srl cpu cpu.C; (8, { r.2 with C := r.1 })
        | 2 => let r := srl cpu cpu.D; (8, { r.2 with D := r.1 })
        | 3 => let r := srl cpu cpu.E; (8, { r.2 with E := r.1 })
        | 4 => let r := srl cpu cpu.H; (8, { r.2 with H := r.1 })
        | 5 => let r := srl cpu cpu.L; (8, { r.2 with L := r.1 })
        | 7 => let r := srl cpu cpu.A; (8, { r.2 with A := r.1 })
        | _ => (8, cpu)
      | _ => (8, cpu)
  else if opcode ≥ 0x40 && opcode ≤ 0x7F then
    let bitNum := (opcode >>> 3) &&& 0x07
    let reg := opcode &&& 0x07
    if reg == 6 then
      let value := ReadByte cpu (GetHL cpu)
      (12, bitMem cpu bitNum value ((cpu.MEMPTR >>> 8) % 256))
    else
      let regValue :=
        match reg with
        | 0 => cpu.B
        | 1 => cpu.C
        | 2 => cpu.D
        | 3 => cpu.E
        | 4 => cpu.H
        | 5 => cpu.L
        | 7 => cpu.A
        | _ => 0
      (8, bit cpu bitNum regValue)
  else if opcode ≥ 0x80 && opcode ≤ 0xBF then
    let bitNum := (opcode >>> 3) &&& 0x07
    let reg := opcode &&& 0x07
    if reg == 6 then
      let addr := GetHL cpu
      let value := ReadByte cpu addr
      let result := res bitNum value
      (15, WriteByte cpu addr result)
    else
      match reg with
      | 0 => (8, { cpu with B := res bitNum cpu.B })
      | 1 => (8, { cpu with C := res bitNum cpu.C })
      | 2 => (8, { cpu with D := res bitNum cpu.D })
      | 3 => (8, { cpu with E := res bitNum cpu.E })
      | 4 => (8, { cpu with H := res bitNum cpu.H })
      | 5 => (8, { cpu with L := res bitNum cpu.L })
      | 7 => (8, { cpu with A := res bitNum cpu.A })
      | _ => (8, cpu)
  else if opcode ≥ 0xC0 then
    let bitNum := (opcode >>> 3) &&& 0x07
    let reg := opcode &&& 0x07
    if reg == 6 then
      let addr := GetHL cpu
      let value := ReadByte cpu addr
      let result := set bitNum value
      (15, WriteByte cpu addr result)
    else
      match reg with
      | 0 => (8, { cpu with B := set bitNum cpu.B })
      | 1 => (8, { cpu with C := set bitNum cpu.C })
      | 2 => (8, { cpu with D := set bitNum cpu.D })
      | 3 => (8, { cpu with E := set bitNum cpu.E })
      | 4 => (8, { cpu with H := set bitNum cpu.H })
      | 5 => (8, { cpu with L := set bitNum cpu.L })
      | 7 => (8, { cpu with A := set bitNum cpu.A })
      | _ => (8, cpu)
  else (8, cpu)

/-! ## DD CB-prefixed opcodes (`ddcb_opcodes.go`) -/

/-- `executeRotateShiftIndexed` handles rotate and shift instructions for indexed addressing. -/
def executeRotateShiftIndexed (cpu : CPU) (opcode addr value : Nat) : Nat × CPU :=
  let opType := (opcode >>> 3) &&& 0x07
  let reg := opcode &&& 0x07
  let r : Nat × CPU :=
    match opType with
    | 0 => rlc cpu value
    | 1 => rrc cpu value
    | 2 => rl cpu value
    | 3 => rr cpu value
    | 4 => sla cpu value
    | 5 => sra cpu value
    | 6 => sll cpu value
    | 7 => srl cpu value
    | _ => (value, cpu)
  let result := r.1
  let cpu := WriteByte r.2 addr result
  let cpu :=
    if reg != 6 then
      match reg with
      | 0 => { cpu with B := result }
      | 1 => { cpu with C := result }
      | 2 => { cpu with D := result }
      | 3 => { cpu with E := result }
      | 4 => { cpu with H := result }
      | 5 => { cpu with L := result }
      | 7 => { cpu with A := result }
      | _ => cpu
    else cpu
  let cpu := { cpu with MEMPTR := addr }
  (23, cpu)

/-- `executeResetBitIndexed` handles reset bit instructions for indexed addressing. -/
def executeResetBitIndexed (cpu : CPU) (opcode addr value : Nat) : Nat × CPU :=
  let bitNum := (opcode >>> 3) &&& 0x07
  let reg := opcode &&& 0x07
  let result := res bitNum value
  let cpu := WriteByte cpu addr result
  let cpu :=
    if reg != 6 then
      match reg with
      | 0 => { cpu with B := result }
      | 1 => { cpu with C := result }
      | 2 => { cpu with D := result }
      | 3 => { cpu with E := result }
      | 4 => { cpu with H := result }
      | 5 => { cpu with L := result }
      | 7 => { cpu with A := result }
      | _ => cpu
    else cpu
  let cpu := { cpu with MEMPTR := addr }
  (23, cpu)

/-- `executeSetBitIndexed` handles set bit instructions for indexed addressing. -/
def executeSetBitIndexed (cpu : CPU) (opcode addr value : Nat) : Nat × CPU :=
  let bitNum := (opcode >>> 3) &&& 0x07
  let reg := opcode &&& 0x07
  let result := set bitNum value
  let cpu := WriteByte cpu addr result
  let cpu :=
    if reg != 6 then
      match reg with
      | 0 => { cpu with B := result }
      | 1 => { cpu with C := result }
      | 2 => { cpu with D := result }
      | 3 => { cpu with E := result }
      | 4 => { cpu with H := result }
      | 5 => { cpu with L := result }
      | 7 => { cpu with A := result }
      | _ => cpu
    else cpu
  let cpu := { cpu with MEMPTR := addr }
  (23, cpu)

/-- `executeDDCBOpcode` executes a DD CB prefixed opcode. -/
def executeDDCBOpcode (cpu : CPU) : Nat × CPU :=
  let originalR := cpu.R
  let d := ReadDisplacement cpu
  let displacement := d.1
  let o := ReadOpcode d.2
  let opcode := o.1
  let cpu := { o.2 with R := originalR }
  let addr := uint16 ((cpu.IX : Int) + displacement)
  let value := ReadByte cpu addr
  if opcode ≤ 0x3F then
    executeRotateShiftIndexed cpu opcode addr value
  else if opcode ≥ 0x40 && opcode ≤ 0x7F then
    let bitNum := (opcode >>> 3) &&& 0x07
    let cpu := bitMem cpu bitNum value ((addr >>> 8) % 256)
    let cpu := { cpu with MEMPTR := addr }
    (20, cpu)
  else if opcode ≥ 0x80 && opcode ≤ 0xBF then
    executeResetBitIndexed cpu opcode addr value
  else if opcode ≥ 0xC0 then
    executeSetBitIndexed cpu opcode addr value
  else (23, cpu)

/-! ## DD-prefixed opcodes (`dd_opcodes.go`) -/

/-- `executeIncDecIndexed` handles INC/DEC (IX+d) instructions. -/
def executeIncDecIndexed (cpu : CPU) (isInc : Bool) : Nat × CPU :=
  let d := ReadDisplacement cpu
  let cpu := d.2
  let addr := uint16 ((cpu.IX : Int) + d.1)
  let value := ReadByte cpu addr
  let r := if isInc then inc8 cpu value else dec8 cpu value
  let cpu := WriteByte r.2 addr r.1
  let cpu := { cpu with MEMPTR := addr }
  (23, cpu)

/-- `executeLoadFromIndexed` handles LD r, (IX+d) instructions. -/
def executeLoadFromIndexed (cpu : CPU) (reg : Nat) : Nat × CPU :=
  let d := ReadDisplacement cpu
  let cpu := d.2
  let addr := uint16 ((cpu.IX : Int) + d.1)
  let value := ReadByte cpu addr
  let cpu :=
    match reg with
    | 0 => { cpu with B := value }
    | 1 => { cpu with C := value }
    | 2 => { cpu with D := value }
    | 3 => { cpu with E := value }
    | 4 => { cpu with H := value }
    | 5 => { cpu with L := value }
    | 7 => { cpu with A := value }
    | _ => cpu
  let cpu := { cpu with MEMPTR := addr }
  (19, cpu)

/-- `executeStoreToIndexed` handles LD (IX+d), r instructions. -/
def executeStoreToIndexed (cpu : CPU) (value : Nat) : Nat × CPU :=
  let d := ReadDisplacement cpu
  let cpu := d.2
  let addr := uint16 ((cpu.IX : Int) + d.1)
  let cpu := WriteByte cpu addr value
  let cpu := { cpu with MEMPTR := addr }
  (19, cpu)

/-- `executeALUIndexed` handles ALU operations with (IX+d) operand. -/
def executeALUIndexed (cpu : CPU) (opType : Nat) : Nat × CPU :=
  let d := ReadDisplacement cpu
  let cpu := d.2
  let addr := uint16 ((cpu.IX : Int) + d.1)
  let value := ReadByte cpu addr
  let cpu :=
    match opType with
    | 0 => add8 cpu value
    | 1 => adc8 cpu value
    | 2 => sub8 cpu value
    | 3 => sbc8 cpu value
    | 4 => and8 cpu value
    | 5 => xor8 cpu value
    | 6 => or8 cpu value
    | 7 => cp8 cpu value
    | _ => cpu
  let cpu := { cpu with MEMPTR := addr }
  (19, cpu)

/-- `add16IX` adds two 16-bit values for the IX register and updates flags. -/
def add16IX (cpu : CPU) (a b : Nat) : Nat × CPU :=
  let result := (a + b) % 65536
  let cpu := SetFlagState cpu FLAG_C (decide (result < a))
  let cpu := SetFlagState cpu FLAG_H (decide (((a &&& 0x0FFF) + (b &&& 0x0FFF)) % 65536 > 0x0FFF))
  let cpu := ClearFlag cpu FLAG_N
  let cpu := UpdateFlags3and5FromAddress cpu result
  (result, cpu)

/-! The `switch opcode` of `ExecuteDDOpcode` is written as sixteen blocks, one per
high nibble; every opcode without a `case` of its own takes the `default`
branch, `return cpu.ExecuteOpcode(opcode)`. -/

/-- Cases `0x00`-`0x0F` of the `switch` in `ExecuteDDOpcode`. -/
def ExecuteDDOpcode_00 (cpu : CPU) (opcode : Nat) : Option (Nat × CPU) :=
  match opcode with
  | 0x00 =>
    some (8, cpu)
  | 0x09 =>
    let oldIX := cpu.IX
    let r := add16IX cpu cpu.IX (GetBC cpu)
    let cpu := { r.2 with MEMPTR := (oldIX + 1) % 65536 }
    some (15, { cpu with IX := r.1 })
  | _ => ExecuteOpcode cpu opcode

/-- Cases `0x10`-`0x1F` of the `switch` in `ExecuteDDOpcode`. -/
def ExecuteDDOpcode_10 (cpu : CPU) (opcode : Nat) : Option (Nat × CPU) :=
  match opcode with
  | 0x19 =>
    let oldIX := cpu.IX
    let r := add16IX cpu cpu.IX (GetDE cpu)
    let cpu := { r.2 with MEMPTR := (oldIX + 1) % 65536 }
    some (15, { cpu with IX := r.1 })
  | _ => ExecuteOpcode cpu opcode

/-- Cases `0x20`-`0x2F` of the `switch` in `ExecuteDDOpcode`. -/
def ExecuteDDOpcode_20 (cpu : CPU) (opcode : Nat) : Option (Nat × CPU) :=
  match opcode with
  | 0x21 =>
    let r := ReadImmediateWord cpu
    some (14, { r.2 with IX := r.1 })
  | 0x22 =>
    let r := ReadImmediateWord cpu
    let cpu := WriteWord r.2 r.1 r.2.IX
    some (20, { cpu with MEMPTR := (r.1 + 1) % 65536 })
  | 0x23 =>
    some (10, { cpu with IX := (cpu.IX + 1) % 65536 })
  | 0x24 =>
    let r := inc8 cpu (GetIXH cpu)
    some (8, SetIXH r.2 r.1)
  | 0x25 =>
    let r := dec8 cpu (GetIXH cpu)
    some (8, SetIXH r.2 r.1)
  | 0x26 =>
    let r := ReadImmediateByte cpu
    some (11, SetIXH r.2 r.1)
  | 0x29 =>
    let oldIX := cpu.IX
    let r := add16IX cpu cpu.IX (cpu.IX)
    let cpu := { r.2 with MEMPTR := (oldIX + 1) % 65536 }
    some (15, { cpu with IX := r.1 })
  | 0x2A =>
    let r := ReadImmediateWord cpu
    let cpu := { r.2 with IX := ReadWord r.2 r.1 }
    some (20, { cpu with MEMPTR := (r.1 + 1) % 65536 })
  | 0x2B =>
    some (10, { cpu with IX := uint16 ((cpu.IX : Int) - 1) })
  | 0x2C =>
    let r := inc8 cpu (GetIXL cpu)
    some (8, SetIXL r.2 r.1)
  | 0x2D =>
    let r := dec8 cpu (GetIXL cpu)
    some (8, SetIXL r.2 r.1)
  | 0x2E =>
    let r := ReadImmediateByte cpu
    some (11, SetIXL r.2 r.1)
  | _ => ExecuteOpcode cpu opcode

/-- Cases `0x30`-`0x3F` of the `switch` in `ExecuteDDOpcode`. -/
def ExecuteDDOpcode_30 (cpu : CPU) (opcode : Nat) : Option (Nat × CPU) :=
  match opcode with
  | 0x34 =>
    some (executeIncDecIndexed cpu true)
  | 0x35 =>
    some (executeIncDecIndexed cpu false)
  | 0x36 =>
    let d := ReadDisplacement cpu
    let v := ReadImmediateByte d.2
    let addr := uint16 ((v.2.IX : Int) + d.1)
    let cpu := WriteByte v.2 addr v.1
    some (19, { cpu with MEMPTR := addr })
  | 0x39 =>
    let oldIX := cpu.IX
    let r := add16IX cpu cpu.IX (cpu.SP)
    let cpu := { r.2 with MEMPTR := (oldIX + 1) % 65536 }
    some (15, { cpu with IX := r.1 })
  | _ => ExecuteOpcode cpu opcode

/-- Cases `0x40`-`0x4F` of the `switch` in `ExecuteDDOpcode`. -/
def ExecuteDDOpcode_40 (cpu : CPU) (opcode : Nat) : Option (Nat × CPU) :=
  match opcode with
  | 0x40 =>
    some (8, cpu)
  | 0x44 =>
    some (8, { cpu with B := GetIXH cpu })
  | 0x45 =>
    some (8, { cpu with B := GetIXL cpu })
  | 0x46 =>
    some (executeLoadFromIndexed cpu 0)
  | 0x4C =>
    some (8, { cpu with C := GetIXH cpu })
  | 0x4D =>
    some (8, { cpu with C := GetIXL cpu })
  | 0x4E =>
    some (executeLoadFromIndexed cpu 1)
  | _ => ExecuteOpcode cpu opcode

/-- Cases `0x50`-`0x5F` of the `switch` in `ExecuteDDOpcode`. -/
def ExecuteDDOpcode_50 (cpu : CPU) (opcode : Nat) : Option (Nat × CPU) :=
  match opcode with
  | 0x54 =>
    some (8, { cpu with D := GetIXH cpu })
  | 0x55 =>
    some (8, { cpu with D := GetIXL cpu })
  | 0x56 =>
    some (executeLoadFromIndexed cpu 2)
  | 0x5C =>
    some (8, { cpu with E := GetIXH cpu })
  | 0x5D =>
    some (8, { cpu with E := GetIXL cpu })
  | 0x5E =>
    some (executeLoadFromIndexed cpu 3)
  | _ => ExecuteOpcode cpu opcode

/-- Cases `0x60`-`0x6F` of the `switch` in `ExecuteDDOpcode`. -/
def ExecuteDDOpcode_60 (cpu : CPU) (opcode : Nat) : Option (Nat × CPU) :=
  match opcode with
  | 0x60 =>
    some (8, SetIXH cpu cpu.B)
  | 0x61 =>
    some (8, SetIXH cpu cpu.C)
  | 0x62 =>
    some (8, SetIXH cpu cpu.D)
  | 0x63 =>
    some (8, SetIXH cpu cpu.E)
  | 0x64 =>
    some (8, cpu)
  | 0x65 =>
    some (8, SetIXH cpu (GetIXL cpu))
  | 0x66 =>
    some (executeLoadFromIndexed cpu 4)
  | 0x67 =>
    some (8, SetIXH cpu cpu.A)
  | 0x68 =>
    some (8, SetIXL cpu cpu.B)
  | 0x69 =>
    some (8, SetIXL cpu cpu.C)
  | 0x6A =>
    some (8, SetIXL cpu cpu.D)
  | 0x6B =>
    some (8, SetIXL cpu cpu.E)
  | 0x6C =>
    some (8, SetIXL cpu (GetIXH cpu))
  | 0x6D =>
    some (8, cpu)
  | 0x6E =>
    some (executeLoadFromIndexed cpu 5)
  | 0x6F =>
    some (8, SetIXL cpu cpu.A)
  | _ => ExecuteOpcode cpu opcode

/-- Cases `0x70`-`0x7F` of the `switch` in `ExecuteDDOpcode`. -/
def ExecuteDDOpcode_70 (cpu : CPU) (opcode : Nat) : Option (Nat × CPU) :=
  match opcode with
  | 0x70 =>
    some (executeStoreToIndexed cpu cpu.B)
  | 0x71 =>
    some (executeStoreToIndexed cpu cpu.C)
  | 0x72 =>
    some (executeStoreToIndexed cpu cpu.D)
  | 0x73 =>
    some (executeStoreToIndexed cpu cpu.E)
  | 0x74 =>
    some (executeStoreToIndexed cpu cpu.H)
  | 0x75 =>
    some (executeStoreToIndexed cpu cpu.L)
  | 0x77 =>
    some (executeStoreToIndexed cpu cpu.A)
  | 0x7C =>
    some (8, { cpu with A := GetIXH cpu })
  | 0x7D =>
    some (8, { cpu with A := GetIXL cpu })
  | 0x7E =>
    some (executeLoadFromIndexed cpu 7)
  | _ => ExecuteOpcode cpu opcode

/-- Cases `0x80`-`0x8F` of the `switch` in `ExecuteDDOpcode`. -/
def ExecuteDDOpcode_80 (cpu : CPU) (opcode : Nat) : Option (Nat × CPU) :=
  match opcode with
  | 0x84 =>
    some (8, add8 cpu (GetIXH cpu))
  | 0x85 =>
    some (8, add8 cpu (GetIXL cpu))
  | 0x86 =>
    some (executeALUIndexed cpu 0)
  | 0x8C =>
    some (8, adc8 cpu (GetIXH cpu))
  | 0x8D =>
    some (8, adc8 cpu (GetIXL cpu))
  | 0x8E =>
    some (executeALUIndexed cpu 1)
  | _ => ExecuteOpcode cpu opcode

/-- Cases `0x90`-`0x9F` of the `switch` in `ExecuteDDOpcode`. -/
def ExecuteDDOpcode_90 (cpu : CPU) (opcode : Nat) : Option (Nat × CPU) :=
  match opcode with
  | 0x94 =>
    some (8, sub8 cpu (GetIXH cpu))
  | 0x95 =>
    some (8, sub8 cpu (GetIXL cpu))
  | 0x96 =>
    some (executeALUIndexed cpu 2)
  | 0x9C =>
    some (8, sbc8 cpu (GetIXH cpu))
  | 0x9D =>
    some (8, sbc8 cpu (GetIXL cpu))
  | 0x9E =>
    some (executeALUIndexed cpu 3)
  | _ => ExecuteOpcode cpu opcode

/-- Cases `0xA0`-`0xAF` of the `switch` in `ExecuteDDOpcode`. -/
def ExecuteDDOpcode_A0 (cpu : CPU) (opcode : Nat) : Option (Nat × CPU) :=
  match opcode with
  | 0xA4 =>
    some (8, and8 cpu (GetIXH cpu))
  | 0xA5 =>
    some (8, and8 cpu (GetIXL cpu))
  | 0xA6 =>
    some (executeALUIndexed cpu 4)
  | 0xAC =>
    some (8, xor8 cpu (GetIXH cpu))
  | 0xAD =>
    some (8, xor8 cpu (GetIXL cpu))
  | 0xAE =>
    some (executeALUIndexed cpu 5)
  | _ => ExecuteOpcode cpu opcode

/-- Cases `0xB0`-`0xBF` of the `switch` in `ExecuteDDOpcode`. -/
def ExecuteDDOpcode_B0 (cpu : CPU) (opcode : Nat) : Option (Nat × CPU) :=
  match opcode with
  | 0xB4 =>
    some (8, or8 cpu (GetIXH cpu))
  | 0xB5 =>
    some (8, or8 cpu (GetIXL cpu))
  | 0xB6 =>
    some (executeALUIndexed cpu 6)
  | 0xBC =>
    some (8, cp8 cpu (GetIXH cpu))
  | 0xBD =>
    some (8, cp8 cpu (GetIXL cpu))
  | 0xBE =>
    some (executeALUIndexed cpu 7)
  | _ => ExecuteOpcode cpu opcode

/-- Cases `0xC0`-`0xCF` of the `switch` in `ExecuteDDOpcode`. -/
def ExecuteDDOpcode_C0 (cpu : CPU) (opcode : Nat) : Option (Nat × CPU) :=
  match opcode with
  | 0xCB =>
    some (executeDDCBOpcode cpu)
  | _ => ExecuteOpcode cpu opcode

/-- Cases `0xD0`-`0xDF` of the `switch` in `ExecuteDDOpcode`. -/
def ExecuteDDOpcode_D0 (cpu : CPU) (opcode : Nat) : Option (Nat × CPU) :=
  match opcode with
  | 0xDD =>
    some (8, cpu)
  | _ => ExecuteOpcode cpu opcode

/-- Cases `0xE0`-`0xEF` of the `switch` in `ExecuteDDOpcode`. -/
def ExecuteDDOpcode_E0 (cpu : CPU) (opcode : Nat) : Option (Nat × CPU) :=
  match opcode with
  | 0xE1 =>
    let r := Pop cpu
    some (14, { r.2 with IX := r.1 })
  | 0xE3 =>
    let temp := ReadWord cpu cpu.SP
    let cpu := WriteWord cpu cpu.SP cpu.IX
    let cpu := { cpu with IX := temp }
    some (23, { cpu with MEMPTR := temp })
  | 0xE5 =>
    some (15, Push cpu cpu.IX)
  | 0xE9 =>
    some (8, { cpu with PC := cpu.IX })
  | _ => ExecuteOpcode cpu opcode

/-- Cases `0xF0`-`0xFF` of the `switch` in `ExecuteDDOpcode`. -/
def ExecuteDDOpcode_F0 (cpu : CPU) (opcode : Nat) : Option (Nat × CPU) :=
  match opcode with
  | 0xF9 =>
    some (10, { cpu with SP := cpu.IX })
  | 0xFD =>
    some (8, cpu)
  | _ => ExecuteOpcode cpu opcode

/-- `ExecuteDDOpcode` executes a DD-prefixed opcode and returns the number of
T-states used together with the new state. -/
def ExecuteDDOpcode (cpu : CPU) (opcode : Nat) : Option (Nat × CPU) :=
  match opcode / 16 with
  | 0 => ExecuteDDOpcode_00 cpu opcode
  | 1 => ExecuteDDOpcode_10 cpu opcode
  | 2 => ExecuteDDOpcode_20 cpu opcode
  | 3 => ExecuteDDOpcode_30 cpu opcode
  | 4 => ExecuteDDOpcode_40 cpu opcode
  | 5 => ExecuteDDOpcode_50 cpu opcode
  | 6 => ExecuteDDOpcode_60 cpu opcode
  | 7 => ExecuteDDOpcode_70 cpu opcode
  | 8 => ExecuteDDOpcode_80 cpu opcode
  | 9 => ExecuteDDOpcode_90 cpu opcode
  | 10 => ExecuteDDOpcode_A0 cpu opcode
  | 11 => ExecuteDDOpcode_B0 cpu opcode
  | 12 => ExecuteDDOpcode_C0 cpu opcode
  | 13 => ExecuteDDOpcode_D0 cpu opcode
  | 14 => ExecuteDDOpcode_E0 cpu opcode
  | 15 => ExecuteDDOpcode_F0 cpu opcode
  | _ => ExecuteOpcode cpu opcode

/-! ## Step driver and interrupts (`z80.go`, lines 286-367) -/

/-- `HandleInterrupt` handles interrupt processing. -/
def HandleInterrupt (cpu : CPU) : Nat × CPU :=
  let cpu :=
    if cpu.HALT then
      let cpu := { cpu with HALT := false }
      { cpu with PC := (cpu.PC + 1) % 65536 }
    else cpu
  let cpu := { cpu with IFF1 := false }
  let cpu := { cpu with IFF2 := false }
  match cpu.IM with
  | 0 | 1 =>
    let cpu := Push cpu cpu.PC
    let cpu := { cpu with PC := 0x0038 }
    (13, cpu)
  | 2 =>
    let cpu := Push cpu cpu.PC
    let vectorAddr := (cpu.I <<< 8) ||| 0xFF
    let cpu := { cpu with PC := ReadWord cpu vectorAddr }
    (19, cpu)
  | _ => (0, cpu)

/-- `HandleNMI` handles a non-maskable interrupt. -/
def HandleNMI (cpu : CPU) : Nat × CPU :=
  let cpu := Push cpu cpu.PC
  let cpu := { cpu with PC := 0x0066 }
  let cpu := { cpu with IFF1 := false }
  (11, cpu)

/-- `ExecuteOneInstruction` executes a single instruction and returns the number
of T-states used together with the new state.  The decoders of the ED and FD
tables are not part of the available sources; they are the two parameters
`ExecuteEDOpcode` and `ExecuteFDOpcode`. -/
def ExecuteOneInstruction (ExecuteEDOpcode ExecuteFDOpcode : CPU → Nat → Option (Nat × CPU))
    (cpu : CPU) : Option (Nat × CPU) :=
  if cpu.IFF1 && CheckInterrupt cpu then
    some (HandleInterrupt cpu)
  else if cpu.HALT then
    some (4, cpu)
  else
    let o := ReadOpcode cpu
    let opcode := o.1
    let cpu := o.2
    match opcode with
    | 0xCB =>
      let c := ReadOpcode cpu
      some (ExecuteCBOpcode c.2 c.1)
    | 0xDD =>
      let d := ReadOpcode cpu
      ExecuteDDOpcode d.2 d.1
    | 0xED =>
      let e := ReadOpcode cpu
      ExecuteEDOpcode e.2 e.1
    | 0xFD =>
      let f := ReadOpcode cpu
      ExecuteFDOpcode f.2 f.1
    | _ => ExecuteOpcode cpu opcode

/-! ## Auxiliary definitions used in the statements -/

/-- `New` creates a new Z80 CPU instance: every register is zero, and the two
collaborators are the given memory content and port behaviour. -/
def New (memory : Nat → Nat) (intPending : Bool) (portIn : Nat → Nat) : CPU :=
  { A := 0, F := 0, B := 0, C := 0, D := 0, E := 0, H := 0, L := 0,
    A_ := 0, F_ := 0, B_ := 0, C_ := 0, D_ := 0, E_ := 0, H_ := 0, L_ := 0,
    IX := 0, IY := 0, SP := 0, PC := 0, I := 0, R := 0, IM := 0,
    IFF1 := false, IFF2 := false, HALT := false, MEMPTR := 0,
    Memory := memory, IntPending := intPending, PortIn := portIn, PortOut := [] }

/-- A memory holding the given bytes from address 0 on and zero elsewhere. -/
def memOfList (bytes : List Nat) : Nat → Nat := fun a => bytes.getD a 0

/-- The zeroed processor over an all-zero memory, with no interrupt pending. -/
def cpu0 : CPU := New (fun _ => 0) false (fun _ => 0)

/-- Value of the flag byte after one flag has been written: the common body of
`SetFlag`, `SetFlagState` and `ClearFlag`. -/
def flagUpd (f flag : Nat) (c : Bool) : Nat := if c then f ||| flag else bitClear f flag

/-- Bit `j` of a flag byte. -/
def flagBit (f j : Nat) : Bool := f.testBit j

/-- The number of 1 bits among the low eight bits of `r`, computed arithmetically. -/
def bitCount8 (r : Nat) : Nat := ((List.range 8).map (fun i => r / 2 ^ i % 2)).sum

/-- The INC r / DEC r opcode pairs of the unprefixed table, each with the
register it acts on. -/
def incDecPairs : List (Nat × Nat × (CPU → Nat)) :=
  [(0x04, 0x05, CPU.B), (0x0C, 0x0D, CPU.C), (0x14, 0x15, CPU.D), (0x1C, 0x1D, CPU.E),
   (0x24, 0x25, CPU.H), (0x2C, 0x2D, CPU.L), (0x3C, 0x3D, CPU.A)]

/-- The register selected by the register field `n` of an opcode
(0=B, 1=C, 2=D, 3=E, 4=H, 5=L, 7=A). -/
def reg8 (cpu : CPU) (n : Nat) : Nat :=
  match n with
  | 0 => cpu.B
  | 1 => cpu.C
  | 2 => cpu.D
  | 3 => cpu.E
  | 4 => cpu.H
  | 5 => cpu.L
  | 7 => cpu.A
  | _ => 0

/-- The byte that the CB operation selected by `op` computes from the operand `v`
when the carry flag is `c`, written arithmetically: for `op` below `0x40` the
rotate or shift chosen by bits 3-5 (RLC, RRC, RL, RR, SLA, SRA, SLL, SRL), for
`op` in `0x80`-`0xBF` the operand with bit `(op >> 3) & 7` reset, and otherwise
the operand with that bit set. -/
def cbOperation (c : Bool) (op v : Nat) : Nat :=
  if op < 0x40 then
    match (op >>> 3) &&& 7 with
    | 0 => v * 2 % 256 + v / 128
    | 1 => v / 2 + v % 2 * 128
    | 2 => v * 2 % 256 + boolToByte c
    | 3 => v / 2 + boolToByte c * 128
    | 4 => v * 2 % 256
    | 5 => v / 2 + v / 128 * 128
    | 6 => v * 2 % 256 + 1
    | _ => v / 2
  else if op < 0xC0 then
    v - v / 2 ^ ((op >>> 3) &&& 7) % 2 * 2 ^ ((op >>> 3) &&& 7)
  else
    v + (1 - v / 2 ^ ((op >>> 3) &&& 7) % 2) * 2 ^ ((op >>> 3) &&& 7)

/-- Memory of scenario S6: the bytes `DD CB 05 00` at address 0 and the byte
`0x01` at address `0x4005`. -/
def memS6 : Nat → Nat := fun a =>
  if a = 0 then 0xDD else if a = 1 then 0xCB else if a = 2 then 0x05
  else if a = 3 then 0x00 else if a = 0x4005 then 0x01 else 0

/-- Initial state of scenario S6: `IX = 0x4000` over `memS6`, everything else zero. -/
def cpuS6 : CPU := { New memS6 false (fun _ => 0) with IX := 0x4000 }

/-- A decoder for the tables that are not modelled: it rejects every opcode. -/
def noDecoder : CPU → Nat → Option (Nat × CPU) := fun _ _ => none

/-- The flag outcome of the 16-bit additions ADD HL,ww and ADD IX,ww of `a` and `b`,
from the state `cpu` to the state `s`. -/
def Add16Flags (cpu s : CPU) (a b : Nat) : Prop :=
  GetFlag s FLAG_C = decide (a + b > 0xFFFF) ∧
  GetFlag s FLAG_H = decide ((a &&& 0xFFF) + (b &&& 0xFFF) > 0xFFF) ∧
  GetFlag s FLAG_N = false ∧
  GetFlag s FLAG_X = ((a + b) % 65536 / 256).testBit 3 ∧
  GetFlag s FLAG_Y = ((a + b) % 65536 / 256).testBit 5 ∧
  GetFlag s FLAG_S = GetFlag cpu FLAG_S ∧
  GetFlag s FLAG_Z = GetFlag cpu FLAG_Z ∧
  GetFlag s FLAG_PV = GetFlag cpu FLAG_PV

/-- The operand ww of the opcodes `0x09 + 16 * k` (ADD HL,ww and, after DD,
ADD IX,ww): BC, DE, the destination pair itself (`self`), SP. -/
def addOperand (cpu : CPU) (self k : Nat) : Nat :=
  match k with
  | 0 => GetBC cpu
  | 1 => GetDE cpu
  | 2 => self
  | _ => cpu.SP

/-- The state with `HL = 0x8000` and `F = 0` on which ADD HL,HL is run. -/
def cpuAddHL : CPU := { cpu0 with H := 0x80, L := 0x00, F := 0x00 }

/-- The correction of DAA as the specification words it: `0x06` if H is set or the
low nibble of A exceeds 9, combined with `0x60` if C is set or A exceeds `0x99`. -/
def daaCorrection (cpu : CPU) : Nat :=
  (if GetFlag cpu FLAG_H = true ∨ (cpu.A &&& 0xF) > 9 then 0x06 else 0) |||
  (if GetFlag cpu FLAG_C = true ∨ cpu.A > 0x99 then 0x60 else 0)

/-- Initial state of scenario S3: `A = 0x15` and `F = 0x00`, over a memory holding
the program `C6 27` (ADD A,0x27) and `27` (DAA) at address 0. -/
def cpuS3 : CPU :=
  { New (memOfList [0xC6, 0x27, 0x27]) false (fun _ => 0) with A := 0x15, F := 0x00 }

/-- A state for BIT 7,B: `B = 0x80`, everything else zero. -/
def cpuBitB : CPU := { cpu0 with B := 0x80 }

/-- A state for BIT 0,(HL): `MEMPTR = 0x2800` over an all-zero memory. -/
def cpuBitHL : CPU := { cpu0 with MEMPTR := 0x2800 }

/-- A state for BIT 0,(IX+5): `IX = 0x2800` over a memory holding `DD CB 05 46`
at address 0. -/
def cpuBitIX : CPU :=
  { New (memOfList [0xDD, 0xCB, 0x05, 0x46]) false (fun _ => 0) with IX := 0x2800 }

/-- The flag outcome shared by the eight CB rotate and shift primitives: `r` is
the pair returned by the primitive and `out` the bit moved out of the operand. -/
def RotateFlags (r : Nat × CPU) (out : Bool) : Prop :=
  GetFlag r.2 FLAG_C = out ∧ GetFlag r.2 FLAG_N = false ∧ GetFlag r.2 FLAG_H = false ∧
  GetFlag r.2 FLAG_S = r.1.testBit 7 ∧ GetFlag r.2 FLAG_Z = decide (r.1 = 0) ∧
  GetFlag r.2 FLAG_X = r.1.testBit 3 ∧ GetFlag r.2 FLAG_Y = r.1.testBit 5 ∧
  GetFlag r.2 FLAG_PV = decide (bitCount8 r.1 % 2 = 0)

/-- The flag outcome shared by RLCA, RRCA, RLA and RRA besides the carry: N and H
clear, X and Y from the new accumulator, S, Z and P/V as before. -/
def AccRotateFlags (cpu s : CPU) : Prop :=
  GetFlag s FLAG_N = false ∧ GetFlag s FLAG_H = false ∧
  GetFlag s FLAG_X = s.A.testBit 3 ∧ GetFlag s FLAG_Y = s.A.testBit 5 ∧
  GetFlag s FLAG_S = GetFlag cpu FLAG_S ∧ GetFlag s FLAG_Z = GetFlag cpu FLAG_Z ∧
  GetFlag s FLAG_PV = GetFlag cpu FLAG_PV

/-- A state for the accumulator rotates: `A = 0x81`, everything else zero. -/
def cpuRot : CPU := { cpu0 with A := 0x81 }

/-- The state on which SCF and CCF leave X and Y set although bits 3 and 5 of A
are clear: `A = 0x00` and `F = 0x28`. -/
def cpuXY : CPU := { cpu0 with A := 0x00, F := 0x28 }

/-- The return address that an accepted maskable interrupt pushes: `PC`, advanced
by one when the processor was halted. -/
def interruptReturn (cpu : CPU) : Nat :=
  if cpu.HALT then (cpu.PC + 1) % 65536 else cpu.PC

/-- The state of the IM 2 example: IFF1 set, an interrupt pending, `I = 0x12`, and
the bytes `0x34`, `0x56` at `0x12FF`, `0x1300`. -/
def cpuIM2 : CPU :=
  { New (fun a => if a = 0x12FF then 0x34 else if a = 0x1300 then 0x56 else 0) true (fun _ => 0)
    with IFF1 := true, IM := 2, I := 0x12 }

/-- One `ExecuteOneInstruction` call for each entry of `pending`, the entry being
what `CheckInterrupt` reports at that call; the result is the list of the T-states
returned and the final state, or `none` if a call fails. -/
def runCalls (ExecuteEDOpcode ExecuteFDOpcode : CPU → Nat → Option (Nat × CPU)) :
    List Bool → CPU → Option (List Nat × CPU)
  | [], cpu => some ([], cpu)
  | p :: ps, cpu =>
    match ExecuteOneInstruction ExecuteEDOpcode ExecuteFDOpcode { cpu with IntPending := p } with
    | some r => (runCalls ExecuteEDOpcode ExecuteFDOpcode ps r.2).map (fun q => (r.1 :: q.1, q.2))
    | none => none

/-- A state about to execute HALT: the byte `0x76` at `PC = 0x0100`. -/
def cpuBeforeHalt : CPU :=
  { New (fun a => if a = 0x0100 then 0x76 else 0) false (fun _ => 0) with PC := 0x0100 }

/-- A halted processor: `HALT` set at `PC = 0x0100`, `SP = 0x8000`, IFF1 set. -/
def cpuHalted : CPU := { cpu0 with HALT := true, PC := 0x0100, SP := 0x8000, IFF1 := true }

/-- The state of the EI example: the bytes `FB 00` (EI, NOP) at address 0,
interrupts disabled, an interrupt pending. -/
def cpuEI : CPU := New (memOfList [0xFB, 0x00]) true (fun _ => 0)

/-- The opcode bytes for which `ExecuteDDOpcode` has a case of its own; every other
byte reaches its default branch. -/
def ddCases : List Nat :=
  [0x00, 0x09, 0x19, 0x21, 0x22, 0x23, 0x24, 0x25, 0x26, 0x29, 0x2A, 0x2B, 0x2C, 0x2D, 0x2E,
   0x34, 0x35, 0x36, 0x39, 0x40, 0x44, 0x45, 0x46, 0x4C, 0x4D, 0x4E, 0x54, 0x55, 0x56, 0x5C,
   0x5D, 0x5E, 0x60, 0x61, 0x62, 0x63, 0x64, 0x65, 0x66, 0x67, 0x68, 0x69, 0x6A, 0x6B, 0x6C,
   0x6D, 0x6E, 0x6F, 0x70, 0x71, 0x72, 0x73, 0x74, 0x75, 0x77, 0x7C, 0x7D, 0x7E, 0x84, 0x85,
   0x86, 0x8C, 0x8D, 0x8E, 0x94, 0x95, 0x96, 0x9C, 0x9D, 0x9E, 0xA4, 0xA5, 0xA6, 0xAC, 0xAD,
   0xAE, 0xB4, 0xB5, 0xB6, 0xBC, 0xBD, 0xBE, 0xCB, 0xDD, 0xE1, 0xE3, 0xE5, 0xE9, 0xF9, 0xFD]

/-- The state of the DD fall-through example: the bytes `DD 04` (DD, INC B) at
address 0. -/
def cpuDD04 : CPU := New (memOfList [0xDD, 0x04]) false (fun _ => 0)

/-- The state of the LD A,(nn) example: `A = 0x12`, `HL = 0x4000`, the bytes
`3A FF 59 CB 7E` (LD A,(0x59FF); BIT 7,(HL)) at address 0, `0x77` at `0x59FF` and
`0x80` at `0x4000`. -/
def cpuLdA : CPU :=
  { New (fun a => if a = 0x59FF then 0x77 else if a = 0x4000 then 0x80
      else memOfList [0x3A, 0xFF, 0x59, 0xCB, 0x7E] a) false (fun _ => 0)
    with A := 0x12, H := 0x40, L := 0x00 }

/-- The address that the load opcodes 0x0A, 0x1A, 0x22, 0x2A, 0x3A go through: BC, DE,
or the immediate word nn read at PC. -/
def loadAddress (cpu : CPU) (op : Nat) : Nat :=
  match op with
  | 0x0A => GetBC cpu
  | 0x1A => GetDE cpu
  | _ => (ReadImmediateWord cpu).1

/-- The T-states of the load opcodes 0x0A, 0x1A (7), 0x3A (13), 0x22 and 0x2A (16). -/
def loadTStates (op : Nat) : Nat :=
  match op with
  | 0x0A => 7
  | 0x1A => 7
  | 0x3A => 13
  | _ => 16

/-- The state of the IN A,(n) example: `A = 0x12`, the operand byte `0x34` at `PC = 0`,
and a port that returns `0x56`. -/
def cpuIn : CPU := { New (memOfList [0x34]) false (fun _ => 0x56) with A := 0x12 }

/-- The flag condition that bits 5-3 of a conditional jump, call or return select:
NZ, Z, NC, C, PO, PE, P, M. -/
def condition (cpu : CPU) (cc : Nat) : Bool :=
  match cc with
  | 0 => !GetFlag cpu FLAG_Z
  | 1 => GetFlag cpu FLAG_Z
  | 2 => !GetFlag cpu FLAG_C
  | 3 => GetFlag cpu FLAG_C
  | 4 => !GetFlag cpu FLAG_PV
  | 5 => GetFlag cpu FLAG_PV
  | 6 => !GetFlag cpu FLAG_S
  | _ => GetFlag cpu FLAG_S

/-- The state of the JP example: the bytes `CA 34 12` (JP Z,0x1234) at address
`0x0100`, with the flag byte `F`. -/
def cpuJp (f : Nat) : CPU :=
  { New (fun a => if a = 0x0100 then 0xCA else if a = 0x0101 then 0x34
      else if a = 0x0102 then 0x12 else 0) false (fun _ => 0)
    with PC := 0x0100, F := f }

/-- The state of the JR example: the bytes `20 FE` (JR NZ,-2) at address `0x0100`,
with the flag byte `F`. -/
def cpuJr (f : Nat) : CPU :=
  { New (fun a => if a = 0x0100 then 0x20 else if a = 0x0101 then 0xFE else 0) false (fun _ => 0)
    with PC := 0x0100, F := f, MEMPTR := 0x4321 }

/-- The state of the CALL example: the bytes `CC 34 12` (CALL Z,0x1234) at address
`0x0100`, `SP = 0x8000`, with the flag byte `F`. -/
def cpuCall (f : Nat) : CPU :=
  { New (fun a => if a = 0x0100 then 0xCC else if a = 0x0101 then 0x34
      else if a = 0x0102 then 0x12 else 0) false (fun _ => 0)
    with PC := 0x0100, SP := 0x8000, F := f }

/-- The state of the RET example: the byte `C8` (RET Z) at address `0x0100`,
`SP = 0x7FFE` and the word `0x0103` on the stack, with the flag byte `F`. -/
def cpuRet (f : Nat) : CPU :=
  { New (fun a => if a = 0x0100 then 0xC8 else if a = 0x7FFE then 0x03
      else if a = 0x7FFF then 0x01 else 0) false (fun _ => 0)
    with PC := 0x0100, SP := 0x7FFE, F := f }

/-- The register pair numbered `j` in the PUSH and POP instructions considered:
BC, DE, HL, AF, IX. -/
def pairValue (cpu : CPU) (j : Nat) : Nat :=
  match j with
  | 0 => GetBC cpu
  | 1 => GetDE cpu
  | 2 => GetHL cpu
  | 3 => GetAF cpu
  | _ => cpu.IX

/-- The instruction PUSH rr for the pair numbered `j`: opcodes 0xC5, 0xD5, 0xE5, 0xF5 of
the unprefixed table and 0xE5 of the DD table. -/
def pushOpcode (cpu : CPU) (j : Nat) : Option (Nat × CPU) :=
  match j with
  | 0 => ExecuteOpcode cpu 0xC5
  | 1 => ExecuteOpcode cpu 0xD5
  | 2 => ExecuteOpcode cpu 0xE5
  | 3 => ExecuteOpcode cpu 0xF5
  | _ => ExecuteDDOpcode cpu 0xE5

/-- The instruction POP rr for the pair numbered `k`: opcodes 0xC1, 0xD1, 0xE1, 0xF1 of
the unprefixed table and 0xE1 of the DD table. -/
def popOpcode (cpu : CPU) (k : Nat) : Option (Nat × CPU) :=
  match k with
  | 0 => ExecuteOpcode cpu 0xC1
  | 1 => ExecuteOpcode cpu 0xD1
  | 2 => ExecuteOpcode cpu 0xE1
  | 3 => ExecuteOpcode cpu 0xF1
  | _ => ExecuteDDOpcode cpu 0xE1

/-- A state for PUSH and POP: `BC = 0x1234`, `SP = 0x8000`. -/
def cpuPush : CPU := { cpu0 with B := 0x12, C := 0x34, SP := 0x8000 }

/-- A state with distinct values in both register banks. -/
def cpuBanks : CPU :=
  { cpu0 with A := 0x01, F := 0x02, B := 0x03, C := 0x04, D := 0x05, E := 0x06, H := 0x07,
              L := 0x08, A_ := 0x11, F_ := 0x12, B_ := 0x13, C_ := 0x14, D_ := 0x15,
              E_ := 0x16, H_ := 0x17, L_ := 0x18 }

/-- The state of the DD ED example: the bytes `DD ED` at address 0. -/
def cpuDDED : CPU := New (memOfList [0xDD, 0xED]) false (fun _ => 0)

/-- The decimal value of a packed-BCD byte: ten times the high nibble plus the low
nibble. -/
def bcdValue (a : Nat) : Nat := 10 * (a / 16) + a % 16

/-- The packed-BCD encoding of a number below 100: the tens digit in the high nibble,
the units digit in the low nibble. -/
def bcdEncode (n : Nat) : Nat := n / 10 * 16 + n % 10

/-! ## Flag-byte algebra -/

theorem SetFlagState_eq (cpu : CPU) (flag : Nat) (c : Bool) :
    SetFlagState cpu flag c = { cpu with F := flagUpd cpu.F flag c } := by
  cases c <;> rfl

theorem SetFlag_eq (cpu : CPU) (flag : Nat) (c : Bool) :
    SetFlag cpu flag c = { cpu with F := flagUpd cpu.F flag c } := by
  cases c <;> rfl

theorem ClearFlag_eq (cpu : CPU) (flag : Nat) :
    ClearFlag cpu flag = { cpu with F := flagUpd cpu.F flag false } := rfl

theorem and_two_pow_ne_zero (x i : Nat) : ((x &&& 2 ^ i) != 0) = x.testBit i := by
  rw [Nat.and_two_pow]
  cases x.testBit i <;> simp

theorem and_two_pow_eq_zero (x i : Nat) : ((x &&& 2 ^ i) == 0) = !x.testBit i := by
  rw [Nat.and_two_pow]
  cases x.testBit i <;> simp

theorem testBit_flagUpd (f i j : Nat) (c : Bool) (hj : j < 8) :
    (flagUpd f (2 ^ i) c).testBit j = if j = i then c else f.testBit j := by
  have h255 : Nat.testBit 255 j = true := by
    have := @Nat.testBit_two_pow_sub_one 8 j
    simpa [hj] using this
  cases c
  · simp only [flagUpd, bitClear, Nat.testBit_and, Nat.testBit_xor, Nat.testBit_two_pow, h255]
    by_cases h : j = i
    · subst h; simp [h255]
    · have h2 : ¬ i = j := fun e => h e.symm
      simp [h, h2, h255]
  · simp only [flagUpd, Nat.testBit_or, Nat.testBit_two_pow]
    by_cases h : j = i
    · subst h; simp
    · have h2 : ¬ i = j := fun e => h e.symm
      simp [h, h2]

theorem flagUpd_lt (f flag : Nat) (c : Bool) (hf : f < 256) (hflag : flag < 256) :
    flagUpd f flag c < 256 := by
  cases c
  · exact Nat.lt_of_le_of_lt Nat.and_le_left hf
  · exact Nat.or_lt_two_pow (n := 8) hf hflag

theorem flagUpd_false_lt (f flag : Nat) (hflag : flag < 256) : flagUpd f flag false < 256 := by
  have h1 : flag ^^^ 255 < 2 ^ 8 := Nat.xor_lt_two_pow (n := 8) hflag (by decide)
  exact Nat.lt_of_le_of_lt Nat.and_le_right h1

theorem flagByte_ext (f g : Nat) (hf : f < 256) (hg : g < 256)
    (h : ∀ j, j < 8 → flagBit f j = flagBit g j) : f = g := by
  apply Nat.eq_of_testBit_eq
  intro j
  by_cases hj : j < 8
  · exact h j hj
  · have h8 : 2 ^ 8 ≤ 2 ^ j := Nat.pow_le_pow_right (by decide) (by omega)
    rw [Nat.testBit_lt_two_pow (Nat.lt_of_lt_of_le hf h8),
      Nat.testBit_lt_two_pow (Nat.lt_of_lt_of_le hg h8)]

@[simp] theorem flagBit_flagUpd_1 (f j : Nat) (c : Bool) (hj : j < 8) :
    flagBit (flagUpd f 1 c) j = if j = 0 then c else flagBit f j :=
  testBit_flagUpd f 0 j c hj

@[simp] theorem flagBit_flagUpd_2 (f j : Nat) (c : Bool) (hj : j < 8) :
    flagBit (flagUpd f 2 c) j = if j = 1 then c else flagBit f j :=
  testBit_flagUpd f 1 j c hj

@[simp] theorem flagBit_flagUpd_4 (f j : Nat) (c : Bool) (hj : j < 8) :
    flagBit (flagUpd f 4 c) j = if j = 2 then c else flagBit f j :=
  testBit_flagUpd f 2 j c hj

@[simp] theorem flagBit_flagUpd_8 (f j : Nat) (c : Bool) (hj : j < 8) :
    flagBit (flagUpd f 8 c) j = if j = 3 then c else flagBit f j :=
  testBit_flagUpd f 3 j c hj

@[simp] theorem flagBit_flagUpd_16 (f j : Nat) (c : Bool) (hj : j < 8) :
    flagBit (flagUpd f 16 c) j = if j = 4 then c else flagBit f j :=
  testBit_flagUpd f 4 j c hj

@[simp] theorem flagBit_flagUpd_32 (f j : Nat) (c : Bool) (hj : j < 8) :
    flagBit (flagUpd f 32 c) j = if j = 5 then c else flagBit f j :=
  testBit_flagUpd f 5 j c hj

@[simp] theorem flagBit_flagUpd_64 (f j : Nat) (c : Bool) (hj : j < 8) :
    flagBit (flagUpd f 64 c) j = if j = 6 then c else flagBit f j :=
  testBit_flagUpd f 6 j c hj

@[simp] theorem flagBit_flagUpd_128 (f j : Nat) (c : Bool) (hj : j < 8) :
    flagBit (flagUpd f 128 c) j = if j = 7 then c else flagBit f j :=
  testBit_flagUpd f 7 j c hj

@[simp] theorem GetFlag_1 (cpu : CPU) : GetFlag cpu 1 = flagBit cpu.F 0 :=
  and_two_pow_ne_zero cpu.F 0

@[simp] theorem GetFlag_2 (cpu : CPU) : GetFlag cpu 2 = flagBit cpu.F 1 :=
  and_two_pow_ne_zero cpu.F 1

@[simp] theorem GetFlag_4 (cpu : CPU) : GetFlag cpu 4 = flagBit cpu.F 2 :=
  and_two_pow_ne_zero cpu.F 2

@[simp] theorem GetFlag_8 (cpu : CPU) : GetFlag cpu 8 = flagBit cpu.F 3 :=
  and_two_pow_ne_zero cpu.F 3

@[simp] theorem GetFlag_16 (cpu : CPU) : GetFlag cpu 16 = flagBit cpu.F 4 :=
  and_two_pow_ne_zero cpu.F 4

@[simp] theorem GetFlag_32 (cpu : CPU) : GetFlag cpu 32 = flagBit cpu.F 5 :=
  and_two_pow_ne_zero cpu.F 5

@[simp] theorem GetFlag_64 (cpu : CPU) : GetFlag cpu 64 = flagBit cpu.F 6 :=
  and_two_pow_ne_zero cpu.F 6

@[simp] theorem GetFlag_128 (cpu : CPU) : GetFlag cpu 128 = flagBit cpu.F 7 :=
  and_two_pow_ne_zero cpu.F 7

@[simp] theorem and_1_ne (x : Nat) : ((x &&& 1) != 0) = x.testBit 0 := and_two_pow_ne_zero x 0
@[simp] theorem and_8_ne (x : Nat) : ((x &&& 8) != 0) = x.testBit 3 := and_two_pow_ne_zero x 3
@[simp] theorem and_16_ne (x : Nat) : ((x &&& 16) != 0) = x.testBit 4 := and_two_pow_ne_zero x 4
@[simp] theorem and_32_ne (x : Nat) : ((x &&& 32) != 0) = x.testBit 5 := and_two_pow_ne_zero x 5
@[simp] theorem and_128_ne (x : Nat) : ((x &&& 128) != 0) = x.testBit 7 := and_two_pow_ne_zero x 7
@[simp] theorem and_128_eq (x : Nat) : ((x &&& 128) == 0) = !x.testBit 7 := and_two_pow_eq_zero x 7
@[simp] theorem and_15 (x : Nat) : x &&& 15 = x % 16 := Nat.and_pow_two_sub_one_eq_mod x 4

theorem int8_eq (b : Nat) (h : b < 256) : int8 b = (b : Int) - 256 * ((b / 128 : Nat) : Int) := by
  unfold int8
  split <;> omega

attribute [simp] SetFlagState_eq SetFlag_eq ClearFlag_eq FLAG_C FLAG_N FLAG_PV FLAG_X FLAG_H
  FLAG_Y FLAG_Z FLAG_S FLAG_3 FLAG_5

/-! ## Frame lemmas: the refresh register is touched by `ReadOpcode` only -/

@[simp] theorem SetFlagState_R (cpu : CPU) (flag : Nat) (c : Bool) : (SetFlagState cpu flag c).R = cpu.R := by
  cases c <;> rfl
@[simp] theorem SetFlag_R (cpu : CPU) (flag : Nat) (c : Bool) : (SetFlag cpu flag c).R = cpu.R := by
  cases c <;> rfl
@[simp] theorem ClearFlag_R (cpu : CPU) (flag : Nat) : (ClearFlag cpu flag).R = cpu.R := rfl
@[simp] theorem WriteByte_R (cpu : CPU) (a v : Nat) : (WriteByte cpu a v).R = cpu.R := rfl
@[simp] theorem WriteWord_R (cpu : CPU) (a v : Nat) : (WriteWord cpu a v).R = cpu.R := by simp [WriteWord, WriteByte]
@[simp] theorem WritePort_R (cpu : CPU) (a v : Nat) : (WritePort cpu a v).R = cpu.R := rfl
@[simp] theorem SetBC_R (cpu : CPU) (v : Nat) : (SetBC cpu v).R = cpu.R := rfl
@[simp] theorem SetDE_R (cpu : CPU) (v : Nat) : (SetDE cpu v).R = cpu.R := rfl
@[simp] theorem SetHL_R (cpu : CPU) (v : Nat) : (SetHL cpu v).R = cpu.R := rfl
@[simp] theorem SetAF_R (cpu : CPU) (v : Nat) : (SetAF cpu v).R = cpu.R := rfl
@[simp] theorem SetAF__R (cpu : CPU) (v : Nat) : (SetAF_ cpu v).R = cpu.R := rfl
@[simp] theorem SetBC__R (cpu : CPU) (v : Nat) : (SetBC_ cpu v).R = cpu.R := rfl
@[simp] theorem SetDE__R (cpu : CPU) (v : Nat) : (SetDE_ cpu v).R = cpu.R := rfl
@[simp] theorem SetHL__R (cpu : CPU) (v : Nat) : (SetHL_ cpu v).R = cpu.R := rfl
@[simp] theorem SetIXH_R (cpu : CPU) (v : Nat) : (SetIXH cpu v).R = cpu.R := rfl
@[simp] theorem SetIXL_R (cpu : CPU) (v : Nat) : (SetIXL cpu v).R = cpu.R := rfl
@[simp] theorem ReadImmediateByte_R (cpu : CPU) : (ReadImmediateByte cpu).2.R = cpu.R := by simp [ReadImmediateByte]
@[simp] theorem ReadImmediateWord_R (cpu : CPU) : (ReadImmediateWord cpu).2.R = cpu.R := by simp [ReadImmediateWord]
@[simp] theorem ReadDisplacement_R (cpu : CPU) : (ReadDisplacement cpu).2.R = cpu.R := by simp [ReadDisplacement]
@[simp] theorem Push_R (cpu : CPU) (v : Nat) : (Push cpu v).R = cpu.R := by simp [Push]
@[simp] theorem Pop_R (cpu : CPU) : (Pop cpu).2.R = cpu.R := by simp [Pop]
@[simp] theorem UpdateSZFlags_R (cpu : CPU) (v : Nat) : (UpdateSZFlags cpu v).R = cpu.R := by simp [UpdateSZFlags]
@[simp] theorem UpdateSZXYFlags_R (cpu : CPU) (v : Nat) : (UpdateSZXYFlags cpu v).R = cpu.R := by simp [UpdateSZXYFlags]
@[simp] theorem UpdateSZXYPVFlags_R (cpu : CPU) (v : Nat) : (UpdateSZXYPVFlags cpu v).R = cpu.R := by
  unfold UpdateSZXYPVFlags
  simp only [SetFlagState_R]
@[simp] theorem UpdateXYFlags_R (cpu : CPU) (v : Nat) : (UpdateXYFlags cpu v).R = cpu.R := by simp [UpdateXYFlags]
@[simp] theorem UpdateFlags3and5FromValue_R (cpu : CPU) (v : Nat) : (UpdateFlags3and5FromValue cpu v).R = cpu.R := by simp [UpdateFlags3and5FromValue]
@[simp] theorem UpdateFlags3and5FromAddress_R (cpu : CPU) (v : Nat) : (UpdateFlags3and5FromAddress cpu v).R = cpu.R := by simp [UpdateFlags3and5FromAddress]
@[simp] theorem inc8_R (cpu : CPU) (v : Nat) : (inc8 cpu v).2.R = cpu.R := by simp [inc8]
@[simp] theorem dec8_R (cpu : CPU) (v : Nat) : (dec8 cpu v).2.R = cpu.R := by simp [dec8]
@[simp] theorem rlca_R (cpu : CPU) : (rlca cpu).R = cpu.R := by simp [rlca]
@[simp] theorem rla_R (cpu : CPU) : (rla cpu).R = cpu.R := by simp [rla]
@[simp] theorem rrca_R (cpu : CPU) : (rrca cpu).R = cpu.R := by simp [rrca]
@[simp] theorem rra_R (cpu : CPU) : (rra cpu).R = cpu.R := by simp [rra]
@[simp] theorem daa_R (cpu : CPU) : (daa cpu).R = cpu.R := by
  simp only [daa]; split <;> simp
@[simp] theorem cpl_R (cpu : CPU) : (cpl cpu).R = cpu.R := by simp [cpl]
@[simp] theorem scf_R (cpu : CPU) : (scf cpu).R = cpu.R := by
  simp only [scf]; split <;> simp
@[simp] theorem ccf_R (cpu : CPU) : (ccf cpu).R = cpu.R := by
  simp only [ccf]; split <;> simp
@[simp] theorem add16_R (cpu : CPU) (a b : Nat) : (add16 cpu a b).2.R = cpu.R := by simp [add16]
@[simp] theorem add16IX_R (cpu : CPU) (a b : Nat) : (add16IX cpu a b).2.R = cpu.R := by simp [add16IX]
@[simp] theorem add8_R (cpu : CPU) (v : Nat) : (add8 cpu v).R = cpu.R := by simp [add8]
@[simp] theorem adc8_R (cpu : CPU) (v : Nat) : (adc8 cpu v).R = cpu.R := by
  simp only [adc8]; split <;> simp
@[simp] theorem sub8_R (cpu : CPU) (v : Nat) : (sub8 cpu v).R = cpu.R := by simp [sub8]
@[simp] theorem sbc8_R (cpu : CPU) (v : Nat) : (sbc8 cpu v).R = cpu.R := by
  simp only [sbc8]; split <;> simp
@[simp] theorem and8_R (cpu : CPU) (v : Nat) : (and8 cpu v).R = cpu.R := by simp [and8]
@[simp] theorem xor8_R (cpu : CPU) (v : Nat) : (xor8 cpu v).R = cpu.R := by simp [xor8]
@[simp] theorem or8_R (cpu : CPU) (v : Nat) : (or8 cpu v).R = cpu.R := by simp [or8]
@[simp] theorem cp8_R (cpu : CPU) (v : Nat) : (cp8 cpu v).R = cpu.R := by simp [cp8]
@[simp] theorem rlc_R (cpu : CPU) (v : Nat) : (rlc cpu v).2.R = cpu.R := by simp [rlc]
@[simp] theorem rrc_R (cpu : CPU) (v : Nat) : (rrc cpu v).2.R = cpu.R := by simp [rrc]
@[simp] theorem rl_R (cpu : CPU) (v : Nat) : (rl cpu v).2.R = cpu.R := by simp [rl]
@[simp] theorem rr_R (cpu : CPU) (v : Nat) : (rr cpu v).2.R = cpu.R := by simp [rr]
@[simp] theorem sla_R (cpu : CPU) (v : Nat) : (sla cpu v).2.R = cpu.R := by simp [sla]
@[simp] theorem sra_R (cpu : CPU) (v : Nat) : (sra cpu v).2.R = cpu.R := by simp [sra]
@[simp] theorem sll_R (cpu : CPU) (v : Nat) : (sll cpu v).2.R = cpu.R := by simp [sll]
@[simp] theorem srl_R (cpu : CPU) (v : Nat) : (srl cpu v).2.R = cpu.R := by simp [srl]
@[simp] theorem bit_R (cpu : CPU) (b v : Nat) : (bit cpu b v).R = cpu.R := by
  simp only [bit]; split <;> (try split) <;> simp
@[simp] theorem bitMem_R (cpu : CPU) (b v a : Nat) : (bitMem cpu b v a).R = cpu.R := by
  simp only [bitMem]; split <;> (try split) <;> simp

theorem ExecuteOpcode_00_R (cpu : CPU) (op : Nat) (h : op / 16 = 0) :
    (ExecuteOpcode_00 cpu op).map (fun r => r.2.R) = some cpu.R := by
  have hop : op = 0 ∨ op = 1 ∨ op = 2 ∨ op = 3 ∨ op = 4 ∨ op = 5 ∨ op = 6 ∨ op = 7 ∨ op = 8 ∨ op = 9 ∨ op = 10 ∨ op = 11 ∨ op = 12 ∨ op = 13 ∨ op = 14 ∨ op = 15 := by omega
  rcases hop with h | h | h | h | h | h | h | h | h | h | h | h | h | h | h | h <;> subst h <;>
    simp only [ExecuteOpcode_00] <;> simp

theorem ExecuteOpcode_10_R (cpu : CPU) (op : Nat) (h : op / 16 = 1) :
    (ExecuteOpcode_10 cpu op).map (fun r => r.2.R) = some cpu.R := by
  have hop : op = 16 ∨ op = 17 ∨ op = 18 ∨ op = 19 ∨ op = 20 ∨ op = 21 ∨ op = 22 ∨ op = 23 ∨ op = 24 ∨ op = 25 ∨ op = 26 ∨ op = 27 ∨ op = 28 ∨ op = 29 ∨ op = 30 ∨ op = 31 := by omega
  rcases hop with h | h | h | h | h | h | h | h | h | h | h | h | h | h | h | h <;> subst h <;>
    simp only [ExecuteOpcode_10] <;> (try split) <;> simp

theorem ExecuteOpcode_20_R (cpu : CPU) (op : Nat) (h : op / 16 = 2) :
    (ExecuteOpcode_20 cpu op).map (fun r => r.2.R) = some cpu.R := by
  have hop : op = 32 ∨ op = 33 ∨ op = 34 ∨ op = 35 ∨ op = 36 ∨ op = 37 ∨ op = 38 ∨ op = 39 ∨ op = 40 ∨ op = 41 ∨ op = 42 ∨ op = 43 ∨ op = 44 ∨ op = 45 ∨ op = 46 ∨ op = 47 := by omega
  rcases hop with h | h | h | h | h | h | h | h | h | h | h | h | h | h | h | h <;> subst h <;>
    simp only [ExecuteOpcode_20] <;> (try split) <;> simp

theorem ExecuteOpcode_30_R (cpu : CPU) (op : Nat) (h : op / 16 = 3) :
    (ExecuteOpcode_30 cpu op).map (fun r => r.2.R) = some cpu.R := by
  have hop : op = 48 ∨ op = 49 ∨ op = 50 ∨ op = 51 ∨ op = 52 ∨ op = 53 ∨ op = 54 ∨ op = 55 ∨ op = 56 ∨ op = 57 ∨ op = 58 ∨ op = 59 ∨ op = 60 ∨ op = 61 ∨ op = 62 ∨ op = 63 := by omega
  rcases hop with h | h | h | h | h | h | h | h | h | h | h | h | h | h | h | h <;> subst h <;>
    simp only [ExecuteOpcode_30] <;> (try split) <;> simp

theorem ExecuteOpcode_40_R (cpu : CPU) (op : Nat) (h : op / 16 = 4) :
    (ExecuteOpcode_40 cpu op).map (fun r => r.2.R) = some cpu.R := by
  have hop : op = 64 ∨ op = 65 ∨ op = 66 ∨ op = 67 ∨ op = 68 ∨ op = 69 ∨ op = 70 ∨ op = 71 ∨ op = 72 ∨ op = 73 ∨ op = 74 ∨ op = 75 ∨ op = 76 ∨ op = 77 ∨ op = 78 ∨ op = 79 := by omega
  rcases hop with h | h | h | h | h | h | h | h | h | h | h | h | h | h | h | h <;> subst h <;>
    simp only [ExecuteOpcode_40] <;> simp

theorem ExecuteOpcode_50_R (cpu : CPU) (op : Nat) (h : op / 16 = 5) :
    (ExecuteOpcode_50 cpu op).map (fun r => r.2.R) = some cpu.R := by
  have hop : op = 80 ∨ op = 81 ∨ op = 82 ∨ op = 83 ∨ op = 84 ∨ op = 85 ∨ op = 86 ∨ op = 87 ∨ op = 88 ∨ op = 89 ∨ op = 90 ∨ op = 91 ∨ op = 92 ∨ op = 93 ∨ op = 94 ∨ op = 95 := by omega
  rcases hop with h | h | h | h | h | h | h | h | h | h | h | h | h | h | h | h <;> subst h <;>
    simp only [ExecuteOpcode_50] <;> simp

theorem ExecuteOpcode_60_R (cpu : CPU) (op : Nat) (h : op / 16 = 6) :
    (ExecuteOpcode_60 cpu op).map (fun r => r.2.R) = some cpu.R := by
  have hop : op = 96 ∨ op = 97 ∨ op = 98 ∨ op = 99 ∨ op = 100 ∨ op = 101 ∨ op = 102 ∨ op = 103 ∨ op = 104 ∨ op = 105 ∨ op = 106 ∨ op = 107 ∨ op = 108 ∨ op = 109 ∨ op = 110 ∨ op = 111 := by omega
  rcases hop with h | h | h | h | h | h | h | h | h | h | h | h | h | h | h | h <;> subst h <;>
    simp only [ExecuteOpcode_60] <;> simp

theorem ExecuteOpcode_70_R (cpu : CPU) (op : Nat) (h : op / 16 = 7) :
    (ExecuteOpcode_70 cpu op).map (fun r => r.2.R) = some cpu.R := by
  have hop : op = 112 ∨ op = 113 ∨ op = 114 ∨ op = 115 ∨ op = 116 ∨ op = 117 ∨ op = 118 ∨ op = 119 ∨ op = 120 ∨ op = 121 ∨ op = 122 ∨ op = 123 ∨ op = 124 ∨ op = 125 ∨ op = 126 ∨ op = 127 := by omega
  rcases hop with h | h | h | h | h | h | h | h | h | h | h | h | h | h | h | h <;> subst h <;>
    simp only [ExecuteOpcode_70] <;> simp

theorem ExecuteOpcode_80_R (cpu : CPU) (op : Nat) (h : op / 16 = 8) :
    (ExecuteOpcode_80 cpu op).map (fun r => r.2.R) = some cpu.R := by
  have hop : op = 128 ∨ op = 129 ∨ op = 130 ∨ op = 131 ∨ op = 132 ∨ op = 133 ∨ op = 134 ∨ op = 135 ∨ op = 136 ∨ op = 137 ∨ op = 138 ∨ op = 139 ∨ op = 140 ∨ op = 141 ∨ op = 142 ∨ op = 143 := by omega
  rcases hop with h | h | h | h | h | h | h | h | h | h | h | h | h | h | h | h <;> subst h <;>
    simp only [ExecuteOpcode_80] <;> simp

theorem ExecuteOpcode_90_R (cpu : CPU) (op : Nat) (h : op / 16 = 9) :
    (ExecuteOpcode_90 cpu op).map (fun r => r.2.R) = some cpu.R := by
  have hop : op = 144 ∨ op = 145 ∨ op = 146 ∨ op = 147 ∨ op = 148 ∨ op = 149 ∨ op = 150 ∨ op = 151 ∨ op = 152 ∨ op = 153 ∨ op = 154 ∨ op = 155 ∨ op = 156 ∨ op = 157 ∨ op = 158 ∨ op = 159 := by omega
  rcases hop with h | h | h | h | h | h | h | h | h | h | h | h | h | h | h | h <;> subst h <;>
    simp only [ExecuteOpcode_90] <;> simp

theorem ExecuteOpcode_A0_R (cpu : CPU) (op : Nat) (h : op / 16 = 10) :
    (ExecuteOpcode_A0 cpu op).map (fun r => r.2.R) = some cpu.R := by
  have hop : op = 160 ∨ op = 161 ∨ op = 162 ∨ op = 163 ∨ op = 164 ∨ op = 165 ∨ op = 166 ∨ op = 167 ∨ op = 168 ∨ op = 169 ∨ op = 170 ∨ op = 171 ∨ op = 172 ∨ op = 173 ∨ op = 174 ∨ op = 175 := by omega
  rcases hop with h | h | h | h | h | h | h | h | h | h | h | h | h | h | h | h <;> subst h <;>
    simp only [ExecuteOpcode_A0] <;> simp

theorem ExecuteOpcode_B0_R (cpu : CPU) (op : Nat) (h : op / 16 = 11) :
    (ExecuteOpcode_B0 cpu op).map (fun r => r.2.R) = some cpu.R := by
  have hop : op = 176 ∨ op = 177 ∨ op = 178 ∨ op = 179 ∨ op = 180 ∨ op = 181 ∨ op = 182 ∨ op = 183 ∨ op = 184 ∨ op = 185 ∨ op = 186 ∨ op = 187 ∨ op = 188 ∨ op = 189 ∨ op = 190 ∨ op = 191 := by omega
  rcases hop with h | h | h | h | h | h | h | h | h | h | h | h | h | h | h | h <;> subst h <;>
    simp only [ExecuteOpcode_B0] <;> simp

theorem ExecuteOpcode_C0_R (cpu : CPU) (op : Nat) (h : op / 16 = 12) :
    (ExecuteOpcode_C0 cpu op).map (fun r => r.2.R) = some cpu.R := by
  have hop : op = 192 ∨ op = 193 ∨ op = 194 ∨ op = 195 ∨ op = 196 ∨ op = 197 ∨ op = 198 ∨ op = 199 ∨ op = 200 ∨ op = 201 ∨ op = 202 ∨ op = 203 ∨ op = 204 ∨ op = 205 ∨ op = 206 ∨ op = 207 := by omega
  rcases hop with h | h | h | h | h | h | h | h | h | h | h | h | h | h | h | h <;> subst h <;>
    simp only [ExecuteOpcode_C0] <;> (try split) <;> simp

theorem ExecuteOpcode_D0_R (cpu : CPU) (op : Nat) (h : op / 16 = 13) :
    (ExecuteOpcode_D0 cpu op).map (fun r => r.2.R) = some cpu.R := by
  have hop : op = 208 ∨ op = 209 ∨ op = 210 ∨ op = 211 ∨ op = 212 ∨ op = 213 ∨ op = 214 ∨ op = 215 ∨ op = 216 ∨ op = 217 ∨ op = 218 ∨ op = 219 ∨ op = 220 ∨ op = 221 ∨ op = 222 ∨ op = 223 := by omega
  rcases hop with h | h | h | h | h | h | h | h | h | h | h | h | h | h | h | h <;> subst h <;>
    simp only [ExecuteOpcode_D0] <;> (try split) <;> simp

theorem ExecuteOpcode_E0_R (cpu : CPU) (op : Nat) (h : op / 16 = 14) :
    (ExecuteOpcode_E0 cpu op).map (fun r => r.2.R) = some cpu.R := by
  have hop : op = 224 ∨ op = 225 ∨ op = 226 ∨ op = 227 ∨ op = 228 ∨ op = 229 ∨ op = 230 ∨ op = 231 ∨ op = 232 ∨ op = 233 ∨ op = 234 ∨ op = 235 ∨ op = 236 ∨ op = 237 ∨ op = 238 ∨ op = 239 := by omega
  rcases hop with h | h | h | h | h | h | h | h | h | h | h | h | h | h | h | h <;> subst h <;>
    simp only [ExecuteOpcode_E0] <;> (try split) <;> simp

theorem ExecuteOpcode_F0_R (cpu : CPU) (op : Nat) (h : op / 16 = 15) :
    (ExecuteOpcode_F0 cpu op).map (fun r => r.2.R) = some cpu.R := by
  have hop : op = 240 ∨ op = 241 ∨ op = 242 ∨ op = 243 ∨ op = 244 ∨ op = 245 ∨ op = 246 ∨ op = 247 ∨ op = 248 ∨ op = 249 ∨ op = 250 ∨ op = 251 ∨ op = 252 ∨ op = 253 ∨ op = 254 ∨ op = 255 := by omega
  rcases hop with h | h | h | h | h | h | h | h | h | h | h | h | h | h | h | h <;> subst h <;>
    simp only [ExecuteOpcode_F0] <;> (try split) <;> simp

theorem ExecuteOpcode_R (cpu : CPU) (op : Nat) (hop : op < 256) :
    (ExecuteOpcode cpu op).map (fun r => r.2.R) = some cpu.R := by
  have hq : op / 16 = 0 ∨ op / 16 = 1 ∨ op / 16 = 2 ∨ op / 16 = 3 ∨ op / 16 = 4 ∨ op / 16 = 5 ∨ op / 16 = 6 ∨ op / 16 = 7 ∨ op / 16 = 8 ∨ op / 16 = 9 ∨ op / 16 = 10 ∨ op / 16 = 11 ∨ op / 16 = 12 ∨ op / 16 = 13 ∨ op / 16 = 14 ∨ op / 16 = 15 := by omega
  unfold ExecuteOpcode
  rcases hq with h | h | h | h | h | h | h | h | h | h | h | h | h | h | h | h <;> rw [h] <;>
    simp only [ExecuteOpcode_00_R, ExecuteOpcode_10_R, ExecuteOpcode_20_R, ExecuteOpcode_30_R, ExecuteOpcode_40_R, ExecuteOpcode_50_R, ExecuteOpcode_60_R, ExecuteOpcode_70_R, ExecuteOpcode_80_R, ExecuteOpcode_90_R, ExecuteOpcode_A0_R, ExecuteOpcode_B0_R, ExecuteOpcode_C0_R, ExecuteOpcode_D0_R, ExecuteOpcode_E0_R, ExecuteOpcode_F0_R, h]

@[simp] theorem executeRotateShiftIndexed_R (cpu : CPU) (op a v : Nat) :
    (executeRotateShiftIndexed cpu op a v).2.R = cpu.R := by
  unfold executeRotateShiftIndexed
  dsimp only
  split <;> split <;> (try split) <;> simp

@[simp] theorem executeResetBitIndexed_R (cpu : CPU) (op a v : Nat) :
    (executeResetBitIndexed cpu op a v).2.R = cpu.R := by
  unfold executeResetBitIndexed
  dsimp only
  split <;> (try split) <;> simp

@[simp] theorem executeSetBitIndexed_R (cpu : CPU) (op a v : Nat) :
    (executeSetBitIndexed cpu op a v).2.R = cpu.R := by
  unfold executeSetBitIndexed
  dsimp only
  split <;> (try split) <;> simp

@[simp] theorem ExecuteCBOpcode_R (cpu : CPU) (op : Nat) : (ExecuteCBOpcode cpu op).2.R = cpu.R := by
  unfold ExecuteCBOpcode
  dsimp only
  split
  · split
    · split <;> simp
    · split <;> (try split) <;> simp
  · split
    · split <;> simp
    · split
      · split
        · simp
        · split <;> simp
      · split
        · split
          · simp
          · split <;> simp
        · simp

@[simp] theorem executeDDCBOpcode_R (cpu : CPU) : (executeDDCBOpcode cpu).2.R = cpu.R := by
  unfold executeDDCBOpcode
  dsimp only
  split
  · simp
  · split
    · simp
    · split
      · simp
      · split <;> simp

@[simp] theorem executeIncDecIndexed_R (cpu : CPU) (b : Bool) :
    (executeIncDecIndexed cpu b).2.R = cpu.R := by
  cases b <;> simp [executeIncDecIndexed]

@[simp] theorem executeLoadFromIndexed_R (cpu : CPU) (reg : Nat) :
    (executeLoadFromIndexed cpu reg).2.R = cpu.R := by
  unfold executeLoadFromIndexed
  dsimp only
  split <;> simp

@[simp] theorem executeStoreToIndexed_R (cpu : CPU) (v : Nat) :
    (executeStoreToIndexed cpu v).2.R = cpu.R := by
  simp [executeStoreToIndexed]

@[simp] theorem executeALUIndexed_R (cpu : CPU) (opType : Nat) :
    (executeALUIndexed cpu opType).2.R = cpu.R := by
  unfold executeALUIndexed
  dsimp only
  split <;> simp

theorem ExecuteDDOpcode_00_R (cpu : CPU) (op : Nat) (h : op / 16 = 0) :
    (ExecuteDDOpcode_00 cpu op).map (fun r => r.2.R) = some cpu.R := by
  have hop : op = 0 ∨ op = 1 ∨ op = 2 ∨ op = 3 ∨ op = 4 ∨ op = 5 ∨ op = 6 ∨ op = 7 ∨ op = 8 ∨ op = 9 ∨ op = 10 ∨ op = 11 ∨ op = 12 ∨ op = 13 ∨ op = 14 ∨ op = 15 := by omega
  rcases hop with h | h | h | h | h | h | h | h | h | h | h | h | h | h | h | h <;> subst h <;>
    simp only [ExecuteDDOpcode_00] <;> simp [ExecuteOpcode_R]

theorem ExecuteDDOpcode_10_R (cpu : CPU) (op : Nat) (h : op / 16 = 1) :
    (ExecuteDDOpcode_10 cpu op).map (fun r => r.2.R) = some cpu.R := by
  have hop : op = 16 ∨ op = 17 ∨ op = 18 ∨ op = 19 ∨ op = 20 ∨ op = 21 ∨ op = 22 ∨ op = 23 ∨ op = 24 ∨ op = 25 ∨ op = 26 ∨ op = 27 ∨ op = 28 ∨ op = 29 ∨ op = 30 ∨ op = 31 := by omega
  rcases hop with h | h | h | h | h | h | h | h | h | h | h | h | h | h | h | h <;> subst h <;>
    simp only [ExecuteDDOpcode_10] <;> simp [ExecuteOpcode_R]

theorem ExecuteDDOpcode_20_R (cpu : CPU) (op : Nat) (h : op / 16 = 2) :
    (ExecuteDDOpcode_20 cpu op).map (fun r => r.2.R) = some cpu.R := by
  have hop : op = 32 ∨ op = 33 ∨ op = 34 ∨ op = 35 ∨ op = 36 ∨ op = 37 ∨ op = 38 ∨ op = 39 ∨ op = 40 ∨ op = 41 ∨ op = 42 ∨ op = 43 ∨ op = 44 ∨ op = 45 ∨ op = 46 ∨ op = 47 := by omega
  rcases hop with h | h | h | h | h | h | h | h | h | h | h | h | h | h | h | h <;> subst h <;>
    simp only [ExecuteDDOpcode_20] <;> simp [ExecuteOpcode_R]

theorem ExecuteDDOpcode_30_R (cpu : CPU) (op : Nat) (h : op / 16 = 3) :
    (ExecuteDDOpcode_30 cpu op).map (fun r => r.2.R) = some cpu.R := by
  have hop : op = 48 ∨ op = 49 ∨ op = 50 ∨ op = 51 ∨ op = 52 ∨ op = 53 ∨ op = 54 ∨ op = 55 ∨ op = 56 ∨ op = 57 ∨ op = 58 ∨ op = 59 ∨ op = 60 ∨ op = 61 ∨ op = 62 ∨ op = 63 := by omega
  rcases hop with h | h | h | h | h | h | h | h | h | h | h | h | h | h | h | h <;> subst h <;>
    simp only [ExecuteDDOpcode_30] <;> simp [ExecuteOpcode_R]

theorem ExecuteDDOpcode_40_R (cpu : CPU) (op : Nat) (h : op / 16 = 4) :
    (ExecuteDDOpcode_40 cpu op).map (fun r => r.2.R) = some cpu.R := by
  have hop : op = 64 ∨ op = 65 ∨ op = 66 ∨ op = 67 ∨ op = 68 ∨ op = 69 ∨ op = 70 ∨ op = 71 ∨ op = 72 ∨ op = 73 ∨ op = 74 ∨ op = 75 ∨ op = 76 ∨ op = 77 ∨ op = 78 ∨ op = 79 := by omega
  rcases hop with h | h | h | h | h | h | h | h | h | h | h | h | h | h | h | h <;> subst h <;>
    simp only [ExecuteDDOpcode_40] <;> simp [ExecuteOpcode_R]

theorem ExecuteDDOpcode_50_R (cpu : CPU) (op : Nat) (h : op / 16 = 5) :
    (ExecuteDDOpcode_50 cpu op).map (fun r => r.2.R) = some cpu.R := by
  have hop : op = 80 ∨ op = 81 ∨ op = 82 ∨ op = 83 ∨ op = 84 ∨ op = 85 ∨ op = 86 ∨ op = 87 ∨ op = 88 ∨ op = 89 ∨ op = 90 ∨ op = 91 ∨ op = 92 ∨ op = 93 ∨ op = 94 ∨ op = 95 := by omega
  rcases hop with h | h | h | h | h | h | h | h | h | h | h | h | h | h | h | h <;> subst h <;>
    simp only [ExecuteDDOpcode_50] <;> simp [ExecuteOpcode_R]

theorem ExecuteDDOpcode_60_R (cpu : CPU) (op : Nat) (h : op / 16 = 6) :
    (ExecuteDDOpcode_60 cpu op).map (fun r => r.2.R) = some cpu.R := by
  have hop : op = 96 ∨ op = 97 ∨ op = 98 ∨ op = 99 ∨ op = 100 ∨ op = 101 ∨ op = 102 ∨ op = 103 ∨ op = 104 ∨ op = 105 ∨ op = 106 ∨ op = 107 ∨ op = 108 ∨ op = 109 ∨ op = 110 ∨ op = 111 := by omega
  rcases hop with h | h | h | h | h | h | h | h | h | h | h | h | h | h | h | h <;> subst h <;>
    simp only [ExecuteDDOpcode_60] <;> simp [ExecuteOpcode_R]

theorem ExecuteDDOpcode_70_R (cpu : CPU) (op : Nat) (h : op / 16 = 7) :
    (ExecuteDDOpcode_70 cpu op).map (fun r => r.2.R) = some cpu.R := by
  have hop : op = 112 ∨ op = 113 ∨ op = 114 ∨ op = 115 ∨ op = 116 ∨ op = 117 ∨ op = 118 ∨ op = 119 ∨ op = 120 ∨ op = 121 ∨ op = 122 ∨ op = 123 ∨ op = 124 ∨ op = 125 ∨ op = 126 ∨ op = 127 := by omega
  rcases hop with h | h | h | h | h | h | h | h | h | h | h | h | h | h | h | h <;> subst h <;>
    simp only [ExecuteDDOpcode_70] <;> simp [ExecuteOpcode_R]

theorem ExecuteDDOpcode_80_R (cpu : CPU) (op : Nat) (h : op / 16 = 8) :
    (ExecuteDDOpcode_80 cpu op).map (fun r => r.2.R) = some cpu.R := by
  have hop : op = 128 ∨ op = 129 ∨ op = 130 ∨ op = 131 ∨ op = 132 ∨ op = 133 ∨ op = 134 ∨ op = 135 ∨ op = 136 ∨ op = 137 ∨ op = 138 ∨ op = 139 ∨ op = 140 ∨ op = 141 ∨ op = 142 ∨ op = 143 := by omega
  rcases hop with h | h | h | h | h | h | h | h | h | h | h | h | h | h | h | h <;> subst h <;>
    simp only [ExecuteDDOpcode_80] <;> simp [ExecuteOpcode_R]

theorem ExecuteDDOpcode_90_R (cpu : CPU) (op : Nat) (h : op / 16 = 9) :
    (ExecuteDDOpcode_90 cpu op).map (fun r => r.2.R) = some cpu.R := by
  have hop : op = 144 ∨ op = 145 ∨ op = 146 ∨ op = 147 ∨ op = 148 ∨ op = 149 ∨ op = 150 ∨ op = 151 ∨ op = 152 ∨ op = 153 ∨ op = 154 ∨ op = 155 ∨ op = 156 ∨ op = 157 ∨ op = 158 ∨ op = 159 := by omega
  rcases hop with h | h | h | h | h | h | h | h | h | h | h | h | h | h | h | h <;> subst h <;>
    simp only [ExecuteDDOpcode_90] <;> simp [ExecuteOpcode_R]

theorem ExecuteDDOpcode_A0_R (cpu : CPU) (op : Nat) (h : op / 16 = 10) :
    (ExecuteDDOpcode_A0 cpu op).map (fun r => r.2.R) = some cpu.R := by
  have hop : op = 160 ∨ op = 161 ∨ op = 162 ∨ op = 163 ∨ op = 164 ∨ op = 165 ∨ op = 166 ∨ op = 167 ∨ op = 168 ∨ op = 169 ∨ op = 170 ∨ op = 171 ∨ op = 172 ∨ op = 173 ∨ op = 174 ∨ op = 175 := by omega
  rcases hop with h | h | h | h | h | h | h | h | h | h | h | h | h | h | h | h <;> subst h <;>
    simp only [ExecuteDDOpcode_A0] <;> simp [ExecuteOpcode_R]

theorem ExecuteDDOpcode_B0_R (cpu : CPU) (op : Nat) (h : op / 16 = 11) :
    (ExecuteDDOpcode_B0 cpu op).map (fun r => r.2.R) = some cpu.R := by
  have hop : op = 176 ∨ op = 177 ∨ op = 178 ∨ op = 179 ∨ op = 180 ∨ op = 181 ∨ op = 182 ∨ op = 183 ∨ op = 184 ∨ op = 185 ∨ op = 186 ∨ op = 187 ∨ op = 188 ∨ op = 189 ∨ op = 190 ∨ op = 191 := by omega
  rcases hop with h | h | h | h | h | h | h | h | h | h | h | h | h | h | h | h <;> subst h <;>
    simp only [ExecuteDDOpcode_B0] <;> simp [ExecuteOpcode_R]

theorem ExecuteDDOpcode_C0_R (cpu : CPU) (op : Nat) (h : op / 16 = 12) :
    (ExecuteDDOpcode_C0 cpu op).map (fun r => r.2.R) = some cpu.R := by
  have hop : op = 192 ∨ op = 193 ∨ op = 194 ∨ op = 195 ∨ op = 196 ∨ op = 197 ∨ op = 198 ∨ op = 199 ∨ op = 200 ∨ op = 201 ∨ op = 202 ∨ op = 203 ∨ op = 204 ∨ op = 205 ∨ op = 206 ∨ op = 207 := by omega
  rcases hop with h | h | h | h | h | h | h | h | h | h | h | h | h | h | h | h <;> subst h <;>
    simp only [ExecuteDDOpcode_C0] <;> simp [ExecuteOpcode_R]

theorem ExecuteDDOpcode_D0_R (cpu : CPU) (op : Nat) (h : op / 16 = 13) :
    (ExecuteDDOpcode_D0 cpu op).map (fun r => r.2.R) = some cpu.R := by
  have hop : op = 208 ∨ op = 209 ∨ op = 210 ∨ op = 211 ∨ op = 212 ∨ op = 213 ∨ op = 214 ∨ op = 215 ∨ op = 216 ∨ op = 217 ∨ op = 218 ∨ op = 219 ∨ op = 220 ∨ op = 221 ∨ op = 222 ∨ op = 223 := by omega
  rcases hop with h | h | h | h | h | h | h | h | h | h | h | h | h | h | h | h <;> subst h <;>
    simp only [ExecuteDDOpcode_D0] <;> simp [ExecuteOpcode_R]

theorem ExecuteDDOpcode_E0_R (cpu : CPU) (op : Nat) (h : op / 16 = 14) :
    (ExecuteDDOpcode_E0 cpu op).map (fun r => r.2.R) = some cpu.R := by
  have hop : op = 224 ∨ op = 225 ∨ op = 226 ∨ op = 227 ∨ op = 228 ∨ op = 229 ∨ op = 230 ∨ op = 231 ∨ op = 232 ∨ op = 233 ∨ op = 234 ∨ op = 235 ∨ op = 236 ∨ op = 237 ∨ op = 238 ∨ op = 239 := by omega
  rcases hop with h | h | h | h | h | h | h | h | h | h | h | h | h | h | h | h <;> subst h <;>
    simp only [ExecuteDDOpcode_E0] <;> simp [ExecuteOpcode_R]

theorem ExecuteDDOpcode_F0_R (cpu : CPU) (op : Nat) (h : op / 16 = 15) :
    (ExecuteDDOpcode_F0 cpu op).map (fun r => r.2.R) = some cpu.R := by
  have hop : op = 240 ∨ op = 241 ∨ op = 242 ∨ op = 243 ∨ op = 244 ∨ op = 245 ∨ op = 246 ∨ op = 247 ∨ op = 248 ∨ op = 249 ∨ op = 250 ∨ op = 251 ∨ op = 252 ∨ op = 253 ∨ op = 254 ∨ op = 255 := by omega
  rcases hop with h | h | h | h | h | h | h | h | h | h | h | h | h | h | h | h <;> subst h <;>
    simp only [ExecuteDDOpcode_F0] <;> simp [ExecuteOpcode_R]

theorem ExecuteDDOpcode_R (cpu : CPU) (op : Nat) (hop : op < 256) :
    (ExecuteDDOpcode cpu op).map (fun r => r.2.R) = some cpu.R := by
  have hq : op / 16 = 0 ∨ op / 16 = 1 ∨ op / 16 = 2 ∨ op / 16 = 3 ∨ op / 16 = 4 ∨ op / 16 = 5 ∨ op / 16 = 6 ∨ op / 16 = 7 ∨ op / 16 = 8 ∨ op / 16 = 9 ∨ op / 16 = 10 ∨ op / 16 = 11 ∨ op / 16 = 12 ∨ op / 16 = 13 ∨ op / 16 = 14 ∨ op / 16 = 15 := by omega
  unfold ExecuteDDOpcode
  rcases hq with h | h | h | h | h | h | h | h | h | h | h | h | h | h | h | h <;> rw [h] <;>
    simp only [ExecuteDDOpcode_00_R, ExecuteDDOpcode_10_R, ExecuteDDOpcode_20_R, ExecuteDDOpcode_30_R, ExecuteDDOpcode_40_R, ExecuteDDOpcode_50_R, ExecuteDDOpcode_60_R, ExecuteDDOpcode_70_R, ExecuteDDOpcode_80_R, ExecuteDDOpcode_90_R, ExecuteDDOpcode_A0_R, ExecuteDDOpcode_B0_R, ExecuteDDOpcode_C0_R, ExecuteDDOpcode_D0_R, ExecuteDDOpcode_E0_R, ExecuteDDOpcode_F0_R, h]

theorem ReadOpcode_fst (cpu : CPU) : (ReadOpcode cpu).1 = cpu.Memory cpu.PC := rfl

theorem refresh_hi (r : Nat) : ((r &&& 0x80) ||| (((r + 1) % 256) &&& 0x7F)) &&& 0x80 = r &&& 0x80 := by
  apply Nat.eq_of_testBit_eq
  intro i
  have e1 : (0x80 : Nat) = 2 ^ 7 := rfl
  have e2 : (0x7F : Nat) = 2 ^ 7 - 1 := rfl
  rw [e1, e2]
  simp only [Nat.testBit_and, Nat.testBit_or, Nat.testBit_two_pow, Nat.testBit_two_pow_sub_one]
  by_cases h : 7 = i
  · subst h; simp
  · simp [h]

theorem refresh_lo (r : Nat) :
    ((r &&& 0x80) ||| (((r + 1) % 256) &&& 0x7F)) &&& 0x7F = ((r &&& 0x7F) + 1) % 128 := by
  have e3 : ∀ x : Nat, x &&& 0x7F = x % 128 := fun x => Nat.and_pow_two_sub_one_eq_mod x 7
  have e4 : ((r &&& 0x80) ||| (((r + 1) % 256) &&& 0x7F)) &&& 0x7F = ((r + 1) % 256) &&& 0x7F := by
    apply Nat.eq_of_testBit_eq
    intro i
    have e1 : (0x80 : Nat) = 2 ^ 7 := rfl
    have e2 : (0x7F : Nat) = 2 ^ 7 - 1 := rfl
    rw [e1, e2]
    simp only [Nat.testBit_and, Nat.testBit_or, Nat.testBit_two_pow, Nat.testBit_two_pow_sub_one]
    by_cases h : 7 = i
    · subst h; simp
    · simp [h]
  rw [e4, e3, e3]
  omega

theorem ReadOpcode_R_hi (cpu : CPU) : (ReadOpcode cpu).2.R &&& 0x80 = cpu.R &&& 0x80 := by
  simp only [ReadOpcode]
  exact refresh_hi cpu.R

theorem ReadOpcode_R_lo (cpu : CPU) :
    (ReadOpcode cpu).2.R &&& 0x7F = ((cpu.R &&& 0x7F) + 1) % 128 := by
  simp only [ReadOpcode]
  exact refresh_lo cpu.R

theorem ReadOpcode_Memory (cpu : CPU) : (ReadOpcode cpu).2.Memory = cpu.Memory := rfl

theorem memS6_lt : ∀ a, cpuS6.Memory a < 256 := by
  intro a
  show memS6 a < 256
  unfold memS6
  split_ifs <;> decide

/-! ## C1: the refresh counter -/

/-- C1: in every state in which `ExecuteOneInstruction` performs a fetch (no
interrupt accepted, HALT clear) and whose first opcode byte is neither `0xED`
nor `0xFD`, the instruction completes, bit 7 of `R` is unchanged and the low
seven bits of `R` advance modulo 128 by 2 when the first byte is `0xCB` or
`0xDD` (the four-byte `DD CB d op` form included) and by 1 otherwise. -/
theorem R_counter_advance (ExecuteEDOpcode ExecuteFDOpcode : CPU → Nat → Option (Nat × CPU))
    (cpu : CPU) (hMem : ∀ a, cpu.Memory a < 256)
    (hInt : (cpu.IFF1 && CheckInterrupt cpu) = false) (hHalt : cpu.HALT = false)
    (hED : ReadByte cpu cpu.PC ≠ 0xED) (hFD : ReadByte cpu cpu.PC ≠ 0xFD) :
    ∃ r, ExecuteOneInstruction ExecuteEDOpcode ExecuteFDOpcode cpu = some r ∧
      r.2.R &&& 0x80 = cpu.R &&& 0x80 ∧
      r.2.R &&& 0x7F = ((cpu.R &&& 0x7F) +
        (if ReadByte cpu cpu.PC = 0xCB ∨ ReadByte cpu cpu.PC = 0xDD then 2 else 1)) % 128 := by
  have e3 : ∀ x : Nat, x &&& 0x7F = x % 128 := fun x => Nat.and_pow_two_sub_one_eq_mod x 7
  have hlo1 := ReadOpcode_R_lo cpu
  have hhi1 := ReadOpcode_R_hi cpu
  have hlo2 := ReadOpcode_R_lo (ReadOpcode cpu).2
  have hhi2 := ReadOpcode_R_hi (ReadOpcode cpu).2
  have hb2 : (ReadOpcode (ReadOpcode cpu).2).1 < 256 := by
    rw [ReadOpcode_fst, ReadOpcode_Memory]; exact hMem _
  simp only [ReadByte] at hED hFD ⊢
  unfold ExecuteOneInstruction
  rw [hInt, hHalt]
  simp only [Bool.false_eq_true, if_false, ReadOpcode_fst]
  split
  · next hCB =>
    refine ⟨_, rfl, ?_, ?_⟩
    · simp only [ExecuteCBOpcode_R]; rw [hhi2, hhi1]
    · simp only [ExecuteCBOpcode_R]; rw [hlo2, hlo1]; simp only [e3]; simp [hCB]
  · next hDD =>
    have h := ExecuteDDOpcode_R (ReadOpcode (ReadOpcode cpu).2).2 _ hb2
    obtain ⟨r, hr, hR⟩ := Option.map_eq_some'.mp h
    refine ⟨r, hr, ?_, ?_⟩
    · rw [hR, hhi2, hhi1]
    · rw [hR, hlo2, hlo1]; simp only [e3]; simp [hDD]
  · next h => exact absurd h hED
  · next h => exact absurd h hFD
  · next hCB hDD _ _ =>
    have h := ExecuteOpcode_R (ReadOpcode cpu).2 _ (hMem cpu.PC)
    obtain ⟨r, hr, hR⟩ := Option.map_eq_some'.mp h
    refine ⟨r, hr, ?_, ?_⟩
    · rw [hR, hhi1]
    · rw [hR, hlo1, if_neg (fun h => h.elim hCB hDD)]

/-- Witness for C1: scenario S6 (`DD CB 05 00` at address 0) meets the hypotheses,
and `R` advances by exactly 2. -/
theorem R_counter_advance_witness :
    (∀ a, cpuS6.Memory a < 256) ∧
    ∃ r, ExecuteOneInstruction noDecoder noDecoder cpuS6 = some r ∧
      r.2.R &&& 0x80 = cpuS6.R &&& 0x80 ∧
      r.2.R &&& 0x7F = ((cpuS6.R &&& 0x7F) + 2) % 128 :=
  ⟨memS6_lt, R_counter_advance noDecoder noDecoder cpuS6 memS6_lt rfl rfl (by decide) (by decide)⟩

/-! ## C2: the DD CB dual write -/

set_option maxRecDepth 100000 in
theorem rotate_values : ∀ v, v < 256 →
    ((v <<< 1) % 256 ||| v >>> 7) = v * 2 % 256 + v / 128 ∧
    (v >>> 1 ||| (v <<< 7) % 256) = v / 2 + v % 2 * 128 ∧
    ((v <<< 1) % 256 ||| 1) = v * 2 % 256 + 1 ∧
    (v <<< 1) % 256 = v * 2 % 256 ∧
    (v >>> 1 ||| 128) = v / 2 + 128 ∧
    v >>> 1 = v / 2 ∧
    (v >>> 1 ||| v &&& 128) = v / 2 + v / 128 * 128 := by
  decide

set_option maxRecDepth 100000 in
theorem res_set_values : ∀ b, b < 8 → ∀ v, v < 256 →
    res b v = v - v / 2 ^ b % 2 * 2 ^ b ∧ set b v = v + (1 - v / 2 ^ b % 2) * 2 ^ b := by
  decide


theorem UpdateSZXYPVFlags_shape (cpu : CPU) (v : Nat) :
    UpdateSZXYPVFlags cpu v = { cpu with F := (UpdateSZXYPVFlags cpu v).F } := by
  simp [UpdateSZXYPVFlags]

theorem rotate_shapes (cpu : CPU) (v : Nat) :
    (rlc cpu v).2 = { cpu with F := (rlc cpu v).2.F } ∧
    (rrc cpu v).2 = { cpu with F := (rrc cpu v).2.F } ∧
    (rl cpu v).2 = { cpu with F := (rl cpu v).2.F } ∧
    (rr cpu v).2 = { cpu with F := (rr cpu v).2.F } ∧
    (sla cpu v).2 = { cpu with F := (sla cpu v).2.F } ∧
    (sra cpu v).2 = { cpu with F := (sra cpu v).2.F } ∧
    (sll cpu v).2 = { cpu with F := (sll cpu v).2.F } ∧
    (srl cpu v).2 = { cpu with F := (srl cpu v).2.F } := by
  refine ⟨?_, ?_, ?_, ?_, ?_, ?_, ?_, ?_⟩ <;>
    simp [rlc, rrc, rl, rr, sla, sra, sll, srl, UpdateSZXYPVFlags]

theorem rotate_results (cpu : CPU) (v : Nat) (hv : v < 256) :
    (rlc cpu v).1 = v * 2 % 256 + v / 128 ∧
    (rrc cpu v).1 = v / 2 + v % 2 * 128 ∧
    (rl cpu v).1 = v * 2 % 256 + boolToByte (GetFlag cpu FLAG_C) ∧
    (rr cpu v).1 = v / 2 + boolToByte (GetFlag cpu FLAG_C) * 128 ∧
    (sla cpu v).1 = v * 2 % 256 ∧
    (sra cpu v).1 = v / 2 + v / 128 * 128 ∧
    (sll cpu v).1 = v * 2 % 256 + 1 ∧
    (srl cpu v).1 = v / 2 := by
  obtain ⟨h1, h2, h3, h4, h5, h6, h7⟩ := rotate_values v hv
  refine ⟨?_, ?_, ?_, ?_, ?_, ?_, ?_, ?_⟩
  · simp only [rlc]; exact h1
  · simp only [rrc]; exact h2
  · simp only [rl]
    cases GetFlag cpu FLAG_C
    · simpa [boolToByte] using h4
    · simpa [boolToByte] using h3
  · simp only [rr]
    cases GetFlag cpu FLAG_C
    · simpa [boolToByte] using h6
    · simpa [boolToByte] using h5
  · simp only [sla]; exact h4
  · simp only [sra]; exact h7
  · simp only [sll]; exact h3
  · simp only [srl]; exact h6

theorem opcode_fields (op : Nat) : (op >>> 3) &&& 7 < 8 ∧ op &&& 7 < 8 := by
  have e : ∀ x : Nat, x &&& 7 = x % 8 := fun x => Nat.and_pow_two_sub_one_eq_mod x 3
  rw [e, e]
  omega

theorem executeRotateShiftIndexed_spec (cpu : CPU) (op addr v : Nat) (hop : op < 0x40)
    (hv : v < 256) :
    (executeRotateShiftIndexed cpu op addr v).1 = 23 ∧
    (executeRotateShiftIndexed cpu op addr v).2.Memory addr =
      cbOperation (GetFlag cpu FLAG_C) op v ∧
    ((op &&& 7) ≠ 6 → reg8 (executeRotateShiftIndexed cpu op addr v).2 (op &&& 7) =
      cbOperation (GetFlag cpu FLAG_C) op v) ∧
    (executeRotateShiftIndexed cpu op addr v).2.IX = cpu.IX ∧
    (executeRotateShiftIndexed cpu op addr v).2.MEMPTR = addr := by
  obtain ⟨r0, r1, r2, r3, r4, r5, r6, r7⟩ := rotate_results cpu v hv
  obtain ⟨s0, s1, s2, s3, s4, s5, s6, s7⟩ := rotate_shapes cpu v
  obtain ⟨ht, hg⟩ := opcode_fields op
  unfold executeRotateShiftIndexed cbOperation
  rw [if_pos hop]
  generalize (op >>> 3) &&& 7 = t at ht ⊢
  generalize op &&& 7 = g at hg ⊢
  interval_cases t <;> interval_cases g <;>
    simp [reg8, WriteByte, r0, r1, r2, r3, r4, r5, r6, r7] <;>
    first
      | rw [s0] | rw [s1] | rw [s2] | rw [s3] | rw [s4] | rw [s5] | rw [s6] | rw [s7]


theorem executeResetBitIndexed_spec (cpu : CPU) (op addr v : Nat) (hop : 0x80 ≤ op ∧ op < 0xC0)
    (hv : v < 256) :
    (executeResetBitIndexed cpu op addr v).1 = 23 ∧
    (executeResetBitIndexed cpu op addr v).2.Memory addr = cbOperation (GetFlag cpu FLAG_C) op v ∧
    ((op &&& 7) ≠ 6 → reg8 (executeResetBitIndexed cpu op addr v).2 (op &&& 7) =
      cbOperation (GetFlag cpu FLAG_C) op v) ∧
    (executeResetBitIndexed cpu op addr v).2.IX = cpu.IX ∧
    (executeResetBitIndexed cpu op addr v).2.MEMPTR = addr := by
  obtain ⟨ht, hg⟩ := opcode_fields op
  have hr := (res_set_values _ ht v hv).1
  unfold executeResetBitIndexed cbOperation
  rw [if_neg (by omega), if_pos hop.2, ← hr]
  generalize op &&& 7 = g at hg ⊢
  interval_cases g <;> simp [reg8, WriteByte]

theorem executeSetBitIndexed_spec (cpu : CPU) (op addr v : Nat) (hop : 0xC0 ≤ op)
    (hv : v < 256) :
    (executeSetBitIndexed cpu op addr v).1 = 23 ∧
    (executeSetBitIndexed cpu op addr v).2.Memory addr = cbOperation (GetFlag cpu FLAG_C) op v ∧
    ((op &&& 7) ≠ 6 → reg8 (executeSetBitIndexed cpu op addr v).2 (op &&& 7) =
      cbOperation (GetFlag cpu FLAG_C) op v) ∧
    (executeSetBitIndexed cpu op addr v).2.IX = cpu.IX ∧
    (executeSetBitIndexed cpu op addr v).2.MEMPTR = addr := by
  obtain ⟨ht, hg⟩ := opcode_fields op
  have hr := (res_set_values _ ht v hv).2
  unfold executeSetBitIndexed cbOperation
  rw [if_neg (by omega), if_neg (by omega), ← hr]
  generalize op &&& 7 = g at hg ⊢
  interval_cases g <;> simp [reg8, WriteByte]

/-- The state in which `executeDDCBOpcode` applies the CB operation: displacement
and opcode consumed, `R` restored. -/
theorem executeDDCBOpcode_spec (cpu : CPU) (op : Nat)
    (hop : op < 0x40 ∨ 0x80 ≤ op)
    (hfetch : cpu.Memory ((cpu.PC + 1) % 65536) = op)
    (hv : cpu.Memory (uint16 ((cpu.IX : Int) + int8 (cpu.Memory cpu.PC))) < 256) :
    (executeDDCBOpcode cpu).1 = 23 ∧
    (executeDDCBOpcode cpu).2.Memory (uint16 ((cpu.IX : Int) + int8 (cpu.Memory cpu.PC))) =
      cbOperation (GetFlag cpu FLAG_C) op
        (cpu.Memory (uint16 ((cpu.IX : Int) + int8 (cpu.Memory cpu.PC)))) ∧
    ((op &&& 7) ≠ 6 → reg8 (executeDDCBOpcode cpu).2 (op &&& 7) =
      cbOperation (GetFlag cpu FLAG_C) op
        (cpu.Memory (uint16 ((cpu.IX : Int) + int8 (cpu.Memory cpu.PC))))) ∧
    (executeDDCBOpcode cpu).2.IX = cpu.IX ∧
    (executeDDCBOpcode cpu).2.MEMPTR = uint16 ((cpu.IX : Int) + int8 (cpu.Memory cpu.PC)) := by
  unfold executeDDCBOpcode
  simp only [ReadDisplacement, ReadOpcode, ReadByte, hfetch]
  rcases hop with h | h
  · rw [if_pos (by omega)]
    exact executeRotateShiftIndexed_spec _ op _ _ h hv
  · rw [if_neg (by omega), if_neg (by simp; omega)]
    by_cases h2 : op < 0xC0
    · rw [if_pos (by simp; omega)]
      exact executeResetBitIndexed_spec _ op _ _ ⟨h, h2⟩ hv
    · rw [if_neg (by simp; omega), if_pos (by omega)]
      exact executeSetBitIndexed_spec _ op _ _ (by omega) hv


theorem ExecuteDDOpcode_CB (cpu : CPU) :
    ExecuteDDOpcode cpu 0xCB = some (executeDDCBOpcode cpu) := by
  simp [ExecuteDDOpcode, ExecuteDDOpcode_C0]

/-- C2: when the bytes `DD CB d op` stand at `PC` and `op` is in `0x00`-`0x3F`
or `0x80`-`0xFF`, one step returns 23 T-states, leaves in memory at
`ea = (IX + sign-extend d) mod 2^16` the result `r` of the CB operation selected
by `op` applied to the old byte at `ea`, copies `r` into the register named by
`op & 7` unless that field is 6, leaves `IX` unchanged and sets `MEMPTR = ea`. -/
theorem ddcb_dual_write (ExecuteEDOpcode ExecuteFDOpcode : CPU → Nat → Option (Nat × CPU))
    (cpu : CPU) (d op : Nat)
    (hInt : (cpu.IFF1 && CheckInterrupt cpu) = false) (hHalt : cpu.HALT = false)
    (h0 : ReadByte cpu cpu.PC = 0xDD) (h1 : ReadByte cpu ((cpu.PC + 1) % 65536) = 0xCB)
    (h2 : ReadByte cpu ((cpu.PC + 2) % 65536) = d) (h3 : ReadByte cpu ((cpu.PC + 3) % 65536) = op)
    (hop : op ≤ 0x3F ∨ (0x80 ≤ op ∧ op ≤ 0xFF))
    (hv : ReadByte cpu (uint16 ((cpu.IX : Int) + int8 d)) < 256) :
    ∃ s, ExecuteOneInstruction ExecuteEDOpcode ExecuteFDOpcode cpu = some (23, s) ∧
      ReadByte s (uint16 ((cpu.IX : Int) + int8 d)) =
        cbOperation (GetFlag cpu FLAG_C) op (ReadByte cpu (uint16 ((cpu.IX : Int) + int8 d))) ∧
      ((op &&& 7) ≠ 6 → reg8 s (op &&& 7) =
        cbOperation (GetFlag cpu FLAG_C) op (ReadByte cpu (uint16 ((cpu.IX : Int) + int8 d)))) ∧
      s.IX = cpu.IX ∧
      s.MEMPTR = uint16 ((cpu.IX : Int) + int8 d) := by
  simp only [ReadByte] at h0 h1 h2 h3 hv ⊢
  have e2 : ((cpu.PC + 1) % 65536 + 1) % 65536 = (cpu.PC + 2) % 65536 := by omega
  have e3 : ((cpu.PC + 2) % 65536 + 1) % 65536 = (cpu.PC + 3) % 65536 := by omega
  have hop2 : op < 0x40 ∨ 0x80 ≤ op := by omega
  have hM : (ReadOpcode (ReadOpcode cpu).2).2.Memory = cpu.Memory := rfl
  have hP : (ReadOpcode (ReadOpcode cpu).2).2.PC = (cpu.PC + 2) % 65536 := by
    simp only [ReadOpcode, e2]
  have hX : (ReadOpcode (ReadOpcode cpu).2).2.IX = cpu.IX := rfl
  have hF : GetFlag (ReadOpcode (ReadOpcode cpu).2).2 FLAG_C = GetFlag cpu FLAG_C := rfl
  have hstep : ExecuteOneInstruction ExecuteEDOpcode ExecuteFDOpcode cpu =
      some (executeDDCBOpcode (ReadOpcode (ReadOpcode cpu).2).2) := by
    unfold ExecuteOneInstruction
    rw [hInt, hHalt]
    simp only [Bool.false_eq_true, if_false, ReadOpcode_fst, h0]
    have h1' : (ReadOpcode cpu).2.Memory (ReadOpcode cpu).2.PC = 0xCB := h1
    rw [h1', ExecuteDDOpcode_CB]
  generalize (ReadOpcode (ReadOpcode cpu).2).2 = s2 at hM hP hX hF hstep
  have key := executeDDCBOpcode_spec s2 op hop2 (by rw [hM, hP, e3]; exact h3)
    (by rw [hM, hP, hX, h2]; exact hv)
  rw [hM, hP, hX, hF, h2] at key
  obtain ⟨k1, k2, k3, k4, k5⟩ := key
  refine ⟨(executeDDCBOpcode s2).2, ?_, k2, k3, k4, k5⟩
  rw [hstep, ← k1]

/-- Witness for C2 (scenario S6): with `IX = 0x4000`, `memory[0x4005] = 0x01` and
the bytes `DD CB 05 00` at `PC`, one step gives `memory[0x4005] = 0x02` and
`B = 0x02`. -/
theorem ddcb_dual_write_witness :
    ∃ s, ExecuteOneInstruction noDecoder noDecoder cpuS6 = some (23, s) ∧
      ReadByte s 0x4005 = 0x02 ∧ s.B = 0x02 := by
  obtain ⟨s, h1, h2, h3, _, _⟩ := ddcb_dual_write noDecoder noDecoder cpuS6 0x05 0x00
    rfl rfl rfl rfl rfl rfl (by decide) (by decide)
  exact ⟨s, h1, h2, h3 (by decide)⟩

/-! ## C3-C10: the 8-bit ALU primitives -/

set_option maxRecDepth 100000 in
theorem parity_eq_bitCount8 : ∀ r, r < 256 → parity r = decide (bitCount8 r % 2 = 0) := by
  decide

/-- C3: `adc8` with prior carry `c` leaves `A = (A + v + c) mod 256`, C set iff
`A + v + c > 255`, H set iff the low-nibble sum with `c` exceeds `0xF`, N clear,
P/V set iff the exact signed sum `signed A + signed v + c` lies outside
`[-128, 127]` (for either value of `c`), and S, Z, X, Y equal to bit 7, the zero
test, bit 3 and bit 5 of the new `A`. -/
theorem adc8_spec (cpu : CPU) (v : Nat) (hA : cpu.A < 256) (hv : v < 256) :
    (adc8 cpu v).A = (cpu.A + v + boolToByte (GetFlag cpu FLAG_C)) % 256 ∧
    GetFlag (adc8 cpu v) FLAG_C = decide (cpu.A + v + boolToByte (GetFlag cpu FLAG_C) > 255) ∧
    GetFlag (adc8 cpu v) FLAG_H =
      decide ((cpu.A &&& 0xF) + (v &&& 0xF) + boolToByte (GetFlag cpu FLAG_C) > 0xF) ∧
    GetFlag (adc8 cpu v) FLAG_N = false ∧
    GetFlag (adc8 cpu v) FLAG_PV =
      decide (int8 cpu.A + int8 v + (boolToByte (GetFlag cpu FLAG_C) : Int) < -128 ∨
        127 < int8 cpu.A + int8 v + (boolToByte (GetFlag cpu FLAG_C) : Int)) ∧
    GetFlag (adc8 cpu v) FLAG_S = (adc8 cpu v).A.testBit 7 ∧
    GetFlag (adc8 cpu v) FLAG_Z = decide ((adc8 cpu v).A = 0) ∧
    GetFlag (adc8 cpu v) FLAG_X = (adc8 cpu v).A.testBit 3 ∧
    GetFlag (adc8 cpu v) FLAG_Y = (adc8 cpu v).A.testBit 5 := by
  cases hc : flagBit cpu.F 0
  · refine ⟨?_, ?_, ?_, ?_, ?_, ?_, ?_, ?_, ?_⟩
    · simp [adc8, UpdateSZXYFlags, hc, boolToByte]
    · simp [adc8, UpdateSZXYFlags, hc, boolToByte]
      omega
    · simp [adc8, UpdateSZXYFlags, hc, boolToByte]
      omega
    · simp [adc8, UpdateSZXYFlags, hc, boolToByte]
    · simp [adc8, UpdateSZXYFlags, hc, boolToByte, int8_eq _ hA, int8_eq _ hv]
      simp only [Nat.testBit_to_div_mod, Nat.reducePow]
      rw [Bool.eq_iff_iff]
      simp
      omega
    · simp [adc8, UpdateSZXYFlags, hc, boolToByte]
    · simp [adc8, UpdateSZXYFlags, hc, boolToByte]
      rw [Bool.eq_iff_iff]
      simp
    · simp [adc8, UpdateSZXYFlags, hc, boolToByte]
    · simp [adc8, UpdateSZXYFlags, hc, boolToByte]
  · refine ⟨?_, ?_, ?_, ?_, ?_, ?_, ?_, ?_, ?_⟩
    · simp [adc8, UpdateSZXYFlags, hc, boolToByte]
    · simp [adc8, UpdateSZXYFlags, hc, boolToByte]
      omega
    · simp [adc8, UpdateSZXYFlags, hc, boolToByte]
      omega
    · simp [adc8, UpdateSZXYFlags, hc, boolToByte]
    · simp [adc8, UpdateSZXYFlags, hc, boolToByte, int8_eq _ hA, int8_eq _ hv]
      simp only [Nat.testBit_to_div_mod, Nat.reducePow]
      rw [Bool.eq_iff_iff]
      simp
      omega
    · simp [adc8, UpdateSZXYFlags, hc, boolToByte]
    · simp [adc8, UpdateSZXYFlags, hc, boolToByte]
      rw [Bool.eq_iff_iff]
      simp
    · simp [adc8, UpdateSZXYFlags, hc, boolToByte]
    · simp [adc8, UpdateSZXYFlags, hc, boolToByte]

/-- Witness for C3: `A = 0x7F`, `v = 0` with carry set gives `A = 0x80` and P/V set. -/
theorem adc8_spec_witness :
    (adc8 { cpu0 with A := 0x7F, F := 0x01 } 0).A = 0x80 ∧
    GetFlag (adc8 { cpu0 with A := 0x7F, F := 0x01 } 0) FLAG_PV = true :=
  have h := adc8_spec { cpu0 with A := 0x7F, F := 0x01 } 0 (by decide) (by decide)
  ⟨h.1.trans (by decide), h.2.2.2.2.1.trans (by decide)⟩

/-- C4: `sbc8` with prior carry `c` leaves `A = (A - v - c) mod 256`, C set iff
`A < v + c`, H set iff `(A & 0xF) < (v & 0xF) + c`, N set, P/V set iff the exact
signed difference `signed A - signed v - c` lies outside `[-128, 127]`, and S, Z,
X, Y taken from the new `A`. -/
theorem sbc8_spec (cpu : CPU) (v : Nat) (hA : cpu.A < 256) (hv : v < 256) :
    ((sbc8 cpu v).A : Int) =
      ((cpu.A : Int) - (v : Int) - (boolToByte (GetFlag cpu FLAG_C) : Int)) % 256 ∧
    GetFlag (sbc8 cpu v) FLAG_C = decide (cpu.A < v + boolToByte (GetFlag cpu FLAG_C)) ∧
    GetFlag (sbc8 cpu v) FLAG_H =
      decide ((cpu.A &&& 0xF) < (v &&& 0xF) + boolToByte (GetFlag cpu FLAG_C)) ∧
    GetFlag (sbc8 cpu v) FLAG_N = true ∧
    GetFlag (sbc8 cpu v) FLAG_PV =
      decide (int8 cpu.A - int8 v - (boolToByte (GetFlag cpu FLAG_C) : Int) < -128 ∨
        127 < int8 cpu.A - int8 v - (boolToByte (GetFlag cpu FLAG_C) : Int)) ∧
    GetFlag (sbc8 cpu v) FLAG_S = (sbc8 cpu v).A.testBit 7 ∧
    GetFlag (sbc8 cpu v) FLAG_Z = decide ((sbc8 cpu v).A = 0) ∧
    GetFlag (sbc8 cpu v) FLAG_X = (sbc8 cpu v).A.testBit 3 ∧
    GetFlag (sbc8 cpu v) FLAG_Y = (sbc8 cpu v).A.testBit 5 := by
  cases hc : flagBit cpu.F 0
  · refine ⟨?_, ?_, ?_, ?_, ?_, ?_, ?_, ?_, ?_⟩
    · simp [sbc8, UpdateSZXYFlags, hc, boolToByte]
      omega
    · simp [sbc8, UpdateSZXYFlags, hc, boolToByte]
    · simp [sbc8, UpdateSZXYFlags, hc, boolToByte]
      omega
    · simp [sbc8, UpdateSZXYFlags, hc, boolToByte]
    · simp [sbc8, UpdateSZXYFlags, hc, boolToByte, int8_eq _ hA, int8_eq _ hv]
      simp only [Nat.testBit_to_div_mod, Nat.reducePow]
      rw [Bool.eq_iff_iff]
      simp
      omega
    · simp [sbc8, UpdateSZXYFlags, hc, boolToByte]
    · simp [sbc8, UpdateSZXYFlags, hc, boolToByte]
      rw [Bool.eq_iff_iff]
      simp
    · simp [sbc8, UpdateSZXYFlags, hc, boolToByte]
    · simp [sbc8, UpdateSZXYFlags, hc, boolToByte]
  · refine ⟨?_, ?_, ?_, ?_, ?_, ?_, ?_, ?_, ?_⟩
    · simp [sbc8, UpdateSZXYFlags, hc, boolToByte]
      omega
    · simp [sbc8, UpdateSZXYFlags, hc, boolToByte]
      omega
    · simp [sbc8, UpdateSZXYFlags, hc, boolToByte]
      omega
    · simp [sbc8, UpdateSZXYFlags, hc, boolToByte]
    · simp [sbc8, UpdateSZXYFlags, hc, boolToByte, int8_eq _ hA, int8_eq _ hv]
      simp only [Nat.testBit_to_div_mod, Nat.reducePow]
      rw [Bool.eq_iff_iff]
      simp
      omega
    · simp [sbc8, UpdateSZXYFlags, hc, boolToByte]
    · simp [sbc8, UpdateSZXYFlags, hc, boolToByte]
      rw [Bool.eq_iff_iff]
      simp
    · simp [sbc8, UpdateSZXYFlags, hc, boolToByte]
    · simp [sbc8, UpdateSZXYFlags, hc, boolToByte]

/-- Witness for C4: `A = 0x80`, `v = 0` with carry set gives `A = 0x7F` and P/V set. -/
theorem sbc8_spec_witness :
    ((sbc8 { cpu0 with A := 0x80, F := 0x01 } 0).A : Int) = 0x7F ∧
    GetFlag (sbc8 { cpu0 with A := 0x80, F := 0x01 } 0) FLAG_PV = true :=
  have h := sbc8_spec { cpu0 with A := 0x80, F := 0x01 } 0 (by decide) (by decide)
  ⟨h.1.trans (by decide), h.2.2.2.2.1.trans (by decide)⟩

/-- C5: `add8` leaves `A = (A + v) mod 256`, C set iff `A + v > 255`, H set iff
the low-nibble sum exceeds `0xF`, N clear, P/V set iff `signed A + signed v`
lies outside `[-128, 127]` (equivalently: the operands share their sign and the
result has the other sign), S, Z, X, Y equal to bit 7, the zero test, bit 3 and
bit 5 of the new `A`; and the outcome does not depend on the prior `F`. -/
theorem add8_spec (cpu : CPU) (v : Nat) (hA : cpu.A < 256) (hv : v < 256) :
    (add8 cpu v).A = (cpu.A + v) % 256 ∧
    GetFlag (add8 cpu v) FLAG_C = decide (cpu.A + v > 255) ∧
    GetFlag (add8 cpu v) FLAG_H = decide ((cpu.A &&& 0xF) + (v &&& 0xF) > 0xF) ∧
    GetFlag (add8 cpu v) FLAG_N = false ∧
    GetFlag (add8 cpu v) FLAG_PV = decide (int8 cpu.A + int8 v < -128 ∨ 127 < int8 cpu.A + int8 v) ∧
    GetFlag (add8 cpu v) FLAG_PV =
      (decide (cpu.A / 128 = v / 128) && decide ((add8 cpu v).A / 128 ≠ cpu.A / 128)) ∧
    GetFlag (add8 cpu v) FLAG_S = (add8 cpu v).A.testBit 7 ∧
    GetFlag (add8 cpu v) FLAG_Z = decide ((add8 cpu v).A = 0) ∧
    GetFlag (add8 cpu v) FLAG_X = (add8 cpu v).A.testBit 3 ∧
    GetFlag (add8 cpu v) FLAG_Y = (add8 cpu v).A.testBit 5 ∧
    ∀ f, add8 { cpu with F := f } v = add8 cpu v := by
  refine ⟨?_, ?_, ?_, ?_, ?_, ?_, ?_, ?_, ?_, ?_, ?_⟩
  · simp [add8, UpdateSZXYFlags]
  · simp [add8, UpdateSZXYFlags]
    omega
  · simp [add8, UpdateSZXYFlags]
    omega
  · simp [add8, UpdateSZXYFlags]
  · simp [add8, UpdateSZXYFlags, int8_eq _ hA, int8_eq _ hv]
    simp only [Nat.testBit_to_div_mod, Nat.reducePow]
    rw [Bool.eq_iff_iff]
    simp
    omega
  · simp [add8, UpdateSZXYFlags]
    simp only [Nat.testBit_to_div_mod, Nat.reducePow]
    rw [Bool.eq_iff_iff]
    simp
    omega
  · simp [add8, UpdateSZXYFlags]
  · simp [add8, UpdateSZXYFlags]
    rw [Bool.eq_iff_iff]
    simp
  · simp [add8, UpdateSZXYFlags]
  · simp [add8, UpdateSZXYFlags]
  · intro f
    simp only [add8, UpdateSZXYFlags, SetFlagState_eq, ClearFlag_eq, FLAG_C, FLAG_N, FLAG_PV, FLAG_X, FLAG_H, FLAG_Y, FLAG_Z, FLAG_S, FLAG_3, FLAG_5]
    congr 1
    apply flagByte_ext
    · repeat (first | exact flagUpd_false_lt _ _ (by decide) | refine flagUpd_lt _ _ _ ?_ (by decide))
    · repeat (first | exact flagUpd_false_lt _ _ (by decide) | refine flagUpd_lt _ _ _ ?_ (by decide))
    · intro j hj
      interval_cases j <;> simp

/-- Witness for C5: `A = 0x15`, `v = 0x27` gives `A = 0x3C` with H clear. -/
theorem add8_spec_witness :
    (add8 { cpu0 with A := 0x15 } 0x27).A = 0x3C ∧
    GetFlag (add8 { cpu0 with A := 0x15 } 0x27) FLAG_H = false :=
  have h := add8_spec { cpu0 with A := 0x15 } 0x27 (by decide) (by decide)
  ⟨h.1.trans (by decide), h.2.2.1.trans (by decide)⟩

/-- C6: `sub8` leaves `A = (A - v) mod 256`, C set iff `A < v`, H set iff
`(A & 0xF) < (v & 0xF)`, N set, P/V set iff `signed A - signed v` lies outside
`[-128, 127]`, and S, Z, X, Y taken from the result. -/
theorem sub8_spec (cpu : CPU) (v : Nat) (hA : cpu.A < 256) (hv : v < 256) :
    ((sub8 cpu v).A : Int) = ((cpu.A : Int) - (v : Int)) % 256 ∧
    GetFlag (sub8 cpu v) FLAG_C = decide (cpu.A < v) ∧
    GetFlag (sub8 cpu v) FLAG_H = decide ((cpu.A &&& 0xF) < (v &&& 0xF)) ∧
    GetFlag (sub8 cpu v) FLAG_N = true ∧
    GetFlag (sub8 cpu v) FLAG_PV =
      decide (int8 cpu.A - int8 v < -128 ∨ 127 < int8 cpu.A - int8 v) ∧
    GetFlag (sub8 cpu v) FLAG_S = (sub8 cpu v).A.testBit 7 ∧
    GetFlag (sub8 cpu v) FLAG_Z = decide ((sub8 cpu v).A = 0) ∧
    GetFlag (sub8 cpu v) FLAG_X = (sub8 cpu v).A.testBit 3 ∧
    GetFlag (sub8 cpu v) FLAG_Y = (sub8 cpu v).A.testBit 5 := by
  refine ⟨?_, ?_, ?_, ?_, ?_, ?_, ?_, ?_, ?_⟩
  · simp [sub8, UpdateSZXYFlags]
    omega
  · simp [sub8, UpdateSZXYFlags]
  · simp [sub8, UpdateSZXYFlags]
  · simp [sub8, UpdateSZXYFlags]
  · simp [sub8, UpdateSZXYFlags, int8_eq _ hA, int8_eq _ hv]
    simp only [Nat.testBit_to_div_mod, Nat.reducePow]
    rw [Bool.eq_iff_iff]
    simp
    omega
  · simp [sub8, UpdateSZXYFlags]
  · simp [sub8, UpdateSZXYFlags]
    rw [Bool.eq_iff_iff]
    simp
  · simp [sub8, UpdateSZXYFlags]
  · simp [sub8, UpdateSZXYFlags]

/-- Witness for C6: `A = 0x10`, `v = 0x20` gives `A = 0xF0` with C set. -/
theorem sub8_spec_witness :
    ((sub8 { cpu0 with A := 0x10 } 0x20).A : Int) = 0xF0 ∧
    GetFlag (sub8 { cpu0 with A := 0x10 } 0x20) FLAG_C = true :=
  have h := sub8_spec { cpu0 with A := 0x10 } 0x20 (by decide) (by decide)
  ⟨h.1.trans (by decide), h.2.1.trans (by decide)⟩

/-- C7: `cp8` changes no field of the state other than `F`; its flags C, H, N,
P/V, S and Z are those `sub8` produces from the same `A`; X and Y are bits 3 and
5 of the operand `v`; and Z is set exactly when `A = v`. -/
theorem cp8_spec (cpu : CPU) (v : Nat) (hA : cpu.A < 256) (hv : v < 256) :
    cp8 cpu v = { cpu with F := (cp8 cpu v).F } ∧
    GetFlag (cp8 cpu v) FLAG_C = GetFlag (sub8 cpu v) FLAG_C ∧
    GetFlag (cp8 cpu v) FLAG_H = GetFlag (sub8 cpu v) FLAG_H ∧
    GetFlag (cp8 cpu v) FLAG_N = GetFlag (sub8 cpu v) FLAG_N ∧
    GetFlag (cp8 cpu v) FLAG_PV = GetFlag (sub8 cpu v) FLAG_PV ∧
    GetFlag (cp8 cpu v) FLAG_S = GetFlag (sub8 cpu v) FLAG_S ∧
    GetFlag (cp8 cpu v) FLAG_Z = GetFlag (sub8 cpu v) FLAG_Z ∧
    GetFlag (cp8 cpu v) FLAG_X = v.testBit 3 ∧
    GetFlag (cp8 cpu v) FLAG_Y = v.testBit 5 ∧
    GetFlag (cp8 cpu v) FLAG_Z = decide (cpu.A = v) := by
  refine ⟨?_, ?_, ?_, ?_, ?_, ?_, ?_, ?_, ?_, ?_⟩
  · simp [cp8, UpdateSZFlags, UpdateFlags3and5FromValue]
  · simp [cp8, sub8, UpdateSZFlags, UpdateFlags3and5FromValue, UpdateSZXYFlags]
  · simp [cp8, sub8, UpdateSZFlags, UpdateFlags3and5FromValue, UpdateSZXYFlags]
  · simp [cp8, sub8, UpdateSZFlags, UpdateFlags3and5FromValue, UpdateSZXYFlags]
  · simp [cp8, sub8, UpdateSZFlags, UpdateFlags3and5FromValue, UpdateSZXYFlags]
  · simp [cp8, sub8, UpdateSZFlags, UpdateFlags3and5FromValue, UpdateSZXYFlags]
  · simp [cp8, sub8, UpdateSZFlags, UpdateFlags3and5FromValue, UpdateSZXYFlags]
  · simp [cp8, UpdateSZFlags, UpdateFlags3and5FromValue]
  · simp [cp8, UpdateSZFlags, UpdateFlags3and5FromValue]
  · simp [cp8, UpdateSZFlags, UpdateFlags3and5FromValue]
    rw [Bool.eq_iff_iff]
    simp
    omega

/-- Witness for C7: comparing `A = 0x28` with `v = 0x28` sets Z and takes X and Y
from the operand. -/
theorem cp8_spec_witness :
    GetFlag (cp8 { cpu0 with A := 0x28 } 0x28) FLAG_Z = true ∧
    GetFlag (cp8 { cpu0 with A := 0x28 } 0x28) FLAG_X = true ∧
    GetFlag (cp8 { cpu0 with A := 0x28 } 0x28) FLAG_Y = true :=
  have h := cp8_spec { cpu0 with A := 0x28 } 0x28 (by decide) (by decide)
  ⟨h.2.2.2.2.2.2.2.2.2.trans (by decide), h.2.2.2.2.2.2.2.1.trans (by decide),
    h.2.2.2.2.2.2.2.2.1.trans (by decide)⟩

/-- C8: `and8`, `or8` and `xor8` leave `A & v`, `A | v` and `A ^ v` in `A`; C and
N are clear; H is set for AND and clear for OR and XOR; P/V is set iff the new
`A` has an even number of 1 bits; S, Z, X, Y are bit 7, the zero test, bit 3
and bit 5 of the new `A`. -/
theorem logic8_spec (cpu : CPU) (v : Nat) (hA : cpu.A < 256) (hv : v < 256) :
    ((and8 cpu v).A = cpu.A &&& v ∧ (or8 cpu v).A = cpu.A ||| v ∧ (xor8 cpu v).A = cpu.A ^^^ v) ∧
    (GetFlag (and8 cpu v) FLAG_C = false ∧ GetFlag (or8 cpu v) FLAG_C = false ∧
      GetFlag (xor8 cpu v) FLAG_C = false) ∧
    (GetFlag (and8 cpu v) FLAG_N = false ∧ GetFlag (or8 cpu v) FLAG_N = false ∧
      GetFlag (xor8 cpu v) FLAG_N = false) ∧
    (GetFlag (and8 cpu v) FLAG_H = true ∧ GetFlag (or8 cpu v) FLAG_H = false ∧
      GetFlag (xor8 cpu v) FLAG_H = false) ∧
    (GetFlag (and8 cpu v) FLAG_PV = decide (bitCount8 (and8 cpu v).A % 2 = 0) ∧
      GetFlag (or8 cpu v) FLAG_PV = decide (bitCount8 (or8 cpu v).A % 2 = 0) ∧
      GetFlag (xor8 cpu v) FLAG_PV = decide (bitCount8 (xor8 cpu v).A % 2 = 0)) ∧
    (GetFlag (and8 cpu v) FLAG_S = (and8 cpu v).A.testBit 7 ∧
      GetFlag (or8 cpu v) FLAG_S = (or8 cpu v).A.testBit 7 ∧
      GetFlag (xor8 cpu v) FLAG_S = (xor8 cpu v).A.testBit 7) ∧
    (GetFlag (and8 cpu v) FLAG_Z = decide ((and8 cpu v).A = 0) ∧
      GetFlag (or8 cpu v) FLAG_Z = decide ((or8 cpu v).A = 0) ∧
      GetFlag (xor8 cpu v) FLAG_Z = decide ((xor8 cpu v).A = 0)) ∧
    (GetFlag (and8 cpu v) FLAG_X = (and8 cpu v).A.testBit 3 ∧
      GetFlag (or8 cpu v) FLAG_X = (or8 cpu v).A.testBit 3 ∧
      GetFlag (xor8 cpu v) FLAG_X = (xor8 cpu v).A.testBit 3) ∧
    (GetFlag (and8 cpu v) FLAG_Y = (and8 cpu v).A.testBit 5 ∧
      GetFlag (or8 cpu v) FLAG_Y = (or8 cpu v).A.testBit 5 ∧
      GetFlag (xor8 cpu v) FLAG_Y = (xor8 cpu v).A.testBit 5) := by
  have h1 : cpu.A &&& v < 256 := Nat.and_lt_two_pow (n := 8) cpu.A hv
  have h2 : cpu.A ||| v < 256 := Nat.or_lt_two_pow (n := 8) hA hv
  have h3 : cpu.A ^^^ v < 256 := Nat.xor_lt_two_pow (n := 8) hA hv
  have p1 := parity_eq_bitCount8 _ h1
  have p2 := parity_eq_bitCount8 _ h2
  have p3 := parity_eq_bitCount8 _ h3
  refine ⟨⟨?_, ?_, ?_⟩, ⟨?_, ?_, ?_⟩, ⟨?_, ?_, ?_⟩, ⟨?_, ?_, ?_⟩, ⟨?_, ?_, ?_⟩, ⟨?_, ?_, ?_⟩,
    ⟨?_, ?_, ?_⟩, ⟨?_, ?_, ?_⟩, ⟨?_, ?_, ?_⟩⟩
  all_goals first
    | (simp [and8, or8, xor8, UpdateSZXYFlags, p1, p2, p3]; done)
    | (simp [and8, or8, xor8, UpdateSZXYFlags, p1, p2, p3]; rw [Bool.eq_iff_iff]; simp)

/-- Witness for C8: `A = 0x0F`, `v = 0x3C` gives `0x0C`, `0x3F` and `0x33`. -/
theorem logic8_spec_witness :
    (and8 { cpu0 with A := 0x0F } 0x3C).A = 0x0C ∧ (or8 { cpu0 with A := 0x0F } 0x3C).A = 0x3F ∧
    (xor8 { cpu0 with A := 0x0F } 0x3C).A = 0x33 :=
  have h := logic8_spec { cpu0 with A := 0x0F } 0x3C (by decide) (by decide)
  ⟨h.1.1.trans (by decide), h.1.2.1.trans (by decide), h.1.2.2.trans (by decide)⟩

/-- C9: `inc8` returns `(v + 1) mod 256` with H set iff `(v & 0xF) = 0xF`, N
clear and P/V set iff `v = 0x7F`; `dec8` returns `(v - 1) mod 256` with H set
iff `(v & 0xF) = 0`, N set and P/V set iff `v = 0x80`; in both S, Z, X, Y come
from the result and the C flag keeps its prior value. -/
theorem inc8_dec8_spec (cpu : CPU) (v : Nat) :
    ((inc8 cpu v).1 = (v + 1) % 256 ∧
      GetFlag (inc8 cpu v).2 FLAG_H = decide (v &&& 0xF = 0xF) ∧
      GetFlag (inc8 cpu v).2 FLAG_N = false ∧
      GetFlag (inc8 cpu v).2 FLAG_PV = decide (v = 0x7F) ∧
      GetFlag (inc8 cpu v).2 FLAG_S = (inc8 cpu v).1.testBit 7 ∧
      GetFlag (inc8 cpu v).2 FLAG_Z = decide ((inc8 cpu v).1 = 0) ∧
      GetFlag (inc8 cpu v).2 FLAG_X = (inc8 cpu v).1.testBit 3 ∧
      GetFlag (inc8 cpu v).2 FLAG_Y = (inc8 cpu v).1.testBit 5 ∧
      GetFlag (inc8 cpu v).2 FLAG_C = GetFlag cpu FLAG_C) ∧
    (((dec8 cpu v).1 : Int) = ((v : Int) - 1) % 256 ∧
      GetFlag (dec8 cpu v).2 FLAG_H = decide (v &&& 0xF = 0x0) ∧
      GetFlag (dec8 cpu v).2 FLAG_N = true ∧
      GetFlag (dec8 cpu v).2 FLAG_PV = decide (v = 0x80) ∧
      GetFlag (dec8 cpu v).2 FLAG_S = (dec8 cpu v).1.testBit 7 ∧
      GetFlag (dec8 cpu v).2 FLAG_Z = decide ((dec8 cpu v).1 = 0) ∧
      GetFlag (dec8 cpu v).2 FLAG_X = (dec8 cpu v).1.testBit 3 ∧
      GetFlag (dec8 cpu v).2 FLAG_Y = (dec8 cpu v).1.testBit 5 ∧
      GetFlag (dec8 cpu v).2 FLAG_C = GetFlag cpu FLAG_C) := by
  refine ⟨⟨?_, ?_, ?_, ?_, ?_, ?_, ?_, ?_, ?_⟩, ⟨?_, ?_, ?_, ?_, ?_, ?_, ?_, ?_, ?_⟩⟩
  all_goals first
    | (simp [inc8, dec8, UpdateSZXYFlags]; done)
    | (simp [inc8, dec8, UpdateSZXYFlags]; omega)
    | (simp [inc8, dec8, UpdateSZXYFlags]; rw [Bool.eq_iff_iff]; simp)

/-- C10: `dec8` applied to the result of `inc8` returns the original byte `v` and
leaves the C flag as it was before the increment; likewise each opcode pair
INC r; DEC r (r among B, C, D, E, H, L, A) restores the register and the C
flag, each opcode taking 4 T-states. -/
theorem inc8_then_dec8 (cpu : CPU) (v : Nat) (hv : v < 256) :
    (dec8 (inc8 cpu v).2 (inc8 cpu v).1).1 = v ∧
    GetFlag (dec8 (inc8 cpu v).2 (inc8 cpu v).1).2 FLAG_C = GetFlag cpu FLAG_C ∧
    ∀ p ∈ incDecPairs, p.2.2 cpu < 256 →
      ∃ s1 s2, ExecuteOpcode cpu p.1 = some (4, s1) ∧ ExecuteOpcode s1 p.2.1 = some (4, s2) ∧
        p.2.2 s2 = p.2.2 cpu ∧ GetFlag s2 FLAG_C = GetFlag cpu FLAG_C := by
  refine ⟨?_, ?_, ?_⟩
  · simp [inc8, dec8, UpdateSZXYFlags]
    omega
  · simp [inc8, dec8, UpdateSZXYFlags]
  · intro p hp
    simp only [incDecPairs, List.mem_cons, List.mem_singleton, List.not_mem_nil, or_false] at hp
    rcases hp with h | h | h | h | h | h | h <;> subst h <;> intro hr <;> dsimp only at hr <;>
      simp [ExecuteOpcode, ExecuteOpcode_00, ExecuteOpcode_10, ExecuteOpcode_20, ExecuteOpcode_30,
        inc8, dec8, UpdateSZXYFlags] <;> omega

/-- Witness for C10: incrementing and then decrementing `0xFF` gives `0xFF` back. -/
theorem inc8_then_dec8_witness :
    (0xFF : Nat) < 256 ∧ (dec8 (inc8 cpu0 0xFF).2 (inc8 cpu0 0xFF).1).1 = 0xFF :=
  ⟨by decide, (inc8_then_dec8 cpu0 0xFF (by decide)).1⟩

/-! ## C11: the 16-bit additions ADD HL,ww and ADD IX,ww -/

theorem pair_eq (h l : Nat) (hl : l < 256) : (h <<< 8) ||| l = h * 256 + l := by
  rw [Nat.shiftLeft_eq, Nat.mul_comm, ← Nat.mul_add_lt_is_or (by simpa using hl)]

theorem pair_lt (h l : Nat) (hh : h < 256) (hl : l < 256) : (h <<< 8) ||| l < 65536 := by
  rw [pair_eq h l hl]; omega

theorem pair_split (r : Nat) (hr : r < 65536) : (((r >>> 8) % 256) <<< 8) ||| (r % 256) = r := by
  rw [pair_eq _ _ (Nat.mod_lt _ (by decide)), Nat.shiftRight_eq_div_pow]
  simp only [Nat.reducePow]
  omega

theorem and_4095 (a : Nat) : a &&& 0xFFF = a % 4096 :=
  Nat.and_pow_two_sub_one_eq_mod a 12

theorem add16_flags (cpu : CPU) (a b : Nat) (ha : a < 65536) (hb : b < 65536) :
    (add16 cpu a b).1 = (a + b) % 65536 ∧
    (add16 cpu a b).2 = { cpu with F := (add16 cpu a b).2.F } ∧
    Add16Flags cpu (add16 cpu a b).2 a b := by
  refine ⟨rfl, by simp [add16, UpdateFlags3and5FromAddress], ?_⟩
  unfold Add16Flags
  simp [add16, UpdateFlags3and5FromAddress, and_4095, Nat.shiftRight_eq_div_pow]
  refine ⟨?_, ?_, ?_, ?_⟩
  · omega
  · omega
  · congr 1; omega
  · congr 1; omega

theorem add16IX_eq (cpu : CPU) (a b : Nat) : add16IX cpu a b = add16 cpu a b := rfl


theorem add16_HL (cpu : CPU) (a b : Nat) : GetHL (add16 cpu a b).2 = GetHL cpu := by
  simp [add16, UpdateFlags3and5FromAddress, GetHL]

theorem ExecuteOpcode_add_hl (cpu : CPU) (k : Nat) (hk : k < 4) :
    ExecuteOpcode cpu (0x09 + 16 * k) =
      some (11, SetHL { (add16 cpu (GetHL cpu) (addOperand cpu (GetHL cpu) k)).2 with
        MEMPTR := (GetHL cpu + 1) % 65536 } (add16 cpu (GetHL cpu) (addOperand cpu (GetHL cpu) k)).1) := by
  interval_cases k
  · simp only [addOperand, ExecuteOpcode, ExecuteOpcode_00, add16_HL]
  · simp only [addOperand, ExecuteOpcode, ExecuteOpcode_10, add16_HL]
  · simp only [addOperand, ExecuteOpcode, ExecuteOpcode_20, add16_HL]
  · simp only [addOperand, ExecuteOpcode, ExecuteOpcode_30, add16_HL]

theorem ExecuteDDOpcode_add_ix (cpu : CPU) (k : Nat) (hk : k < 4) :
    ExecuteDDOpcode cpu (0x09 + 16 * k) =
      some (15, { (add16IX cpu cpu.IX (addOperand cpu cpu.IX k)).2 with
        MEMPTR := (cpu.IX + 1) % 65536, IX := (add16IX cpu cpu.IX (addOperand cpu cpu.IX k)).1 }) := by
  interval_cases k
  · simp only [addOperand, ExecuteDDOpcode, ExecuteDDOpcode_00]
  · simp only [addOperand, ExecuteDDOpcode, ExecuteDDOpcode_10]
  · simp only [addOperand, ExecuteDDOpcode, ExecuteDDOpcode_20]
  · simp only [addOperand, ExecuteDDOpcode, ExecuteDDOpcode_30]

theorem addOperand_lt (cpu : CPU) (self k : Nat) (hs : self < 65536)
    (hB : cpu.B < 256) (hC : cpu.C < 256) (hD : cpu.D < 256) (hE : cpu.E < 256)
    (hSP : cpu.SP < 65536) : addOperand cpu self k < 65536 := by
  unfold addOperand
  split
  · exact pair_lt _ _ hB hC
  · exact pair_lt _ _ hD hE
  · exact hs
  · exact hSP

/-- C11: ADD HL,ww (opcodes 0x09, 0x19, 0x29, 0x39) and ADD IX,ww (the same opcodes
after DD) take 11 and 15 T-states, leave (a + b) mod 65536 in HL or IX, where a is the
prior HL or IX and b the operand, set C iff a + b > 0xFFFF, H iff
(a & 0xFFF) + (b & 0xFFF) > 0xFFF, clear N, take X and Y from bits 3 and 5 of the high
byte of the result, keep S, Z and P/V, and leave MEMPTR = (a + 1) mod 65536; the
primitives add16 and add16IX do so for all 16-bit a and b and change F only. -/
theorem add16_spec (cpu : CPU) (k : Nat) (hk : k < 4)
    (hB : cpu.B < 256) (hC : cpu.C < 256) (hD : cpu.D < 256) (hE : cpu.E < 256)
    (hH : cpu.H < 256) (hL : cpu.L < 256) (hSP : cpu.SP < 65536) (hIX : cpu.IX < 65536) :
    (∃ s, ExecuteOpcode cpu (0x09 + 16 * k) = some (11, s) ∧
      GetHL s = (GetHL cpu + addOperand cpu (GetHL cpu) k) % 65536 ∧
      Add16Flags cpu s (GetHL cpu) (addOperand cpu (GetHL cpu) k) ∧
      s.MEMPTR = (GetHL cpu + 1) % 65536 ∧
      s = { cpu with H := s.H, L := s.L, F := s.F, MEMPTR := s.MEMPTR }) ∧
    (∃ s, ExecuteDDOpcode cpu (0x09 + 16 * k) = some (15, s) ∧
      s.IX = (cpu.IX + addOperand cpu cpu.IX k) % 65536 ∧
      Add16Flags cpu s cpu.IX (addOperand cpu cpu.IX k) ∧
      s.MEMPTR = (cpu.IX + 1) % 65536 ∧
      s = { cpu with IX := s.IX, F := s.F, MEMPTR := s.MEMPTR }) ∧
    (∀ a b, a < 65536 → b < 65536 →
      (add16 cpu a b).1 = (a + b) % 65536 ∧ Add16Flags cpu (add16 cpu a b).2 a b ∧
      (add16 cpu a b).2 = { cpu with F := (add16 cpu a b).2.F } ∧
      (add16IX cpu a b).1 = (a + b) % 65536 ∧ Add16Flags cpu (add16IX cpu a b).2 a b ∧
      (add16IX cpu a b).2 = { cpu with F := (add16IX cpu a b).2.F }) := by
  have hHL : GetHL cpu < 65536 := pair_lt _ _ hH hL
  refine ⟨?_, ?_, ?_⟩
  · obtain ⟨h1, h2, h3⟩ := add16_flags cpu (GetHL cpu) (addOperand cpu (GetHL cpu) k) hHL
      (addOperand_lt cpu _ k hHL hB hC hD hE hSP)
    refine ⟨_, ExecuteOpcode_add_hl cpu k hk, ?_, ?_, rfl, ?_⟩
    · rw [h1]
      exact pair_split _ (Nat.mod_lt _ (by decide))
    · exact h3
    · rw [h2]; rfl
  · obtain ⟨h1, h2, h3⟩ := add16_flags cpu cpu.IX (addOperand cpu cpu.IX k) hIX
      (addOperand_lt cpu _ k hIX hB hC hD hE hSP)
    refine ⟨_, ExecuteDDOpcode_add_ix cpu k hk, rfl, ?_, rfl, ?_⟩
    · exact h3
    · rw [add16IX_eq, h2]
  · intro a b ha hb
    obtain ⟨h1, h2, h3⟩ := add16_flags cpu a b ha hb
    exact ⟨h1, h3, h2, h1, h3, h2⟩

/-- ADD HL,HL (opcode 0x29) with HL = 0x8000 and F = 0 gives HL = 0x0000 with C = 1,
H = 0, N = 0, X = 0, Y = 0 and MEMPTR = 0x8001. -/
theorem add16_spec_witness :
    ∃ s, ExecuteOpcode cpuAddHL 0x29 = some (11, s) ∧ GetHL s = 0 ∧
      GetFlag s FLAG_C = true ∧ GetFlag s FLAG_H = false ∧ GetFlag s FLAG_N = false ∧
      GetFlag s FLAG_X = false ∧ GetFlag s FLAG_Y = false ∧ s.MEMPTR = 0x8001 := by
  obtain ⟨s, h1, h2, ⟨f1, f2, f3, f4, f5, _⟩, h4, _⟩ :=
    (add16_spec cpuAddHL 2 (by decide) (by decide) (by decide) (by decide) (by decide)
      (by decide) (by decide) (by decide) (by decide)).1
  exact ⟨s, h1, h2.trans (by decide), f1.trans (by decide), f2.trans (by decide), f3,
    f4.trans (by decide), f5.trans (by decide), h4.trans (by decide)⟩

/-! ## C12: decimal adjust -/

theorem daaCorrection_cases (cpu : CPU) :
    daaCorrection cpu = 0 ∨ daaCorrection cpu = 0x06 ∨ daaCorrection cpu = 0x60 ∨
    daaCorrection cpu = 0x66 := by
  unfold daaCorrection
  split_ifs <;> simp

theorem daa_unfold (cpu : CPU) :
    daa cpu =
      (let a := if GetFlag cpu FLAG_N then (cpu.A + 256 - daaCorrection cpu) % 256
        else (cpu.A + daaCorrection cpu) % 256
      { cpu with
        A := a
        F := flagUpd (flagUpd (flagUpd (flagUpd (flagUpd (flagUpd (flagUpd cpu.F
          FLAG_S (a.testBit 7)) FLAG_Z (a == 0)) FLAG_H (((cpu.A ^^^ daaCorrection cpu) ^^^ a).testBit 4))
          FLAG_PV (parity a)) FLAG_C (GetFlag cpu FLAG_C || ((daaCorrection cpu &&& 0x60) != 0)))
          FLAG_X (a.testBit 3)) FLAG_Y (a.testBit 5) }) := by
  simp only [daa, daaCorrection]
  split_ifs <;> simp_all <;> omega


/-- C12: DAA replaces A by (A - correction) mod 256 when N is set and by
(A + correction) mod 256 otherwise, with the correction of `daaCorrection`; it changes
no field but A and F; S, Z, X and Y are bit 7, the zero test, bit 3 and bit 5 of the new
A; P/V is set iff the new A has an even number of set bits; H is bit 4 of
old A XOR correction XOR new A; C is set iff the prior C was set or the correction
includes 0x60; N is unchanged. -/
theorem daa_spec (cpu : CPU) :
    daa cpu = { cpu with A := (daa cpu).A, F := (daa cpu).F } ∧
    ((daa cpu).A : Int) =
      (if GetFlag cpu FLAG_N = true then (cpu.A : Int) - daaCorrection cpu
        else (cpu.A : Int) + daaCorrection cpu) % 256 ∧
    GetFlag (daa cpu) FLAG_S = (daa cpu).A.testBit 7 ∧
    GetFlag (daa cpu) FLAG_Z = decide ((daa cpu).A = 0) ∧
    GetFlag (daa cpu) FLAG_X = (daa cpu).A.testBit 3 ∧
    GetFlag (daa cpu) FLAG_Y = (daa cpu).A.testBit 5 ∧
    GetFlag (daa cpu) FLAG_PV = decide (bitCount8 (daa cpu).A % 2 = 0) ∧
    GetFlag (daa cpu) FLAG_H = ((cpu.A ^^^ daaCorrection cpu) ^^^ (daa cpu).A).testBit 4 ∧
    GetFlag (daa cpu) FLAG_C =
      (GetFlag cpu FLAG_C || decide (daaCorrection cpu &&& 0x60 = 0x60)) ∧
    GetFlag (daa cpu) FLAG_N = GetFlag cpu FLAG_N := by
  have hcases := daaCorrection_cases cpu
  rw [daa_unfold]
  generalize daaCorrection cpu = c at hcases ⊢
  have ha : (if GetFlag cpu FLAG_N = true then (cpu.A + 256 - c) % 256
      else (cpu.A + c) % 256) < 256 := by
    split <;> exact Nat.mod_lt _ (by decide)
  have hi : (((if GetFlag cpu FLAG_N = true then (cpu.A + 256 - c) % 256
      else (cpu.A + c) % 256 : Nat)) : Int) =
      (if GetFlag cpu FLAG_N = true then (cpu.A : Int) - c else (cpu.A : Int) + c) % 256 := by
    split
    · omega
    · omega
  generalize (if GetFlag cpu FLAG_N = true then (cpu.A + 256 - c) % 256
      else (cpu.A + c) % 256) = a at ha hi ⊢
  have hp := parity_eq_bitCount8 a ha
  have h60 : ((c &&& 0x60) != 0) = decide (c &&& 0x60 = 0x60) := by
    rcases hcases with h | h | h | h <;> subst h <;> decide
  refine ⟨rfl, hi, ?_, ?_, ?_, ?_, ?_, ?_, ?_, ?_⟩
  all_goals first
    | (simp [hp, h60]; done)
    | (simp [hp, h60]; rw [Bool.eq_iff_iff]; simp)

/-! ## C13: scenario S3, DAA after ADD -/

/-- C13, as stated: in scenario S3 the DAA that follows ADD A,0x27 leaves H set, so
the outcome with H = 0 does not occur. -/
theorem scenario_S3_H_set :
    GetFlag (daa (add8 cpuS3 0x27)) FLAG_H = true ∧
    ¬ ((add8 cpuS3 0x27).A = 0x3C ∧ GetFlag (add8 cpuS3 0x27) FLAG_H = false ∧
      (daa (add8 cpuS3 0x27)).A = 0x42 ∧ GetFlag (daa (add8 cpuS3 0x27)) FLAG_C = false ∧
      GetFlag (daa (add8 cpuS3 0x27)) FLAG_H = false ∧
      GetFlag (daa (add8 cpuS3 0x27)) FLAG_PV = true ∧
      GetFlag (daa (add8 cpuS3 0x27)) FLAG_N = false) := by
  decide

/-- C13, amended: from A = 0x15 and F = 0x00, ADD A,0x27 leaves A = 0x3C with H = 0,
and a following DAA leaves A = 0x42 with C = 0, H = 1, P/V = 1 and N = 0; the same
holds when the two instructions are fetched from memory and run as opcodes C6 27
and 27, in 7 and 4 T-states. -/
theorem scenario_S3 :
    ((add8 cpuS3 0x27).A = 0x3C ∧ GetFlag (add8 cpuS3 0x27) FLAG_H = false ∧
      (daa (add8 cpuS3 0x27)).A = 0x42 ∧ GetFlag (daa (add8 cpuS3 0x27)) FLAG_C = false ∧
      GetFlag (daa (add8 cpuS3 0x27)) FLAG_H = true ∧
      GetFlag (daa (add8 cpuS3 0x27)) FLAG_PV = true ∧
      GetFlag (daa (add8 cpuS3 0x27)) FLAG_N = false) ∧
    ∃ s1 s2, ExecuteOneInstruction noDecoder noDecoder cpuS3 = some (7, s1) ∧
      ExecuteOneInstruction noDecoder noDecoder s1 = some (4, s2) ∧
      s1.A = 0x3C ∧ GetFlag s1 FLAG_H = false ∧
      s2.A = 0x42 ∧ GetFlag s2 FLAG_C = false ∧ GetFlag s2 FLAG_H = true ∧
      GetFlag s2 FLAG_PV = true ∧ GetFlag s2 FLAG_N = false :=
  ⟨by decide, _, _, rfl, rfl, by decide⟩

/-! ## C14-C16: the BIT instructions -/

theorem bit_mask (b : Nat) (hb : b < 8) : (1 <<< b) % 256 = 2 ^ b := by
  rw [Nat.one_shiftLeft]
  exact Nat.mod_eq_of_lt (Nat.pow_lt_pow_right (by decide) hb : 2 ^ b < 2 ^ 8)

theorem bitMem_spec (cpu : CPU) (b v hi : Nat) (hb : b < 8) :
    bitMem cpu b v hi = { cpu with F := (bitMem cpu b v hi).F } ∧
    GetFlag (bitMem cpu b v hi) FLAG_Z = !v.testBit b ∧
    GetFlag (bitMem cpu b v hi) FLAG_PV = !v.testBit b ∧
    GetFlag (bitMem cpu b v hi) FLAG_H = true ∧
    GetFlag (bitMem cpu b v hi) FLAG_N = false ∧
    GetFlag (bitMem cpu b v hi) FLAG_S = (decide (b = 7) && v.testBit 7) ∧
    GetFlag (bitMem cpu b v hi) FLAG_X = hi.testBit 3 ∧
    GetFlag (bitMem cpu b v hi) FLAG_Y = hi.testBit 5 ∧
    GetFlag (bitMem cpu b v hi) FLAG_C = GetFlag cpu FLAG_C := by
  simp only [bitMem, bit_mask b hb, and_two_pow_eq_zero]
  by_cases h7 : b = 7
  · subst h7
    cases hv : v.testBit 7 <;> simp [hv]
  · cases hv : v.testBit b <;> simp [hv, h7]

theorem bit_eq_bitMem (cpu : CPU) (b v : Nat) : bit cpu b v = bitMem cpu b v v := rfl


theorem opcode_bit_fields (b : Nat) (hb : b < 8) :
    ((0x46 + 8 * b) >>> 3) &&& 7 = b ∧ (0x46 + 8 * b) &&& 7 = 6 ∧
    0x40 ≤ 0x46 + 8 * b ∧ 0x46 + 8 * b ≤ 0x7F := by
  interval_cases b <;> decide

/-- C14: BIT b,r in register form. The primitive `bit` changes no field but F and, for
a bit number b below 8 and any operand v, sets Z iff bit b of v is 0, P/V equal to Z,
H = 1, N = 0, S iff b = 7 and bit 7 of v is 1, X and Y to bits 3 and 5 of v, and keeps
C; every CB opcode in 0x40-0x7F whose register field is not 6 returns 8 T-states and
the state of `bit` on its bit field and its register. -/
theorem bit_register_spec (cpu : CPU) (op b v : Nat) (hb : b < 8)
    (h1 : 0x40 ≤ op) (h2 : op ≤ 0x7F) (h6 : op &&& 7 ≠ 6) :
    (bit cpu b v = { cpu with F := (bit cpu b v).F } ∧
      GetFlag (bit cpu b v) FLAG_Z = !v.testBit b ∧
      GetFlag (bit cpu b v) FLAG_PV = GetFlag (bit cpu b v) FLAG_Z ∧
      GetFlag (bit cpu b v) FLAG_H = true ∧
      GetFlag (bit cpu b v) FLAG_N = false ∧
      GetFlag (bit cpu b v) FLAG_S = (decide (b = 7) && v.testBit 7) ∧
      GetFlag (bit cpu b v) FLAG_X = v.testBit 3 ∧
      GetFlag (bit cpu b v) FLAG_Y = v.testBit 5 ∧
      GetFlag (bit cpu b v) FLAG_C = GetFlag cpu FLAG_C) ∧
    ExecuteCBOpcode cpu op = (8, bit cpu ((op >>> 3) &&& 7) (reg8 cpu (op &&& 7))) := by
  constructor
  · rw [bit_eq_bitMem]
    obtain ⟨k0, k1, k2, k3, k4, k5, k6, k7, k8⟩ := bitMem_spec cpu b v v hb
    exact ⟨k0, k1, k2.trans k1.symm, k3, k4, k5, k6, k7, k8⟩
  · obtain ⟨_, hg⟩ := opcode_fields op
    unfold ExecuteCBOpcode
    rw [if_neg (by omega), if_pos (by simp; omega)]
    generalize op &&& 7 = g at hg h6 ⊢
    interval_cases g <;> simp [reg8] at h6 ⊢

/-- BIT 7,B (opcode CB 78) with B = 0x80: Z = 0, S = 1, 8 T-states. -/
theorem bit_register_spec_witness :
    GetFlag (bit cpuBitB 7 0x80) FLAG_Z = false ∧ GetFlag (bit cpuBitB 7 0x80) FLAG_S = true ∧
    ExecuteCBOpcode cpuBitB 0x78 = (8, bit cpuBitB 7 0x80) :=
  have h := bit_register_spec cpuBitB 0x78 7 0x80 (by decide) (by decide) (by decide) (by decide)
  ⟨h.1.2.1.trans (by decide), h.1.2.2.2.2.2.1.trans (by decide), h.2⟩

/-- C15: BIT b,(HL), the CB opcode 0x46 + 8 * b, returns 12 T-states and changes no
field but F (memory, MEMPTR and the registers are kept); X and Y are bits 3 and 5 of
the high byte of MEMPTR on entry; Z is set iff bit b of memory[HL] is 0, P/V equals Z,
H = 1, N = 0, S is set iff b = 7 and that bit is 1, and C is unchanged. -/
theorem bit_hl_spec (cpu : CPU) (b : Nat) (hb : b < 8) :
    ∃ s, ExecuteCBOpcode cpu (0x46 + 8 * b) = (12, s) ∧
      s = { cpu with F := s.F } ∧
      GetFlag s FLAG_X = (cpu.MEMPTR / 256 % 256).testBit 3 ∧
      GetFlag s FLAG_Y = (cpu.MEMPTR / 256 % 256).testBit 5 ∧
      GetFlag s FLAG_Z = !(ReadByte cpu (GetHL cpu)).testBit b ∧
      GetFlag s FLAG_PV = GetFlag s FLAG_Z ∧
      GetFlag s FLAG_H = true ∧
      GetFlag s FLAG_N = false ∧
      GetFlag s FLAG_S = (decide (b = 7) && (ReadByte cpu (GetHL cpu)).testBit b) ∧
      GetFlag s FLAG_C = GetFlag cpu FLAG_C := by
  obtain ⟨f1, f2, f3, f4⟩ := opcode_bit_fields b hb
  obtain ⟨k0, k1, k2, k3, k4, k5, k6, k7, k8⟩ :=
    bitMem_spec cpu b (ReadByte cpu (GetHL cpu)) ((cpu.MEMPTR >>> 8) % 256) hb
  have hsh : cpu.MEMPTR >>> 8 = cpu.MEMPTR / 256 := Nat.shiftRight_eq_div_pow cpu.MEMPTR 8
  refine ⟨bitMem cpu b (ReadByte cpu (GetHL cpu)) ((cpu.MEMPTR >>> 8) % 256), ?_, k0,
    k6.trans (by rw [hsh]), k7.trans (by rw [hsh]),
    k1, k2.trans k1.symm, k3, k4, ?_, k8⟩
  · unfold ExecuteCBOpcode
    rw [if_neg (by omega), if_pos (by simp; omega)]
    simp only [f1, f2]
    rfl
  · rw [k5]
    by_cases h7 : b = 7
    · subst h7; rfl
    · simp [h7]


/-- BIT 0,(HL) (opcode CB 46) with MEMPTR = 0x2800 over a zero memory: Z = 1 and
X = Y = 1, from the high byte 0x28 of MEMPTR, in 12 T-states. -/
theorem bit_hl_spec_witness :
    ∃ s, ExecuteCBOpcode cpuBitHL 0x46 = (12, s) ∧ GetFlag s FLAG_X = true ∧
      GetFlag s FLAG_Y = true ∧ GetFlag s FLAG_Z = true := by
  obtain ⟨s, h0, _, h1, h2, h3, _⟩ := bit_hl_spec cpuBitHL 0 (by decide)
  exact ⟨s, h0, h1.trans (by decide), h2.trans (by decide), h3.trans (by decide)⟩

theorem ExecuteOneInstruction_DDCB
    (ExecuteEDOpcode ExecuteFDOpcode : CPU → Nat → Option (Nat × CPU)) (cpu : CPU)
    (hInt : (cpu.IFF1 && CheckInterrupt cpu) = false) (hHalt : cpu.HALT = false)
    (h0 : cpu.Memory cpu.PC = 0xDD) (h1 : cpu.Memory ((cpu.PC + 1) % 65536) = 0xCB) :
    ExecuteOneInstruction ExecuteEDOpcode ExecuteFDOpcode cpu =
      some (executeDDCBOpcode (ReadOpcode (ReadOpcode cpu).2).2) := by
  unfold ExecuteOneInstruction
  rw [hInt, hHalt]
  simp only [Bool.false_eq_true, if_false, ReadOpcode_fst, h0]
  have h1' : (ReadOpcode cpu).2.Memory (ReadOpcode cpu).2.PC = 0xCB := h1
  rw [h1', ExecuteDDOpcode_CB]

theorem executeDDCBOpcode_bit (cpu : CPU) (op : Nat) (hop : 0x40 ≤ op ∧ op ≤ 0x7F)
    (hfetch : cpu.Memory ((cpu.PC + 1) % 65536) = op) :
    (executeDDCBOpcode cpu).1 = 20 ∧
    (executeDDCBOpcode cpu).2.Memory = cpu.Memory ∧
    ((executeDDCBOpcode cpu).2.A = cpu.A ∧ (executeDDCBOpcode cpu).2.B = cpu.B ∧
      (executeDDCBOpcode cpu).2.C = cpu.C ∧ (executeDDCBOpcode cpu).2.D = cpu.D ∧
      (executeDDCBOpcode cpu).2.E = cpu.E ∧ (executeDDCBOpcode cpu).2.H = cpu.H ∧
      (executeDDCBOpcode cpu).2.L = cpu.L ∧ (executeDDCBOpcode cpu).2.IX = cpu.IX) ∧
    GetFlag (executeDDCBOpcode cpu).2 FLAG_X =
      (uint16 ((cpu.IX : Int) + int8 (cpu.Memory cpu.PC)) / 256 % 256).testBit 3 ∧
    GetFlag (executeDDCBOpcode cpu).2 FLAG_Y =
      (uint16 ((cpu.IX : Int) + int8 (cpu.Memory cpu.PC)) / 256 % 256).testBit 5 ∧
    GetFlag (executeDDCBOpcode cpu).2 FLAG_Z =
      !(cpu.Memory (uint16 ((cpu.IX : Int) + int8 (cpu.Memory cpu.PC)))).testBit
        ((op >>> 3) &&& 7) ∧
    (executeDDCBOpcode cpu).2.MEMPTR = uint16 ((cpu.IX : Int) + int8 (cpu.Memory cpu.PC)) := by
  have hb := (opcode_fields op).1
  unfold executeDDCBOpcode
  simp only [ReadDisplacement, ReadOpcode, ReadByte, hfetch]
  rw [if_neg (by omega), if_pos (by simp; omega)]
  simp only [bitMem, bit_mask _ hb, and_two_pow_eq_zero, Nat.shiftRight_eq_div_pow _ 8]
  cases hv : (cpu.Memory (uint16 ((cpu.IX : Int) + int8 (cpu.Memory cpu.PC)))).testBit
      ((op >>> 3) &&& 7)
  · simp
  · by_cases h7 : (op >>> 3) &&& 7 = 7
    · simp [h7]
    · simp [h7]

/-- C16: a step that fetches the bytes DD CB d op with op in 0x40-0x7F
(BIT b,(IX+d), any register field) returns 20 T-states, leaves memory and
A, B, C, D, E, H, L, IX unchanged, sets X and Y to bits 3 and 5 of the high byte of
ea = (IX + sign-extended d) mod 65536, sets Z iff bit (op >> 3) & 7 of memory[ea] is 0,
and leaves MEMPTR = ea. -/
theorem ddcb_bit_spec (ExecuteEDOpcode ExecuteFDOpcode : CPU → Nat → Option (Nat × CPU))
    (cpu : CPU) (d op : Nat)
    (hInt : (cpu.IFF1 && CheckInterrupt cpu) = false) (hHalt : cpu.HALT = false)
    (h0 : ReadByte cpu cpu.PC = 0xDD) (h1 : ReadByte cpu ((cpu.PC + 1) % 65536) = 0xCB)
    (h2 : ReadByte cpu ((cpu.PC + 2) % 65536) = d) (h3 : ReadByte cpu ((cpu.PC + 3) % 65536) = op)
    (hop : 0x40 ≤ op ∧ op ≤ 0x7F) :
    ∃ s, ExecuteOneInstruction ExecuteEDOpcode ExecuteFDOpcode cpu = some (20, s) ∧
      s.Memory = cpu.Memory ∧
      (s.A = cpu.A ∧ s.B = cpu.B ∧ s.C = cpu.C ∧ s.D = cpu.D ∧ s.E = cpu.E ∧ s.H = cpu.H ∧
        s.L = cpu.L ∧ s.IX = cpu.IX) ∧
      GetFlag s FLAG_X = (uint16 ((cpu.IX : Int) + int8 d) / 256 % 256).testBit 3 ∧
      GetFlag s FLAG_Y = (uint16 ((cpu.IX : Int) + int8 d) / 256 % 256).testBit 5 ∧
      GetFlag s FLAG_Z =
        !(ReadByte cpu (uint16 ((cpu.IX : Int) + int8 d))).testBit ((op >>> 3) &&& 7) ∧
      s.MEMPTR = uint16 ((cpu.IX : Int) + int8 d) := by
  simp only [ReadByte] at h0 h1 h2 h3 ⊢
  have e2 : ((cpu.PC + 1) % 65536 + 1) % 65536 = (cpu.PC + 2) % 65536 := by omega
  have e3 : ((cpu.PC + 2) % 65536 + 1) % 65536 = (cpu.PC + 3) % 65536 := by omega
  have hM : (ReadOpcode (ReadOpcode cpu).2).2.Memory = cpu.Memory := rfl
  have hP : (ReadOpcode (ReadOpcode cpu).2).2.PC = (cpu.PC + 2) % 65536 := by
    simp only [ReadOpcode, e2]
  have hX : (ReadOpcode (ReadOpcode cpu).2).2.IX = cpu.IX := rfl
  have hR : (ReadOpcode (ReadOpcode cpu).2).2.A = cpu.A ∧ (ReadOpcode (ReadOpcode cpu).2).2.B = cpu.B ∧
      (ReadOpcode (ReadOpcode cpu).2).2.C = cpu.C ∧ (ReadOpcode (ReadOpcode cpu).2).2.D = cpu.D ∧
      (ReadOpcode (ReadOpcode cpu).2).2.E = cpu.E ∧ (ReadOpcode (ReadOpcode cpu).2).2.H = cpu.H ∧
      (ReadOpcode (ReadOpcode cpu).2).2.L = cpu.L := ⟨rfl, rfl, rfl, rfl, rfl, rfl, rfl⟩
  have hstep := ExecuteOneInstruction_DDCB ExecuteEDOpcode ExecuteFDOpcode cpu hInt hHalt h0 h1
  generalize (ReadOpcode (ReadOpcode cpu).2).2 = s2 at hM hP hX hR hstep
  have key := executeDDCBOpcode_bit s2 op hop (by rw [hM, hP, e3]; exact h3)
  rw [hM, hP, hX, h2] at key
  obtain ⟨k1, k2, ⟨a1, a2, a3, a4, a5, a6, a7, a8⟩, k4, k5, k6, k7⟩ := key
  obtain ⟨rA, rB, rC, rD, rE, rH, rL⟩ := hR
  refine ⟨(executeDDCBOpcode s2).2, ?_, k2, ⟨a1.trans rA, a2.trans rB, a3.trans rC, a4.trans rD,
    a5.trans rE, a6.trans rH, a7.trans rL, a8⟩, k4, k5, k6, k7⟩
  rw [hstep, ← k1]

/-- BIT 0,(IX+5) (bytes DD CB 05 46) with IX = 0x2800 over a memory that is zero at
0x2805: 20 T-states, Z = 1, X = Y = 1 and MEMPTR = 0x2805. -/
theorem ddcb_bit_spec_witness :
    ∃ s, ExecuteOneInstruction noDecoder noDecoder cpuBitIX = some (20, s) ∧
      GetFlag s FLAG_X = true ∧ GetFlag s FLAG_Y = true ∧ GetFlag s FLAG_Z = true ∧
      s.MEMPTR = 0x2805 := by
  obtain ⟨s, h0, _, _, h1, h2, h3, h4⟩ := ddcb_bit_spec noDecoder noDecoder cpuBitIX 0x05 0x46
    rfl rfl rfl rfl rfl rfl (by decide)
  exact ⟨s, h0, h1.trans (by decide), h2.trans (by decide), h3.trans (by decide),
    h4.trans (by decide)⟩

/-! ## C17: the CB rotate and shift primitives -/

set_option maxRecDepth 100000 in
theorem parityLoop_eq_bitCount8 :
    ∀ r, r < 256 → (parityLoop r != 0) = decide (bitCount8 r % 2 = 0) := by
  decide

theorem rotate_tail_flags (cpu : CPU) (out : Bool) (result : Nat) (hr : result < 256) :
    RotateFlags (result, UpdateSZXYPVFlags
      (ClearFlag (ClearFlag (SetFlagState cpu FLAG_C out) FLAG_H) FLAG_N) result) out := by
  have hp := parityLoop_eq_bitCount8 result hr
  unfold RotateFlags
  refine ⟨?_, ?_, ?_, ?_, ?_, ?_, ?_, ?_⟩
  · simp [UpdateSZXYPVFlags]
  · simp [UpdateSZXYPVFlags]
  · simp [UpdateSZXYPVFlags]
  · simp [UpdateSZXYPVFlags]
  · simp [UpdateSZXYPVFlags]
    rw [Bool.eq_iff_iff]
    simp
  · simp [UpdateSZXYPVFlags]
  · simp [UpdateSZXYPVFlags]
  · simp [UpdateSZXYPVFlags, hp]

/-- C17: for each of rlc, rrc, rl, rr, sla, sra, sll, srl on a byte v, C becomes the
bit moved out of v (bit 7 for rlc, rl, sla, sll and bit 0 for rrc, rr, sra, srl),
N = 0, H = 0, S, Z, X, Y are bit 7, the zero test, bit 3 and bit 5 of the returned
byte, P/V is set iff the returned byte has an even number of 1 bits, and sll returns
((v << 1) | 1) mod 256. -/
theorem rotate_shift_flags (cpu : CPU) (v : Nat) (hv : v < 256) :
    RotateFlags (rlc cpu v) (v.testBit 7) ∧ RotateFlags (rl cpu v) (v.testBit 7) ∧
    RotateFlags (sla cpu v) (v.testBit 7) ∧ RotateFlags (sll cpu v) (v.testBit 7) ∧
    RotateFlags (rrc cpu v) (v.testBit 0) ∧ RotateFlags (rr cpu v) (v.testBit 0) ∧
    RotateFlags (sra cpu v) (v.testBit 0) ∧ RotateFlags (srl cpu v) (v.testBit 0) ∧
    (sll cpu v).1 = ((v <<< 1) ||| 1) % 256 := by
  obtain ⟨r0, r1, r2, r3, r4, r5, r6, r7⟩ := rotate_results cpu v hv
  have hc : boolToByte (GetFlag cpu FLAG_C) ≤ 1 := by
    unfold boolToByte; split <;> omega
  have b0 : (rlc cpu v).1 < 256 := by rw [r0]; clear r0 r1 r2 r3 r4 r5 r6 r7; omega
  have b1 : (rrc cpu v).1 < 256 := by rw [r1]; clear r0 r1 r2 r3 r4 r5 r6 r7; omega
  have b2 : (rl cpu v).1 < 256 := by rw [r2]; clear r0 r1 r2 r3 r4 r5 r6 r7; omega
  have b3 : (rr cpu v).1 < 256 := by rw [r3]; clear r0 r1 r2 r3 r4 r5 r6 r7; omega
  have b4 : (sla cpu v).1 < 256 := by rw [r4]; clear r0 r1 r2 r3 r4 r5 r6 r7; omega
  have b5 : (sra cpu v).1 < 256 := by rw [r5]; clear r0 r1 r2 r3 r4 r5 r6 r7; omega
  have b6 : (sll cpu v).1 < 256 := by rw [r6]; clear r0 r1 r2 r3 r4 r5 r6 r7; omega
  have b7 : (srl cpu v).1 < 256 := by rw [r7]; clear r0 r1 r2 r3 r4 r5 r6 r7; omega
  have t7 := and_128_ne v
  have t0 := and_1_ne v
  refine ⟨?_, ?_, ?_, ?_, ?_, ?_, ?_, ?_, ?_⟩
  · have h := rotate_tail_flags cpu (v.testBit 7) _ b0
    rw [← t7] at h ⊢; exact h
  · have h := rotate_tail_flags cpu (v.testBit 7) _ b2
    rw [← t7] at h ⊢; exact h
  · have h := rotate_tail_flags cpu (v.testBit 7) _ b4
    rw [← t7] at h ⊢; exact h
  · have h := rotate_tail_flags cpu (v.testBit 7) _ b6
    rw [← t7] at h ⊢; exact h
  · have h := rotate_tail_flags cpu (v.testBit 0) _ b1
    rw [← t0] at h ⊢; exact h
  · have h := rotate_tail_flags cpu (v.testBit 0) _ b3
    rw [← t0] at h ⊢; exact h
  · have h := rotate_tail_flags cpu (v.testBit 0) _ b5
    rw [← t0] at h ⊢; exact h
  · have h := rotate_tail_flags cpu (v.testBit 0) _ b7
    rw [← t0] at h ⊢; exact h
  · have h1 : (sll cpu v).1 = (v <<< 1) % 256 ||| 1 := rfl
    have h2 : ∀ x : Nat, x % 256 = x &&& 255 := fun x => (Nat.and_pow_two_sub_one_eq_mod x 8).symm
    rw [h1, h2, h2]
    apply Nat.eq_of_testBit_eq
    intro i
    simp only [Nat.testBit_and, Nat.testBit_or]
    have h255 : Nat.testBit 255 i = decide (i < 8) := @Nat.testBit_two_pow_sub_one 8 i
    have h1b : Nat.testBit 1 i = decide (i = 0) := by
      have := @Nat.testBit_two_pow 0 i
      simpa [eq_comm] using this
    rw [h255, h1b]
    by_cases hi : i = 0
    · subst hi; simp
    · simp [hi]

/-- The operand 0x81: rlc returns 0x03 with C = 1, sll returns 0x03. -/
theorem rotate_shift_flags_witness :
    (0x81 < 256) ∧ (rlc cpu0 0x81).1 = 0x03 ∧ GetFlag (rlc cpu0 0x81).2 FLAG_C = true ∧
    (sll cpu0 0x81).1 = 0x03 :=
  have h := rotate_shift_flags cpu0 0x81 (by decide)
  ⟨by decide, by decide, h.1.1, h.2.2.2.2.2.2.2.2.trans (by decide)⟩

/-! ## C18: the accumulator rotates -/

/-- C18: RLCA leaves A rotated left by one with C = old bit 7, RRCA leaves A rotated
right by one with C = old bit 0, RLA leaves A = ((A << 1) | old C) mod 256 with
C = old bit 7, RRA leaves A = (A >> 1) | (old C << 7) with C = old bit 0 (the new A is
written arithmetically); in all four N = 0, H = 0, X and Y are bits 3 and 5 of the new
A, and S, Z and P/V are unchanged. -/
theorem accumulator_rotates (cpu : CPU) (hA : cpu.A < 256) :
    ((rlca cpu).A = cpu.A * 2 % 256 + cpu.A / 128 ∧
      GetFlag (rlca cpu) FLAG_C = cpu.A.testBit 7 ∧ AccRotateFlags cpu (rlca cpu)) ∧
    ((rrca cpu).A = cpu.A / 2 + cpu.A % 2 * 128 ∧
      GetFlag (rrca cpu) FLAG_C = cpu.A.testBit 0 ∧ AccRotateFlags cpu (rrca cpu)) ∧
    ((rla cpu).A = cpu.A * 2 % 256 + boolToByte (GetFlag cpu FLAG_C) ∧
      GetFlag (rla cpu) FLAG_C = cpu.A.testBit 7 ∧ AccRotateFlags cpu (rla cpu)) ∧
    ((rra cpu).A = cpu.A / 2 + boolToByte (GetFlag cpu FLAG_C) * 128 ∧
      GetFlag (rra cpu) FLAG_C = cpu.A.testBit 0 ∧ AccRotateFlags cpu (rra cpu)) := by
  obtain ⟨h1, h2, h3, h4, h5, h6, _⟩ := rotate_values cpu.A hA
  have a1 : (rlca cpu).A = cpu.A * 2 % 256 + cpu.A / 128 := by
    simp only [rlca, UpdateXYFlags, SetFlagState_eq, ClearFlag_eq]; exact h1
  have a2 : (rrca cpu).A = cpu.A / 2 + cpu.A % 2 * 128 := by
    simp only [rrca, UpdateXYFlags, SetFlagState_eq, ClearFlag_eq]; exact h2
  have a3 : (rla cpu).A = cpu.A * 2 % 256 + boolToByte (GetFlag cpu FLAG_C) := by
    simp only [rla, UpdateXYFlags, SetFlagState_eq, ClearFlag_eq]
    cases GetFlag cpu FLAG_C
    · simpa [boolToByte] using h4
    · simpa [boolToByte] using h3
  have a4 : (rra cpu).A = cpu.A / 2 + boolToByte (GetFlag cpu FLAG_C) * 128 := by
    simp only [rra, UpdateXYFlags, SetFlagState_eq, ClearFlag_eq]
    cases GetFlag cpu FLAG_C
    · simpa [boolToByte] using h6
    · simpa [boolToByte] using h5
  have c1 : GetFlag (rlca cpu) FLAG_C = cpu.A.testBit 7 := by
    clear a1 a2 a3 a4 h2 h3 h4 h5 h6
    simp [rlca, UpdateXYFlags, h1]
    simp only [Nat.testBit_to_div_mod, Nat.reducePow]
    rw [Bool.eq_iff_iff]
    simp
    clear h1
    omega
  have c2 : GetFlag (rrca cpu) FLAG_C = cpu.A.testBit 0 := by
    clear a1 a2 a3 a4 h1 h3 h4 h5 h6
    simp [rrca, UpdateXYFlags, h2]
    simp only [Nat.testBit_to_div_mod, Nat.reducePow]
    rw [Bool.eq_iff_iff]
    simp
    clear h2
    omega
  have c3 : GetFlag (rla cpu) FLAG_C = cpu.A.testBit 7 := by
    simp [rla, UpdateXYFlags]
  have c4 : GetFlag (rra cpu) FLAG_C = cpu.A.testBit 0 := by
    simp [rra, UpdateXYFlags]
    rw [Bool.eq_iff_iff]
    simp
  refine ⟨⟨a1, c1, ?_⟩, ⟨a2, c2, ?_⟩, ⟨a3, c3, ?_⟩, ⟨a4, c4, ?_⟩⟩
  · unfold AccRotateFlags
    simp [rlca, UpdateXYFlags]
  · unfold AccRotateFlags
    simp [rrca, UpdateXYFlags]
  · unfold AccRotateFlags
    simp [rla, UpdateXYFlags]
  · unfold AccRotateFlags
    simp [rra, UpdateXYFlags]

/-- The accumulator 0x81 with F = 0: RLCA leaves A = 0x03 with C = 1 and RRA leaves
A = 0x40 with C = 1. -/
theorem accumulator_rotates_witness :
    (rlca cpuRot).A = 0x03 ∧ GetFlag (rlca cpuRot) FLAG_C = true ∧
    (rra cpuRot).A = 0x40 ∧ GetFlag (rra cpuRot) FLAG_C = true :=
  have h := accumulator_rotates cpuRot (by decide)
  ⟨h.1.1.trans (by decide), h.1.2.1, h.2.2.2.1.trans (by decide), h.2.2.2.2.1⟩

/-! ## C19-C20: SCF and CCF -/

theorem and_two_pow_eq_self (x i : Nat) : ((x &&& 2 ^ i) == 2 ^ i) = x.testBit i := by
  rw [Nat.and_two_pow]
  cases x.testBit i <;> simp
  exact (Nat.pos_pow_of_pos i (by decide)).ne

theorem and_8_eq_8 (x : Nat) : ((x &&& 8) == 8) = x.testBit 3 := and_two_pow_eq_self x 3
theorem and_32_eq_32 (x : Nat) : ((x &&& 32) == 32) = x.testBit 5 := and_two_pow_eq_self x 5

/-- C19: SCF leaves C = 1, H = 0, N = 0 and CCF leaves C = NOT old C, H = old C,
N = 0; both change no field of the state but F (so A is kept), and both keep the
flags S, Z and P/V. -/
theorem scf_ccf_spec (cpu : CPU) :
    (scf cpu = { cpu with F := (scf cpu).F } ∧ (scf cpu).A = cpu.A ∧
      GetFlag (scf cpu) FLAG_C = true ∧ GetFlag (scf cpu) FLAG_H = false ∧
      GetFlag (scf cpu) FLAG_N = false ∧
      GetFlag (scf cpu) FLAG_S = GetFlag cpu FLAG_S ∧
      GetFlag (scf cpu) FLAG_Z = GetFlag cpu FLAG_Z ∧
      GetFlag (scf cpu) FLAG_PV = GetFlag cpu FLAG_PV) ∧
    (ccf cpu = { cpu with F := (ccf cpu).F } ∧ (ccf cpu).A = cpu.A ∧
      GetFlag (ccf cpu) FLAG_C = !GetFlag cpu FLAG_C ∧
      GetFlag (ccf cpu) FLAG_H = GetFlag cpu FLAG_C ∧
      GetFlag (ccf cpu) FLAG_N = false ∧
      GetFlag (ccf cpu) FLAG_S = GetFlag cpu FLAG_S ∧
      GetFlag (ccf cpu) FLAG_Z = GetFlag cpu FLAG_Z ∧
      GetFlag (ccf cpu) FLAG_PV = GetFlag cpu FLAG_PV) := by
  constructor
  · simp only [scf]
    split <;> simp
  · simp only [ccf]
    split <;> simp

/-- The X and Y flags after SCF and CCF as the code computes them: each is set when
bits 3 and 5 of A are both set, and keeps its prior value otherwise. -/
theorem scf_ccf_xy (cpu : CPU) :
    GetFlag (scf cpu) FLAG_X = (GetFlag cpu FLAG_X || (cpu.A.testBit 3 && cpu.A.testBit 5)) ∧
    GetFlag (scf cpu) FLAG_Y = (GetFlag cpu FLAG_Y || (cpu.A.testBit 3 && cpu.A.testBit 5)) ∧
    GetFlag (ccf cpu) FLAG_X = (GetFlag cpu FLAG_X || (cpu.A.testBit 3 && cpu.A.testBit 5)) ∧
    GetFlag (ccf cpu) FLAG_Y = (GetFlag cpu FLAG_Y || (cpu.A.testBit 3 && cpu.A.testBit 5)) := by
  simp only [scf, ccf, FLAG_X, FLAG_Y, FLAG_3, FLAG_5, SetFlag_eq, ClearFlag_eq, SetFlagState_eq, and_8_eq_8,
    and_32_eq_32]
  cases h3 : cpu.A.testBit 3 <;> cases h5 : cpu.A.testBit 5 <;> simp

/-- C20: when bits 3 and 5 of A are not both set, SCF and CCF leave the flags X and
Y at their prior values; they are not cleared. -/
theorem scf_ccf_xy_kept (cpu : CPU) (h : (cpu.A.testBit 3 && cpu.A.testBit 5) = false) :
    GetFlag (scf cpu) FLAG_X = GetFlag cpu FLAG_X ∧
    GetFlag (scf cpu) FLAG_Y = GetFlag cpu FLAG_Y ∧
    GetFlag (ccf cpu) FLAG_X = GetFlag cpu FLAG_X ∧
    GetFlag (ccf cpu) FLAG_Y = GetFlag cpu FLAG_Y := by
  have k := scf_ccf_xy cpu
  rw [h] at k
  simpa using k

/-- With A = 0x00 and F = 0x28, bits 3 and 5 of A are clear and yet X and Y are set
after SCF and after CCF. -/
theorem scf_ccf_xy_kept_witness :
    (cpuXY.A.testBit 3 && cpuXY.A.testBit 5) = false ∧
    GetFlag (scf cpuXY) FLAG_X = true ∧ GetFlag (scf cpuXY) FLAG_Y = true ∧
    GetFlag (ccf cpuXY) FLAG_X = true ∧ GetFlag (ccf cpuXY) FLAG_Y = true :=
  ⟨by decide,
   (scf_ccf_xy_kept cpuXY (by decide)).1.trans (by decide),
   (scf_ccf_xy_kept cpuXY (by decide)).2.1.trans (by decide),
   (scf_ccf_xy_kept cpuXY (by decide)).2.2.1.trans (by decide),
   (scf_ccf_xy_kept cpuXY (by decide)).2.2.2.trans (by decide)⟩

/-! ## C21: acceptance of a maskable interrupt -/

theorem uint16_lt (i : Int) : uint16 i < 65536 := by
  unfold uint16
  omega

theorem Push_eq (cpu : CPU) (v : Nat) :
    Push cpu v = { cpu with
      SP := uint16 ((cpu.SP : Int) - 2)
      Memory := fun a =>
        if a = (uint16 ((cpu.SP : Int) - 2) + 1) % 65536 then (v >>> 8) % 256
        else if a = uint16 ((cpu.SP : Int) - 2) then v % 256 else cpu.Memory a } := by
  simp [Push, WriteWord, WriteByte]

theorem Push_spec (cpu : CPU) (v : Nat) :
    (Push cpu v).SP = uint16 ((cpu.SP : Int) - 2) ∧
    (Push cpu v).Memory (Push cpu v).SP = v % 256 ∧
    (Push cpu v).Memory (((Push cpu v).SP + 1) % 65536) = v / 256 % 256 ∧
    (∀ a, a ≠ (Push cpu v).SP → a ≠ ((Push cpu v).SP + 1) % 65536 →
      (Push cpu v).Memory a = cpu.Memory a) ∧
    Push cpu v = { cpu with SP := (Push cpu v).SP, Memory := (Push cpu v).Memory } := by
  have h := uint16_lt ((cpu.SP : Int) - 2)
  rw [Push_eq]
  generalize uint16 ((cpu.SP : Int) - 2) = sp at h
  refine ⟨rfl, ?_, ?_, ?_, rfl⟩
  · have : sp ≠ (sp + 1) % 65536 := by omega
    simp [this]
  · simp [Nat.shiftRight_eq_div_pow]
  · intro a h1 h2
    simp only at h1 h2 ⊢
    simp [h1, h2]

theorem HandleInterrupt_eq (cpu : CPU) (hIM : cpu.IM ≤ 2) :
    HandleInterrupt cpu =
      (if cpu.IM = 2 then 19 else 13,
       { (Push { cpu with HALT := false, PC := interruptReturn cpu, IFF1 := false, IFF2 := false }
           (interruptReturn cpu)) with
         PC := if cpu.IM = 2 then
             ReadWord
               (Push { cpu with HALT := false, PC := interruptReturn cpu, IFF1 := false, IFF2 := false }
                 (interruptReturn cpu))
               ((cpu.I <<< 8) ||| 0xFF)
           else 0x0038 }) := by
  have h : cpu.IM = 0 ∨ cpu.IM = 1 ∨ cpu.IM = 2 := by omega
  unfold HandleInterrupt interruptReturn
  cases hH : cpu.HALT <;> rcases h with h | h | h <;> simp [h, hH, Push_eq, ReadWord]

/-- C21: when IFF1 is set, IM is 0, 1 or 2 and CheckInterrupt reports a pending
interrupt, ExecuteOneInstruction fetches no opcode and accepts the interrupt: HALT
becomes false and the return address is PC, advanced by one if the processor was
halted; IFF1 and IFF2 become false; SP decreases by 2 and the return address is
written little-endian at the new SP; for IM 0 or 1, PC = 0x0038 and 13 is returned;
for IM 2, PC is the little-endian word found at (I << 8) | 0xFF after the push and 19
is returned; no other field of the state changes, R included. -/
theorem interrupt_accept (ExecuteEDOpcode ExecuteFDOpcode : CPU → Nat → Option (Nat × CPU))
    (cpu : CPU) (hIFF : cpu.IFF1 = true) (hInt : CheckInterrupt cpu = true)
    (hIM : cpu.IM ≤ 2) :
    ∃ s, ExecuteOneInstruction ExecuteEDOpcode ExecuteFDOpcode cpu =
        some (if cpu.IM = 2 then 19 else 13, s) ∧
      s.R = cpu.R ∧ s.HALT = false ∧ s.IFF1 = false ∧ s.IFF2 = false ∧
      s.SP = uint16 ((cpu.SP : Int) - 2) ∧
      s.Memory s.SP = interruptReturn cpu % 256 ∧
      s.Memory ((s.SP + 1) % 65536) = interruptReturn cpu / 256 % 256 ∧
      (∀ a, a ≠ s.SP → a ≠ (s.SP + 1) % 65536 → s.Memory a = cpu.Memory a) ∧
      (cpu.IM ≠ 2 → s.PC = 0x0038) ∧
      (cpu.IM = 2 → s.PC = ReadWord s ((cpu.I <<< 8) ||| 0xFF)) ∧
      (cpu.IM = 2 →
        (cpu.I <<< 8) ||| 0xFF ≠ uint16 ((cpu.SP : Int) - 2) →
        (cpu.I <<< 8) ||| 0xFF ≠ (uint16 ((cpu.SP : Int) - 2) + 1) % 65536 →
        (((cpu.I <<< 8) ||| 0xFF) + 1) % 65536 ≠ uint16 ((cpu.SP : Int) - 2) →
        (((cpu.I <<< 8) ||| 0xFF) + 1) % 65536 ≠ (uint16 ((cpu.SP : Int) - 2) + 1) % 65536 →
        s.PC = ReadWord cpu ((cpu.I <<< 8) ||| 0xFF)) ∧
      s = { cpu with HALT := false, IFF1 := false, IFF2 := false, SP := s.SP, PC := s.PC,
                     Memory := s.Memory } := by
  obtain ⟨p1, p2, p3, p4, p5⟩ := Push_spec
    { cpu with HALT := false, PC := interruptReturn cpu, IFF1 := false, IFF2 := false }
    (interruptReturn cpu)
  have hstep : ExecuteOneInstruction ExecuteEDOpcode ExecuteFDOpcode cpu =
      some (HandleInterrupt cpu) := by
    unfold ExecuteOneInstruction
    simp [hIFF, hInt]
  rw [hstep, HandleInterrupt_eq cpu hIM]
  refine ⟨_, rfl, ?_, ?_, ?_, ?_, p1, p2, p3, p4, ?_, ?_, ?_, ?_⟩
  · simp
  · simp [Push_eq]
  · simp [Push_eq]
  · simp [Push_eq]
  · intro h; simp [h]
  · intro h; simp [h, ReadWord]
  · intro h h1 h2 h3 h4
    simp [h, ReadWord, Push_eq, h1, h2, h3, h4]
  · simp [Push_eq]

/-- IM 2 with I = 0x12, memory[0x12FF] = 0x34 and memory[0x1300] = 0x56: the
interrupt is accepted in 19 T-states and PC = 0x5634. -/
theorem interrupt_accept_witness :
    ∃ s, ExecuteOneInstruction noDecoder noDecoder cpuIM2 = some (19, s) ∧ s.PC = 0x5634 ∧
      s.IFF1 = false ∧ s.IFF2 = false := by
  obtain ⟨s, h0, _, _, h1, h2, _, _, _, _, _, _, h3, _⟩ :=
    interrupt_accept noDecoder noDecoder cpuIM2 rfl rfl (by decide)
  exact ⟨s, h0, (h3 rfl (by decide) (by decide) (by decide) (by decide)).trans (by decide),
    h1, h2⟩

/-! ## C22: the HALT state -/

theorem ExecuteOneInstruction_halted
    (ExecuteEDOpcode ExecuteFDOpcode : CPU → Nat → Option (Nat × CPU)) (cpu : CPU)
    (hHalt : cpu.HALT = true) (hInt : (cpu.IFF1 && CheckInterrupt cpu) = false) :
    ExecuteOneInstruction ExecuteEDOpcode ExecuteFDOpcode cpu = some (4, cpu) := by
  unfold ExecuteOneInstruction
  simp [hHalt, hInt]

theorem runCalls_halted (ExecuteEDOpcode ExecuteFDOpcode : CPU → Nat → Option (Nat × CPU))
    (pending : List Bool) :
    ∀ cpu : CPU, cpu.HALT = true → (∀ p ∈ pending, (cpu.IFF1 && p) = false) →
      ∃ s, runCalls ExecuteEDOpcode ExecuteFDOpcode pending cpu =
          some (List.replicate pending.length 4, s) ∧
        { s with IntPending := cpu.IntPending } = cpu := by
  induction pending with
  | nil => intro cpu _ _; exact ⟨cpu, rfl, rfl⟩
  | cons p ps ih =>
    intro cpu hHalt hp
    have h1 := ExecuteOneInstruction_halted ExecuteEDOpcode ExecuteFDOpcode
      { cpu with IntPending := p } hHalt (hp p (List.mem_cons_self p ps))
    obtain ⟨s, h2, h3⟩ := ih { cpu with IntPending := p } hHalt
      (fun q hq => hp q (List.mem_cons_of_mem p hq))
    refine ⟨s, ?_, ?_⟩
    · simp only [runCalls, h1, h2, Option.map_some', List.length_cons, List.replicate_succ]
    · exact congrArg (fun c : CPU => { c with IntPending := cpu.IntPending }) h3

theorem ExecuteOpcode_halt (cpu : CPU) :
    ExecuteOpcode cpu 0x76 =
      some (4, { cpu with HALT := true, PC := uint16 ((cpu.PC : Int) - 1) }) := by
  simp only [ExecuteOpcode, ExecuteOpcode_70]

/-- C22: a step that fetches the opcode 0x76 at address p (no interrupt accepted,
HALT clear) returns 4, sets HALT, leaves PC = p and changes nothing else but R, which
the fetch advances; on every halted state a call in which no interrupt is accepted
returns 4 and leaves the whole state unchanged; hence any sequence of such calls
from the state reached by HALT returns 4 each time and ends in that same state,
apart from what CheckInterrupt reports. -/
theorem halt_stays (ExecuteEDOpcode ExecuteFDOpcode : CPU → Nat → Option (Nat × CPU))
    (cpu : CPU) (hPC : cpu.PC < 65536)
    (hInt : (cpu.IFF1 && CheckInterrupt cpu) = false) (hHalt : cpu.HALT = false)
    (h0 : ReadByte cpu cpu.PC = 0x76) :
    (∃ s, ExecuteOneInstruction ExecuteEDOpcode ExecuteFDOpcode cpu = some (4, s) ∧
      s.HALT = true ∧ s.PC = cpu.PC ∧ s = { cpu with HALT := true, R := s.R } ∧
      ∀ pending : List Bool, (∀ p ∈ pending, (s.IFF1 && p) = false) →
        ∃ t, runCalls ExecuteEDOpcode ExecuteFDOpcode pending s =
            some (List.replicate pending.length 4, t) ∧
          { t with IntPending := s.IntPending } = s) ∧
    (∀ h : CPU, h.HALT = true → (h.IFF1 && CheckInterrupt h) = false →
      ExecuteOneInstruction ExecuteEDOpcode ExecuteFDOpcode h = some (4, h)) := by
  have hstep : ExecuteOneInstruction ExecuteEDOpcode ExecuteFDOpcode cpu =
      ExecuteOpcode (ReadOpcode cpu).2 0x76 := by
    unfold ExecuteOneInstruction
    rw [hInt, hHalt]
    simp only [Bool.false_eq_true, if_false, ReadOpcode_fst]
    rw [show cpu.Memory cpu.PC = 0x76 from h0]
  have hpc : uint16 ((((cpu.PC + 1) % 65536 : Nat) : Int) - 1) = cpu.PC := by
    unfold uint16
    omega
  refine ⟨?_, fun h h1 h2 => ExecuteOneInstruction_halted _ _ h h1 h2⟩
  rw [hstep, ExecuteOpcode_halt]
  refine ⟨_, rfl, rfl, ?_, ?_, ?_⟩
  · simp only [ReadOpcode]
    exact hpc
  · simp only [ReadOpcode, hpc]
  · intro pending hp
    exact runCalls_halted ExecuteEDOpcode ExecuteFDOpcode pending _ rfl hp

/-- HALT at 0x0100: the step returns 4 with HALT set and PC = 0x0100, and three
further calls, with an interrupt pending at the second one but IFF1 clear, return 4
each. -/
theorem halt_stays_witness :
    ∃ s, ExecuteOneInstruction noDecoder noDecoder cpuBeforeHalt = some (4, s) ∧
      s.HALT = true ∧ s.PC = 0x0100 ∧
      ∃ t, runCalls noDecoder noDecoder [false, true, false] s = some ([4, 4, 4], t) ∧
        t.PC = 0x0100 := by
  obtain ⟨s, h1, h2, h3, h4, h5⟩ :=
    (halt_stays noDecoder noDecoder cpuBeforeHalt (by decide) rfl rfl rfl).1
  have hI : s.IFF1 = false := by rw [h4]; rfl
  obtain ⟨t, h6, h7⟩ := h5 [false, true, false] (by intro p _; rw [hI]; rfl)
  refine ⟨s, h1, h2, h3, t, h6, ?_⟩
  have : t.PC = s.PC := by rw [← h7]
  rw [this, h3]; rfl

/-! ## C23-C24: HALT and the non-maskable interrupt -/

theorem HandleInterrupt_HALT (cpu : CPU) : (HandleInterrupt cpu).2.HALT = false := by
  unfold HandleInterrupt
  cases hH : cpu.HALT <;> simp only [] <;> split <;> simp [Push_eq, hH]

theorem HandleNMI_eq (cpu : CPU) :
    HandleNMI cpu = (11, { (Push cpu cpu.PC) with PC := 0x0066, IFF1 := false }) := rfl

/-- C23: on a halted processor, HandleInterrupt leaves HALT false, while HandleNMI
leaves HALT set; the step that follows the non-maskable interrupt then returns 4
T-states and changes nothing, so the handler at 0x0066 is not run. -/
theorem halt_after_interrupt (ExecuteEDOpcode ExecuteFDOpcode : CPU → Nat → Option (Nat × CPU))
    (cpu : CPU) (hHalt : cpu.HALT = true) :
    (HandleInterrupt cpu).2.HALT = false ∧ (HandleNMI cpu).2.HALT = true ∧
    ExecuteOneInstruction ExecuteEDOpcode ExecuteFDOpcode (HandleNMI cpu).2 =
      some (4, (HandleNMI cpu).2) := by
  have h1 : (HandleNMI cpu).2.HALT = true := by
    rw [HandleNMI_eq]; simp [Push_eq, hHalt]
  have h2 : (HandleNMI cpu).2.IFF1 = false := by
    rw [HandleNMI_eq]
  refine ⟨HandleInterrupt_HALT cpu, h1, ?_⟩
  unfold ExecuteOneInstruction
  simp [h1, h2]

/-- The halted processor `cpuHalted`: after HandleNMI, HALT is still set and PC is
0x0066; after HandleInterrupt, HALT is clear. -/
theorem halt_after_interrupt_witness :
    cpuHalted.HALT = true ∧ (HandleNMI cpuHalted).2.HALT = true ∧
    (HandleNMI cpuHalted).2.PC = 0x0066 ∧ (HandleInterrupt cpuHalted).2.HALT = false :=
  ⟨rfl, (halt_after_interrupt noDecoder noDecoder cpuHalted rfl).2.1, rfl,
    (halt_after_interrupt noDecoder noDecoder cpuHalted rfl).1⟩

/-- C24: HandleNMI returns 11, decreases SP by 2, writes the prior PC little-endian
at the new SP and nowhere else, clears IFF1, keeps IFF2, sets PC = 0x0066, and
leaves A, F, B, C, D, E, H, L, the shadow bank, IX, IY, I, IM and MEMPTR (and R and
HALT) unchanged. -/
theorem HandleNMI_spec (cpu : CPU) :
    (HandleNMI cpu).1 = 11 ∧
    (HandleNMI cpu).2.SP = uint16 ((cpu.SP : Int) - 2) ∧
    (HandleNMI cpu).2.Memory (HandleNMI cpu).2.SP = cpu.PC % 256 ∧
    (HandleNMI cpu).2.Memory (((HandleNMI cpu).2.SP + 1) % 65536) = cpu.PC / 256 % 256 ∧
    (∀ a, a ≠ (HandleNMI cpu).2.SP → a ≠ ((HandleNMI cpu).2.SP + 1) % 65536 →
      (HandleNMI cpu).2.Memory a = cpu.Memory a) ∧
    (HandleNMI cpu).2.IFF1 = false ∧ (HandleNMI cpu).2.IFF2 = cpu.IFF2 ∧
    (HandleNMI cpu).2.PC = 0x0066 ∧
    ((HandleNMI cpu).2.A = cpu.A ∧ (HandleNMI cpu).2.F = cpu.F ∧ (HandleNMI cpu).2.B = cpu.B ∧
      (HandleNMI cpu).2.C = cpu.C ∧ (HandleNMI cpu).2.D = cpu.D ∧ (HandleNMI cpu).2.E = cpu.E ∧
      (HandleNMI cpu).2.H = cpu.H ∧ (HandleNMI cpu).2.L = cpu.L) ∧
    ((HandleNMI cpu).2.A_ = cpu.A_ ∧ (HandleNMI cpu).2.F_ = cpu.F_ ∧
      (HandleNMI cpu).2.B_ = cpu.B_ ∧ (HandleNMI cpu).2.C_ = cpu.C_ ∧
      (HandleNMI cpu).2.D_ = cpu.D_ ∧ (HandleNMI cpu).2.E_ = cpu.E_ ∧
      (HandleNMI cpu).2.H_ = cpu.H_ ∧ (HandleNMI cpu).2.L_ = cpu.L_) ∧
    ((HandleNMI cpu).2.IX = cpu.IX ∧ (HandleNMI cpu).2.IY = cpu.IY ∧
      (HandleNMI cpu).2.I = cpu.I ∧ (HandleNMI cpu).2.IM = cpu.IM ∧
      (HandleNMI cpu).2.MEMPTR = cpu.MEMPTR) ∧
    (HandleNMI cpu).2 = { cpu with SP := (HandleNMI cpu).2.SP, PC := 0x0066, IFF1 := false,
                                   Memory := (HandleNMI cpu).2.Memory } := by
  obtain ⟨p1, p2, p3, p4, p5⟩ := Push_spec cpu cpu.PC
  rw [HandleNMI_eq]
  refine ⟨rfl, p1, p2, p3, p4, rfl, ?_, rfl, ?_, ?_, ?_, ?_⟩ <;> simp [Push_eq]

/-! ## C25: EI and the next instruction -/

theorem ExecuteOpcode_ei (cpu : CPU) :
    ExecuteOpcode cpu 0xFB = some (4, { cpu with IFF1 := true, IFF2 := true }) := by
  simp only [ExecuteOpcode, ExecuteOpcode_F0]

/-- C25, as stated: with the bytes FB 00 at address 0 and an interrupt pending, the
call after EI accepts the interrupt (13 T-states, PC = 0x0038, return address 0x0001
on the stack) and does not execute the NOP that follows EI, which would return 4
T-states with PC = 0x0002. -/
theorem ei_no_delay_example :
    ∃ s1 s2, ExecuteOneInstruction noDecoder noDecoder cpuEI = some (4, s1) ∧
      s1.IFF1 = true ∧ CheckInterrupt s1 = true ∧ s1.PC = 0x0001 ∧
      ExecuteOneInstruction noDecoder noDecoder s1 = some (13, s2) ∧
      s2.PC = 0x0038 ∧ s2.IFF1 = false ∧ ReadWord s2 s2.SP = 0x0001 ∧
      ExecuteOpcode (ReadOpcode s1).2 (ReadOpcode s1).1 ≠
        ExecuteOneInstruction noDecoder noDecoder s1 :=
  ⟨_, _, rfl, rfl, rfl, rfl, rfl, rfl, rfl, by decide, by
    intro h
    have h2 := congrArg (Option.map Prod.fst) h
    revert h2
    decide⟩

/-- C25, amended: a step that fetches EI (opcode 0xFB) returns 4 with IFF1 and IFF2
set, and changes nothing else but PC and R; if CheckInterrupt reports a pending
interrupt at the immediately following call, that call accepts it at once: it
clears IFF1 and IFF2 and pushes the address of the instruction after EI without
executing that instruction (for IM 0, 1 or 2). -/
theorem ei_no_delay (ExecuteEDOpcode ExecuteFDOpcode : CPU → Nat → Option (Nat × CPU))
    (cpu : CPU) (hInt : (cpu.IFF1 && CheckInterrupt cpu) = false) (hHalt : cpu.HALT = false)
    (h0 : ReadByte cpu cpu.PC = 0xFB) (hIM : cpu.IM ≤ 2) :
    ∃ s, ExecuteOneInstruction ExecuteEDOpcode ExecuteFDOpcode cpu = some (4, s) ∧
      s.IFF1 = true ∧ s.IFF2 = true ∧
      s = { cpu with IFF1 := true, IFF2 := true, PC := (cpu.PC + 1) % 65536, R := s.R } ∧
      ∃ t, ExecuteOneInstruction ExecuteEDOpcode ExecuteFDOpcode { s with IntPending := true } =
          some (if cpu.IM = 2 then 19 else 13, t) ∧
        t.IFF1 = false ∧ t.IFF2 = false ∧
        t.SP = uint16 ((cpu.SP : Int) - 2) ∧
        t.Memory t.SP = (cpu.PC + 1) % 65536 % 256 ∧
        t.Memory ((t.SP + 1) % 65536) = (cpu.PC + 1) % 65536 / 256 % 256 ∧
        (cpu.IM ≠ 2 → t.PC = 0x0038) ∧ t.R = s.R := by
  have hstep : ExecuteOneInstruction ExecuteEDOpcode ExecuteFDOpcode cpu =
      ExecuteOpcode (ReadOpcode cpu).2 0xFB := by
    unfold ExecuteOneInstruction
    rw [hInt, hHalt]
    simp only [Bool.false_eq_true, if_false, ReadOpcode_fst]
    rw [show cpu.Memory cpu.PC = 0xFB from h0]
  rw [hstep, ExecuteOpcode_ei]
  refine ⟨_, rfl, rfl, rfl, ?_, ?_⟩
  · simp only [ReadOpcode]
  · have hstep2 : ∀ c : CPU, c.IFF1 = true → c.IntPending = true →
        ExecuteOneInstruction ExecuteEDOpcode ExecuteFDOpcode c = some (HandleInterrupt c) := by
      intro c h1 h2
      unfold ExecuteOneInstruction CheckInterrupt
      simp [h1, h2]
    rw [hstep2 _ rfl rfl, HandleInterrupt_eq _ (by simpa [ReadOpcode] using hIM)]
    obtain ⟨p1, p2, p3, _, _⟩ := Push_spec
      { cpu with PC := (cpu.PC + 1) % 65536, HALT := false, IFF1 := false, IFF2 := false,
                 IntPending := true,
                 R := (cpu.R &&& 0x80) ||| (((cpu.R + 1) % 256) &&& 0x7F) }
      ((cpu.PC + 1) % 65536)
    simp only [ReadOpcode, interruptReturn, hHalt, Bool.false_eq_true, if_false] at p1 p2 p3 ⊢
    refine ⟨_, rfl, ?_, ?_, p1, p2, p3, ?_, ?_⟩
    · simp [Push_eq]
    · simp [Push_eq]
    · intro h; simp [h]
    · simp [Push_eq]

/-- The EI example through the general statement: the call after EI returns 13
T-states with IFF1 clear and PC = 0x0038. -/
theorem ei_no_delay_witness :
    ∃ s t, ExecuteOneInstruction noDecoder noDecoder cpuEI = some (4, s) ∧ s.IFF1 = true ∧
      ExecuteOneInstruction noDecoder noDecoder { s with IntPending := true } = some (13, t) ∧
      t.IFF1 = false ∧ t.PC = 0x0038 := by
  obtain ⟨s, h1, h2, _, _, t, h3, h4, _, _, _, _, h5, _⟩ :=
    ei_no_delay noDecoder noDecoder cpuEI rfl rfl rfl (by decide)
  exact ⟨s, t, h1, h2, h3, h4, h5 (by decide)⟩

/-! ## C26: DD prefix fall-through -/

theorem ExecuteDDOpcode_00_default (cpu : CPU) (b : Nat) (hd : b ∉ ddCases) :
    ExecuteDDOpcode_00 cpu b = ExecuteOpcode cpu b := by
  unfold ExecuteDDOpcode_00
  split <;> first
    | exact absurd (by decide) hd
    | rfl

theorem ExecuteDDOpcode_10_default (cpu : CPU) (b : Nat) (hd : b ∉ ddCases) :
    ExecuteDDOpcode_10 cpu b = ExecuteOpcode cpu b := by
  unfold ExecuteDDOpcode_10
  split <;> first
    | exact absurd (by decide) hd
    | rfl

theorem ExecuteDDOpcode_20_default (cpu : CPU) (b : Nat) (hd : b ∉ ddCases) :
    ExecuteDDOpcode_20 cpu b = ExecuteOpcode cpu b := by
  unfold ExecuteDDOpcode_20
  split <;> first
    | exact absurd (by decide) hd
    | rfl

theorem ExecuteDDOpcode_30_default (cpu : CPU) (b : Nat) (hd : b ∉ ddCases) :
    ExecuteDDOpcode_30 cpu b = ExecuteOpcode cpu b := by
  unfold ExecuteDDOpcode_30
  split <;> first
    | exact absurd (by decide) hd
    | rfl

theorem ExecuteDDOpcode_40_default (cpu : CPU) (b : Nat) (hd : b ∉ ddCases) :
    ExecuteDDOpcode_40 cpu b = ExecuteOpcode cpu b := by
  unfold ExecuteDDOpcode_40
  split <;> first
    | exact absurd (by decide) hd
    | rfl

theorem ExecuteDDOpcode_50_default (cpu : CPU) (b : Nat) (hd : b ∉ ddCases) :
    ExecuteDDOpcode_50 cpu b = ExecuteOpcode cpu b := by
  unfold ExecuteDDOpcode_50
  split <;> first
    | exact absurd (by decide) hd
    | rfl

theorem ExecuteDDOpcode_60_default (cpu : CPU) (b : Nat) (hd : b ∉ ddCases) :
    ExecuteDDOpcode_60 cpu b = ExecuteOpcode cpu b := by
  unfold ExecuteDDOpcode_60
  split <;> first
    | exact absurd (by decide) hd
    | rfl

theorem ExecuteDDOpcode_70_default (cpu : CPU) (b : Nat) (hd : b ∉ ddCases) :
    ExecuteDDOpcode_70 cpu b = ExecuteOpcode cpu b := by
  unfold ExecuteDDOpcode_70
  split <;> first
    | exact absurd (by decide) hd
    | rfl

theorem ExecuteDDOpcode_80_default (cpu : CPU) (b : Nat) (hd : b ∉ ddCases) :
    ExecuteDDOpcode_80 cpu b = ExecuteOpcode cpu b := by
  unfold ExecuteDDOpcode_80
  split <;> first
    | exact absurd (by decide) hd
    | rfl

theorem ExecuteDDOpcode_90_default (cpu : CPU) (b : Nat) (hd : b ∉ ddCases) :
    ExecuteDDOpcode_90 cpu b = ExecuteOpcode cpu b := by
  unfold ExecuteDDOpcode_90
  split <;> first
    | exact absurd (by decide) hd
    | rfl

theorem ExecuteDDOpcode_A0_default (cpu : CPU) (b : Nat) (hd : b ∉ ddCases) :
    ExecuteDDOpcode_A0 cpu b = ExecuteOpcode cpu b := by
  unfold ExecuteDDOpcode_A0
  split <;> first
    | exact absurd (by decide) hd
    | rfl

theorem ExecuteDDOpcode_B0_default (cpu : CPU) (b : Nat) (hd : b ∉ ddCases) :
    ExecuteDDOpcode_B0 cpu b = ExecuteOpcode cpu b := by
  unfold ExecuteDDOpcode_B0
  split <;> first
    | exact absurd (by decide) hd
    | rfl

theorem ExecuteDDOpcode_C0_default (cpu : CPU) (b : Nat) (hd : b ∉ ddCases) :
    ExecuteDDOpcode_C0 cpu b = ExecuteOpcode cpu b := by
  unfold ExecuteDDOpcode_C0
  split <;> first
    | exact absurd (by decide) hd
    | rfl

theorem ExecuteDDOpcode_D0_default (cpu : CPU) (b : Nat) (hd : b ∉ ddCases) :
    ExecuteDDOpcode_D0 cpu b = ExecuteOpcode cpu b := by
  unfold ExecuteDDOpcode_D0
  split <;> first
    | exact absurd (by decide) hd
    | rfl

theorem ExecuteDDOpcode_E0_default (cpu : CPU) (b : Nat) (hd : b ∉ ddCases) :
    ExecuteDDOpcode_E0 cpu b = ExecuteOpcode cpu b := by
  unfold ExecuteDDOpcode_E0
  split <;> first
    | exact absurd (by decide) hd
    | rfl

theorem ExecuteDDOpcode_F0_default (cpu : CPU) (b : Nat) (hd : b ∉ ddCases) :
    ExecuteDDOpcode_F0 cpu b = ExecuteOpcode cpu b := by
  unfold ExecuteDDOpcode_F0
  split <;> first
    | exact absurd (by decide) hd
    | rfl

theorem ExecuteDDOpcode_default (cpu : CPU) (b : Nat) (hb : b < 256) (hd : b ∉ ddCases) :
    ExecuteDDOpcode cpu b = ExecuteOpcode cpu b := by
  have hq : b / 16 = 0 ∨ b / 16 = 1 ∨ b / 16 = 2 ∨ b / 16 = 3 ∨ b / 16 = 4 ∨ b / 16 = 5 ∨
      b / 16 = 6 ∨ b / 16 = 7 ∨ b / 16 = 8 ∨ b / 16 = 9 ∨ b / 16 = 10 ∨ b / 16 = 11 ∨
      b / 16 = 12 ∨ b / 16 = 13 ∨ b / 16 = 14 ∨ b / 16 = 15 := by omega
  unfold ExecuteDDOpcode
  rcases hq with h | h | h | h | h | h | h | h | h | h | h | h | h | h | h | h <;> rw [h] <;>
    simp only [ExecuteDDOpcode_00_default, ExecuteDDOpcode_10_default, ExecuteDDOpcode_20_default,
      ExecuteDDOpcode_30_default, ExecuteDDOpcode_40_default, ExecuteDDOpcode_50_default,
      ExecuteDDOpcode_60_default, ExecuteDDOpcode_70_default, ExecuteDDOpcode_80_default,
      ExecuteDDOpcode_90_default, ExecuteDDOpcode_A0_default, ExecuteDDOpcode_B0_default,
      ExecuteDDOpcode_C0_default, ExecuteDDOpcode_D0_default, ExecuteDDOpcode_E0_default,
      ExecuteDDOpcode_F0_default, hd, not_false_eq_true]

/-- C26: when the bytes DD b stand at PC and b is below 256, has no case of its own in
ExecuteDDOpcode and is not 0xED, the step completes and is the unprefixed
instruction b run on the state in which the prefix has been fetched (PC and R
advanced by one): the same T-states are returned, with nothing added for the prefix,
and the same state is reached. -/
theorem dd_fallthrough (ExecuteEDOpcode ExecuteFDOpcode : CPU → Nat → Option (Nat × CPU))
    (cpu : CPU) (b : Nat)
    (hInt : (cpu.IFF1 && CheckInterrupt cpu) = false) (hHalt : cpu.HALT = false)
    (h0 : ReadByte cpu cpu.PC = 0xDD) (h1 : ReadByte cpu ((cpu.PC + 1) % 65536) = b)
    (hb : b < 256) (hd : b ∉ ddCases) (hED : b ≠ 0xED) :
    (∃ r, ExecuteOneInstruction ExecuteEDOpcode ExecuteFDOpcode cpu = some r) ∧
    ExecuteOneInstruction ExecuteEDOpcode ExecuteFDOpcode cpu =
      ExecuteOpcode (ReadOpcode (ReadOpcode cpu).2).2 b ∧
    ExecuteOneInstruction ExecuteEDOpcode ExecuteFDOpcode cpu =
      ExecuteOneInstruction ExecuteEDOpcode ExecuteFDOpcode (ReadOpcode cpu).2 := by
  have hCB : b ≠ 0xCB := fun h => hd (by rw [h]; decide)
  have hDD : b ≠ 0xDD := fun h => hd (by rw [h]; decide)
  have hFD : b ≠ 0xFD := fun h => hd (by rw [h]; decide)
  have e1 : ExecuteOneInstruction ExecuteEDOpcode ExecuteFDOpcode cpu =
      ExecuteOpcode (ReadOpcode (ReadOpcode cpu).2).2 b := by
    unfold ExecuteOneInstruction
    rw [hInt, hHalt]
    simp only [Bool.false_eq_true, if_false, ReadOpcode_fst]
    rw [show cpu.Memory cpu.PC = 0xDD from h0]
    simp only []
    rw [show (ReadOpcode cpu).2.Memory (ReadOpcode cpu).2.PC = b from h1]
    exact ExecuteDDOpcode_default _ b hb hd
  have e2 : ExecuteOneInstruction ExecuteEDOpcode ExecuteFDOpcode (ReadOpcode cpu).2 =
      ExecuteOpcode (ReadOpcode (ReadOpcode cpu).2).2 b := by
    unfold ExecuteOneInstruction
    rw [show ((ReadOpcode cpu).2.IFF1 && CheckInterrupt (ReadOpcode cpu).2) = false from hInt,
      show (ReadOpcode cpu).2.HALT = false from hHalt]
    simp only [Bool.false_eq_true, if_false, ReadOpcode_fst]
    rw [show (ReadOpcode cpu).2.Memory (ReadOpcode cpu).2.PC = b from h1]
    split <;> first
      | contradiction
      | rfl
  refine ⟨?_, e1, e1.trans e2.symm⟩
  rw [e1]
  have h := ExecuteOpcode_R (ReadOpcode (ReadOpcode cpu).2).2 b hb
  cases hr : ExecuteOpcode (ReadOpcode (ReadOpcode cpu).2).2 b with
  | none => rw [hr] at h; simp at h
  | some r => exact ⟨r, rfl⟩

/-- The bytes DD 04 at address 0: the prefixed step returns 4 T-states, as
does INC B fetched at address 1 without the prefix; both leave B = 1, and R is 2
after the prefixed step and 1 after the unprefixed one. -/
theorem dd_fallthrough_witness :
    ∃ s t, ExecuteOneInstruction noDecoder noDecoder cpuDD04 = some (4, s) ∧
      ExecuteOneInstruction noDecoder noDecoder { cpuDD04 with PC := 1 } = some (4, t) ∧
      s.B = 1 ∧ t.B = 1 ∧ s.R = 2 ∧ t.R = 1 ∧ s.PC = 2 ∧ t.PC = 2 :=
  ⟨_, _,
    (dd_fallthrough noDecoder noDecoder cpuDD04 0x04 rfl rfl rfl rfl (by decide) (by decide)
      (by decide)).2.1.trans rfl,
    rfl, by decide, by decide, by decide, by decide, by decide, by decide⟩

/-! ## C27: no invalid opcode -/

theorem ExecuteCBOpcode_tstates (cpu : CPU) (op : Nat) :
    (ExecuteCBOpcode cpu op).1 = 8 ∨ (ExecuteCBOpcode cpu op).1 = 12 ∨
    (ExecuteCBOpcode cpu op).1 = 15 := by
  unfold ExecuteCBOpcode
  simp only []
  split_ifs <;> (repeat' split) <;> simp

theorem executeDDCBOpcode_tstates (cpu : CPU) :
    (executeDDCBOpcode cpu).1 = 20 ∨ (executeDDCBOpcode cpu).1 = 23 := by
  unfold executeDDCBOpcode
  simp only []
  split_ifs <;> simp [executeRotateShiftIndexed, executeResetBitIndexed, executeSetBitIndexed]

/-- C27: for every opcode byte, ExecuteOpcode and ExecuteDDOpcode return a result (the
panicking default branch of ExecuteOpcode is never reached), ExecuteCBOpcode returns
8, 12 or 15 T-states, and executeDDCBOpcode, whatever byte it fetches as its opcode,
returns 20 or 23 T-states. -/
theorem no_invalid_opcode (cpu : CPU) (op : Nat) (hop : op < 256) :
    (∃ r, ExecuteOpcode cpu op = some r) ∧
    (∃ r, ExecuteDDOpcode cpu op = some r) ∧
    ((ExecuteCBOpcode cpu op).1 = 8 ∨ (ExecuteCBOpcode cpu op).1 = 12 ∨
      (ExecuteCBOpcode cpu op).1 = 15) ∧
    ((executeDDCBOpcode cpu).1 = 20 ∨ (executeDDCBOpcode cpu).1 = 23) := by
  refine ⟨?_, ?_, ExecuteCBOpcode_tstates cpu op, executeDDCBOpcode_tstates cpu⟩
  · have h := ExecuteOpcode_R cpu op hop
    cases hr : ExecuteOpcode cpu op with
    | none => rw [hr] at h; simp at h
    | some r => exact ⟨r, rfl⟩
  · have h := ExecuteDDOpcode_R cpu op hop
    cases hr : ExecuteDDOpcode cpu op with
    | none => rw [hr] at h; simp at h
    | some r => exact ⟨r, rfl⟩

/-- The byte 0xFF on the zeroed processor: ExecuteOpcode and ExecuteDDOpcode return a
result, with 11 T-states (RST 38H), and ExecuteCBOpcode returns 8 (SET 7,A). -/
theorem no_invalid_opcode_witness :
    (0xFF < 256) ∧ (∃ r, ExecuteOpcode cpu0 0xFF = some r) ∧
    (∃ r, ExecuteDDOpcode cpu0 0xFF = some r) ∧
    (ExecuteOpcode cpu0 0xFF).map Prod.fst = some 11 ∧
    (ExecuteDDOpcode cpu0 0xFF).map Prod.fst = some 11 ∧
    (ExecuteCBOpcode cpu0 0xFF).1 = 8 :=
  have h := no_invalid_opcode cpu0 0xFF (by decide)
  ⟨by decide, h.1, h.2.1, rfl, rfl, by decide⟩

/-! ## C28-C29: MEMPTR after loads through a 16-bit address -/

theorem ExecuteOneInstruction_plain
    (ExecuteEDOpcode ExecuteFDOpcode : CPU → Nat → Option (Nat × CPU)) (cpu : CPU) (op : Nat)
    (hInt : (cpu.IFF1 && CheckInterrupt cpu) = false) (hHalt : cpu.HALT = false)
    (h0 : ReadByte cpu cpu.PC = op)
    (hCB : op ≠ 0xCB) (hDD : op ≠ 0xDD) (hED : op ≠ 0xED) (hFD : op ≠ 0xFD) :
    ExecuteOneInstruction ExecuteEDOpcode ExecuteFDOpcode cpu =
      ExecuteOpcode (ReadOpcode cpu).2 op := by
  unfold ExecuteOneInstruction
  rw [hInt, hHalt]
  simp only [Bool.false_eq_true, if_false, ReadOpcode_fst]
  rw [show cpu.Memory cpu.PC = op from h0]
  split <;> first
    | contradiction
    | rfl

theorem ReadImmediateWord_eq (cpu : CPU) (nn : Nat)
    (hlo : ReadByte cpu cpu.PC = nn % 256)
    (hhi : ReadByte cpu ((cpu.PC + 1) % 65536) = nn / 256) :
    ReadImmediateWord cpu = (nn, { cpu with PC := ((cpu.PC + 1) % 65536 + 1) % 65536 }) := by
  have h : ((nn / 256) <<< 8) ||| (nn % 256) = nn := by
    rw [pair_eq _ _ (Nat.mod_lt _ (by decide))]
    omega
  simp only [ReadImmediateWord, hlo, show ReadByte { cpu with PC := (cpu.PC + 1) % 65536 }
    ((cpu.PC + 1) % 65536) = nn / 256 from hhi, h]

theorem ExecuteOpcode_3A (cpu : CPU) :
    ExecuteOpcode cpu 0x3A = some (13,
      { (ReadImmediateWord cpu).2 with
        A := ReadByte (ReadImmediateWord cpu).2 (ReadImmediateWord cpu).1
        MEMPTR := ((ReadImmediateWord cpu).1 + 1) % 65536 }) := by
  simp only [ExecuteOpcode, ExecuteOpcode_30]

/-- C28, as stated: LD A,(0x59FF) with A = 0x12 leaves MEMPTR = 0x5A00, which is
neither (0x12 << 8) | 0x00 = 0x1200 nor the same with the loaded A = 0x77. -/
theorem ld_a_nn_memptr_example :
    ∃ s, ExecuteOneInstruction noDecoder noDecoder cpuLdA = some (13, s) ∧
      s.MEMPTR = 0x5A00 ∧ s.A = 0x77 ∧
      s.MEMPTR ≠ (cpuLdA.A <<< 8) ||| ((0x59FF + 1) &&& 0xFF) ∧
      s.MEMPTR ≠ (s.A <<< 8) ||| ((0x59FF + 1) &&& 0xFF) :=
  ⟨_, rfl, rfl, rfl, by decide, by decide⟩

/-- C28, amended: a step that fetches LD A,(nn) (the bytes 3A lo hi, nn = hi * 256 +
lo) returns 13 and leaves MEMPTR = (nn + 1) mod 65536, whatever the accumulator was
before the instruction. -/
theorem ld_a_nn_memptr (ExecuteEDOpcode ExecuteFDOpcode : CPU → Nat → Option (Nat × CPU))
    (cpu : CPU) (nn : Nat)
    (hInt : (cpu.IFF1 && CheckInterrupt cpu) = false) (hHalt : cpu.HALT = false)
    (h0 : ReadByte cpu cpu.PC = 0x3A)
    (h1 : ReadByte cpu ((cpu.PC + 1) % 65536) = nn % 256)
    (h2 : ReadByte cpu ((cpu.PC + 2) % 65536) = nn / 256) :
    ∃ s, ExecuteOneInstruction ExecuteEDOpcode ExecuteFDOpcode cpu = some (13, s) ∧
      s.MEMPTR = (nn + 1) % 65536 ∧
      ∀ a, ∃ t, ExecuteOneInstruction ExecuteEDOpcode ExecuteFDOpcode { cpu with A := a } =
          some (13, t) ∧ t.MEMPTR = s.MEMPTR := by
  have key : ∀ c : CPU, (c.IFF1 && CheckInterrupt c) = false → c.HALT = false →
      ReadByte c c.PC = 0x3A → ReadByte c ((c.PC + 1) % 65536) = nn % 256 →
      ReadByte c ((c.PC + 2) % 65536) = nn / 256 →
      ∃ s, ExecuteOneInstruction ExecuteEDOpcode ExecuteFDOpcode c = some (13, s) ∧
        s.MEMPTR = (nn + 1) % 65536 := by
    intro c k1 k2 k3 k4 k5
    have e2 : ((c.PC + 1) % 65536 + 1) % 65536 = (c.PC + 2) % 65536 := by omega
    have hw := ReadImmediateWord_eq (ReadOpcode c).2 nn k4
      (by simp only [ReadOpcode, ReadByte, e2]; exact k5)
    rw [ExecuteOneInstruction_plain _ _ c 0x3A k1 k2 k3 (by decide) (by decide) (by decide)
      (by decide), ExecuteOpcode_3A, hw]
    exact ⟨_, rfl, rfl⟩
  obtain ⟨s, hs1, hs2⟩ := key cpu hInt hHalt h0 h1 h2
  refine ⟨s, hs1, hs2, fun a => ?_⟩
  obtain ⟨t, ht1, ht2⟩ := key { cpu with A := a } hInt hHalt h0 h1 h2
  exact ⟨t, ht1, ht2.trans hs2.symm⟩

/-- LD A,(0x59FF) on `cpuLdA`: 13 T-states and MEMPTR = 0x5A00. -/
theorem ld_a_nn_memptr_witness :
    ∃ s, ExecuteOneInstruction noDecoder noDecoder cpuLdA = some (13, s) ∧ s.MEMPTR = 0x5A00 := by
  obtain ⟨s, h1, h2, _⟩ := ld_a_nn_memptr noDecoder noDecoder cpuLdA 0x59FF
    rfl rfl rfl rfl rfl
  exact ⟨s, h1, h2⟩

theorem ExecuteCBOpcode_bit_hl (cpu : CPU) (b : Nat) (hb : b < 8) :
    ExecuteCBOpcode cpu (0x46 + 8 * b) =
      (12, bitMem cpu b (ReadByte cpu (GetHL cpu)) ((cpu.MEMPTR >>> 8) % 256)) := by
  obtain ⟨f1, f2, f3, f4⟩ := opcode_bit_fields b hb
  unfold ExecuteCBOpcode
  rw [if_neg (by omega), if_pos (by simp; omega)]
  simp only [f1, f2]
  rfl

theorem ExecuteOpcode_load (cpu : CPU) :
    ExecuteOpcode cpu 0x0A = some (7,
      { cpu with A := ReadByte cpu (GetBC cpu), MEMPTR := (GetBC cpu + 1) % 65536 }) ∧
    ExecuteOpcode cpu 0x1A = some (7,
      { cpu with A := ReadByte cpu (GetDE cpu), MEMPTR := (GetDE cpu + 1) % 65536 }) ∧
    ExecuteOpcode cpu 0x22 = some (16,
      { (WriteWord (ReadImmediateWord cpu).2 (ReadImmediateWord cpu).1
          (GetHL (ReadImmediateWord cpu).2)) with
        MEMPTR := ((ReadImmediateWord cpu).1 + 1) % 65536 }) ∧
    ExecuteOpcode cpu 0x2A = some (16,
      { (SetHL (ReadImmediateWord cpu).2
          (ReadWord (ReadImmediateWord cpu).2 (ReadImmediateWord cpu).1)) with
        MEMPTR := ((ReadImmediateWord cpu).1 + 1) % 65536 }) := by
  refine ⟨?_, ?_, ?_, ?_⟩
  · simp only [ExecuteOpcode, ExecuteOpcode_00, GetBC]
  · simp only [ExecuteOpcode, ExecuteOpcode_10, GetDE]
  · simp only [ExecuteOpcode, ExecuteOpcode_20]
  · simp only [ExecuteOpcode, ExecuteOpcode_20]

/-- C29: each of LD A,(BC) (0x0A), LD A,(DE) (0x1A), LD (nn),HL (0x22), LD HL,(nn)
(0x2A) and LD A,(nn) (0x3A) returns its T-states and leaves MEMPTR = (address + 1) mod
65536, the address being BC, DE or nn; the three loads of A leave A = memory[address];
and a BIT b,(HL) executed next returns 12 T-states and reports X and Y from bits 3
and 5 of the high byte of that address + 1. -/
theorem memptr_after_load (cpu : CPU) (op : Nat)
    (hop : op = 0x0A ∨ op = 0x1A ∨ op = 0x22 ∨ op = 0x2A ∨ op = 0x3A) :
    ∃ s, ExecuteOpcode cpu op = some (loadTStates op, s) ∧
      s.MEMPTR = (loadAddress cpu op + 1) % 65536 ∧
      (op = 0x0A ∨ op = 0x1A ∨ op = 0x3A → s.A = ReadByte cpu (loadAddress cpu op)) ∧
      ∀ b, b < 8 → ∃ t, ExecuteCBOpcode s (0x46 + 8 * b) = (12, t) ∧
        GetFlag t FLAG_X = ((loadAddress cpu op + 1) % 65536 / 256).testBit 3 ∧
        GetFlag t FLAG_Y = ((loadAddress cpu op + 1) % 65536 / 256).testBit 5 := by
  have hbit : ∀ (s : CPU) (m : Nat), s.MEMPTR = m % 65536 → ∀ b, b < 8 →
      ∃ t, ExecuteCBOpcode s (0x46 + 8 * b) = (12, t) ∧
        GetFlag t FLAG_X = (m % 65536 / 256).testBit 3 ∧
        GetFlag t FLAG_Y = (m % 65536 / 256).testBit 5 := by
    intro s m hm b hb
    obtain ⟨_, _, _, _, _, _, k6, k7, _⟩ :=
      bitMem_spec s b (ReadByte s (GetHL s)) ((s.MEMPTR >>> 8) % 256) hb
    have e : (s.MEMPTR >>> 8) % 256 = m % 65536 / 256 := by
      rw [hm, Nat.shiftRight_eq_div_pow]
      simp only [Nat.reducePow]
      omega
    exact ⟨_, ExecuteCBOpcode_bit_hl s b hb, k6.trans (by rw [e]), k7.trans (by rw [e])⟩
  obtain ⟨l1, l2, l3, l4⟩ := ExecuteOpcode_load cpu
  rcases hop with h | h | h | h | h <;> subst h
  · exact ⟨_, l1, rfl, fun _ => rfl, hbit _ _ rfl⟩
  · exact ⟨_, l2, rfl, fun _ => rfl, hbit _ _ rfl⟩
  · refine ⟨_, l3, rfl, fun h => ?_, hbit _ _ rfl⟩
    omega
  · refine ⟨_, l4, rfl, fun h => ?_, hbit _ _ rfl⟩
    omega
  · exact ⟨_, ExecuteOpcode_3A cpu, rfl, fun _ => rfl, hbit _ _ rfl⟩

/-- Scenario S4: LD A,(0x59FF) leaves MEMPTR = 0x5A00, and BIT 7,(HL) with
memory[HL] = 0x80 then gives Y = 0, X = 1, S = 1, Z = 0, H = 1, N = 0, P/V = 0; the
two instructions are run from memory by ExecuteOneInstruction in 13 and 12 T-states. -/
theorem memptr_after_load_witness :
    (∃ s, ExecuteOpcode (ReadOpcode cpuLdA).2 0x3A = some (13, s) ∧ s.MEMPTR = 0x5A00 ∧
      s.A = 0x77 ∧
      ∃ t, ExecuteCBOpcode s 0x7E = (12, t) ∧ GetFlag t FLAG_X = true ∧
        GetFlag t FLAG_Y = false) ∧
    ∃ s t, ExecuteOneInstruction noDecoder noDecoder cpuLdA = some (13, s) ∧
      ExecuteOneInstruction noDecoder noDecoder s = some (12, t) ∧
      s.MEMPTR = 0x5A00 ∧
      GetFlag t FLAG_Y = false ∧ GetFlag t FLAG_X = true ∧ GetFlag t FLAG_S = true ∧
      GetFlag t FLAG_Z = false ∧ GetFlag t FLAG_H = true ∧ GetFlag t FLAG_N = false ∧
      GetFlag t FLAG_PV = false := by
  constructor
  · obtain ⟨s, h1, h2, h3, h4⟩ := memptr_after_load (ReadOpcode cpuLdA).2 0x3A (by decide)
    obtain ⟨t, h5, h6, h7⟩ := h4 7 (by decide)
    exact ⟨s, h1, h2.trans (by decide), (h3 (by decide)).trans (by decide), t, h5,
      h6.trans (by decide), h7.trans (by decide)⟩
  · exact ⟨_, _, rfl, rfl, by decide⟩

/-! ## C30: MEMPTR after stores of A -/

theorem and_255_mod (x : Nat) :
    ((x % 65536) &&& 0xFF = x &&& 0xFF) ∧ ((x % 256) &&& 0xFF = x &&& 0xFF) := by
  have h : ∀ y : Nat, y &&& 0xFF = y % 256 := fun y => Nat.and_pow_two_sub_one_eq_mod y 8
  rw [h, h, h]
  omega

theorem ExecuteOpcode_store (cpu : CPU) :
    ExecuteOpcode cpu 0x02 = some (7,
      { (WriteByte cpu (GetBC cpu) cpu.A) with
        MEMPTR := (cpu.A <<< 8) ||| (((GetBC cpu + 1) % 65536) &&& 0xFF) }) ∧
    ExecuteOpcode cpu 0x12 = some (7,
      { (WriteByte cpu (GetDE cpu) cpu.A) with
        MEMPTR := (cpu.A <<< 8) ||| (((GetDE cpu + 1) % 65536) &&& 0xFF) }) ∧
    ExecuteOpcode cpu 0x32 = some (13,
      { (WriteByte (ReadImmediateWord cpu).2 (ReadImmediateWord cpu).1 cpu.A) with
        MEMPTR := (cpu.A <<< 8) ||| ((((ReadImmediateWord cpu).1 + 1) % 65536) &&& 0xFF) }) ∧
    ExecuteOpcode cpu 0xD3 = some (11,
      { (WritePort (ReadImmediateByte cpu).2 (ReadByte cpu cpu.PC ||| (cpu.A <<< 8)) cpu.A) with
        MEMPTR := (cpu.A <<< 8) ||| (((ReadByte cpu cpu.PC + 1) % 256) &&& 0xFF) }) := by
  refine ⟨?_, ?_, ?_, ?_⟩
  · simp only [ExecuteOpcode, ExecuteOpcode_00, WriteByte, GetBC]
  · simp only [ExecuteOpcode, ExecuteOpcode_10, WriteByte, GetDE]
  · simp only [ExecuteOpcode, ExecuteOpcode_30, WriteByte, ReadImmediateWord]
  · simp only [ExecuteOpcode, ExecuteOpcode_D0, WritePort, ReadImmediateByte]

/-- C30: LD (BC),A (0x02), LD (DE),A (0x12) and LD (nn),A (0x32) return 7, 7 and 13,
write A at the target address t (BC, DE, or the word nn read at PC) and nowhere else,
and leave MEMPTR = (A << 8) | ((t + 1) & 0xFF); OUT (n),A (0xD3), n being the byte read
at PC, returns 11, writes A to port (A << 8) | n and leaves
MEMPTR = (A << 8) | ((n + 1) & 0xFF); A is unchanged by all four. -/
theorem memptr_after_store (cpu : CPU) :
    (∃ s, ExecuteOpcode cpu 0x02 = some (7, s) ∧ ReadByte s (GetBC cpu) = cpu.A ∧
      (∀ a, a ≠ GetBC cpu → s.Memory a = cpu.Memory a) ∧
      s.MEMPTR = (cpu.A <<< 8) ||| ((GetBC cpu + 1) &&& 0xFF) ∧ s.A = cpu.A) ∧
    (∃ s, ExecuteOpcode cpu 0x12 = some (7, s) ∧ ReadByte s (GetDE cpu) = cpu.A ∧
      (∀ a, a ≠ GetDE cpu → s.Memory a = cpu.Memory a) ∧
      s.MEMPTR = (cpu.A <<< 8) ||| ((GetDE cpu + 1) &&& 0xFF) ∧ s.A = cpu.A) ∧
    (∃ s, ExecuteOpcode cpu 0x32 = some (13, s) ∧
      ReadByte s (ReadImmediateWord cpu).1 = cpu.A ∧
      (∀ a, a ≠ (ReadImmediateWord cpu).1 → s.Memory a = cpu.Memory a) ∧
      s.MEMPTR = (cpu.A <<< 8) ||| (((ReadImmediateWord cpu).1 + 1) &&& 0xFF) ∧
      s.A = cpu.A) ∧
    (∃ s, ExecuteOpcode cpu 0xD3 = some (11, s) ∧
      s.PortOut = ((cpu.A <<< 8) ||| ReadByte cpu cpu.PC, cpu.A) :: cpu.PortOut ∧
      s.Memory = cpu.Memory ∧
      s.MEMPTR = (cpu.A <<< 8) ||| ((ReadByte cpu cpu.PC + 1) &&& 0xFF) ∧ s.A = cpu.A) := by
  obtain ⟨l1, l2, l3, l4⟩ := ExecuteOpcode_store cpu
  refine ⟨⟨_, l1, ?_, ?_, ?_, rfl⟩, ⟨_, l2, ?_, ?_, ?_, rfl⟩, ⟨_, l3, ?_, ?_, ?_, rfl⟩,
    ⟨_, l4, ?_, rfl, ?_, rfl⟩⟩
  · simp [ReadByte, WriteByte]
  · intro a ha; simp [WriteByte, ha]
  · simp only [(and_255_mod _).1]
  · simp [ReadByte, WriteByte]
  · intro a ha; simp [WriteByte, ha]
  · simp only [(and_255_mod _).1]
  · simp [ReadByte, WriteByte]
  · intro a ha
    simp only [WriteByte, if_neg ha]
    rfl
  · simp only [(and_255_mod _).1]
  · simp only [WritePort, ReadImmediateByte, Nat.lor_comm]
  · simp only [(and_255_mod _).2]

/-! ## C31: MEMPTR after IN A,(n) -/

theorem ExecuteOpcode_in (cpu : CPU) :
    ExecuteOpcode cpu 0xDB = some (11,
      { (ReadImmediateByte cpu).2 with
        A := ReadPort cpu (ReadByte cpu cpu.PC ||| (cpu.A <<< 8))
        MEMPTR := (ReadPort cpu (ReadByte cpu cpu.PC ||| (cpu.A <<< 8)) <<< 8) |||
          (((ReadByte cpu cpu.PC + 1) % 256) &&& 0xFF) }) := by
  simp only [ExecuteOpcode, ExecuteOpcode_D0, ReadImmediateByte, ReadPort]

/-- C31: IN A,(n) (opcode 0xDB), n being the byte read at PC and x the value the port
(A0 << 8) | n returns, gives 11 T-states and the new A = x, and leaves
MEMPTR = (x << 8) | ((n + 1) & 0xFF): the high byte of MEMPTR is the value read, not
the accumulator A0 of before the instruction. -/
theorem in_a_n_memptr (cpu : CPU) (n x : Nat) (hn : ReadByte cpu cpu.PC = n)
    (hx : ReadPort cpu ((cpu.A <<< 8) ||| n) = x) :
    ∃ s, ExecuteOpcode cpu 0xDB = some (11, s) ∧ s.A = x ∧
      s.MEMPTR = (x <<< 8) ||| ((n + 1) &&& 0xFF) ∧
      s.PC = (cpu.PC + 1) % 65536 := by
  rw [ExecuteOpcode_in, hn, Nat.lor_comm n, hx, (and_255_mod (n + 1)).2]
  exact ⟨_, rfl, rfl, rfl, rfl⟩

/-- IN A,(0x34) with A = 0x12 and the port returning 0x56: A = 0x56 and
MEMPTR = 0x5635, where (A0 << 8) | ((n + 1) & 0xFF) is 0x1235. -/
theorem in_a_n_memptr_witness :
    ∃ s, ExecuteOpcode cpuIn 0xDB = some (11, s) ∧ s.A = 0x56 ∧ s.MEMPTR = 0x5635 ∧
      s.MEMPTR ≠ (cpuIn.A <<< 8) ||| ((0x34 + 1) &&& 0xFF) := by
  obtain ⟨s, h1, h2, h3, _⟩ := in_a_n_memptr cpuIn 0x34 0x56 rfl rfl
  have h4 : s.MEMPTR = 0x5635 := h3.trans (by decide)
  exact ⟨s, h1, h2, h4, by rw [h4]; decide⟩

/-! ## C32: JP nn and JP cc,nn -/

theorem ExecuteOpcode_jp_cc (cpu : CPU) (cc : Nat) (hcc : cc < 8) :
    ExecuteOpcode cpu (0xC2 + 8 * cc) = some (10,
      { (ReadImmediateWord cpu).2 with
        MEMPTR := (ReadImmediateWord cpu).1
        PC := if condition cpu cc then (ReadImmediateWord cpu).1
          else (ReadImmediateWord cpu).2.PC }) := by
  have hF : ∀ (m k : Nat), GetFlag { (ReadImmediateWord cpu).2 with MEMPTR := m } k =
      GetFlag cpu k := fun _ _ => rfl
  interval_cases cc
  · simp only [ExecuteOpcode, ExecuteOpcode_C0, condition, hF]
    rcases Bool.eq_false_or_eq_true (GetFlag cpu FLAG_Z) with h | h <;> simp only [h] <;> rfl
  · simp only [ExecuteOpcode, ExecuteOpcode_C0, condition, hF]
    rcases Bool.eq_false_or_eq_true (GetFlag cpu FLAG_Z) with h | h <;> simp only [h] <;> rfl
  · simp only [ExecuteOpcode, ExecuteOpcode_D0, condition, hF]
    rcases Bool.eq_false_or_eq_true (GetFlag cpu FLAG_C) with h | h <;> simp only [h] <;> rfl
  · simp only [ExecuteOpcode, ExecuteOpcode_D0, condition, hF]
    rcases Bool.eq_false_or_eq_true (GetFlag cpu FLAG_C) with h | h <;> simp only [h] <;> rfl
  · simp only [ExecuteOpcode, ExecuteOpcode_E0, condition, hF]
    rcases Bool.eq_false_or_eq_true (GetFlag cpu FLAG_PV) with h | h <;> simp only [h] <;> rfl
  · simp only [ExecuteOpcode, ExecuteOpcode_E0, condition, hF]
    rcases Bool.eq_false_or_eq_true (GetFlag cpu FLAG_PV) with h | h <;> simp only [h] <;> rfl
  · simp only [ExecuteOpcode, ExecuteOpcode_F0, condition, hF]
    rcases Bool.eq_false_or_eq_true (GetFlag cpu FLAG_S) with h | h <;> simp only [h] <;> rfl
  · simp only [ExecuteOpcode, ExecuteOpcode_F0, condition, hF]
    rcases Bool.eq_false_or_eq_true (GetFlag cpu FLAG_S) with h | h <;> simp only [h] <;> rfl

theorem condition_congr (c d : CPU) (h : c.F = d.F) (cc : Nat) :
    condition c cc = condition d cc := by
  unfold condition GetFlag
  rw [h]

theorem ExecuteOpcode_jp (cpu : CPU) :
    ExecuteOpcode cpu 0xC3 = some (10,
      { (ReadImmediateWord cpu).2 with
        PC := (ReadImmediateWord cpu).1, MEMPTR := (ReadImmediateWord cpu).1 }) := by
  simp only [ExecuteOpcode, ExecuteOpcode_C0]

/-- C32: a step that fetches at p JP nn (0xC3) or JP cc,nn (0xC2 + 8 * cc), with the
operand bytes nn mod 256 at p + 1 and nn / 256 at p + 2, returns 10 and leaves
MEMPTR = nn in every case; PC = nn if the jump is unconditional or the condition cc
holds (NZ, Z, NC, C, PO, PE, P, M tested on Z, C, P/V, S) and PC = (p + 3) mod 65536
otherwise; the flags and every field other than PC, MEMPTR and R are unchanged. -/
theorem jp_spec (ExecuteEDOpcode ExecuteFDOpcode : CPU → Nat → Option (Nat × CPU))
    (cpu : CPU) (nn cc : Nat) (hcc : cc < 8)
    (hInt : (cpu.IFF1 && CheckInterrupt cpu) = false) (hHalt : cpu.HALT = false)
    (h0 : ReadByte cpu cpu.PC = 0xC3 ∨ ReadByte cpu cpu.PC = 0xC2 + 8 * cc)
    (h1 : ReadByte cpu ((cpu.PC + 1) % 65536) = nn % 256)
    (h2 : ReadByte cpu ((cpu.PC + 2) % 65536) = nn / 256) :
    ∃ s, ExecuteOneInstruction ExecuteEDOpcode ExecuteFDOpcode cpu = some (10, s) ∧
      s.MEMPTR = nn ∧
      s.PC = (if ReadByte cpu cpu.PC = 0xC3 ∨ condition cpu cc = true then nn
        else (cpu.PC + 3) % 65536) ∧
      s.F = cpu.F ∧ s = { cpu with PC := s.PC, MEMPTR := nn, R := s.R } := by
  have e2 : ((cpu.PC + 1) % 65536 + 1) % 65536 = (cpu.PC + 2) % 65536 := by omega
  have e3 : (((cpu.PC + 1) % 65536 + 1) % 65536 + 1) % 65536 = (cpu.PC + 3) % 65536 := by omega
  have hw := ReadImmediateWord_eq (ReadOpcode cpu).2 nn h1
    (by simp only [ReadOpcode, ReadByte, e2]; exact h2)
  have hc : condition (ReadOpcode cpu).2 cc = condition cpu cc :=
    condition_congr _ _ rfl cc
  rcases h0 with h | h
  · rw [ExecuteOneInstruction_plain _ _ cpu 0xC3 hInt hHalt h (by decide) (by decide)
      (by decide) (by decide), ExecuteOpcode_jp, hw]
    refine ⟨_, rfl, rfl, ?_, rfl, rfl⟩
    simp [h]
  · have hne : ReadByte cpu cpu.PC ≠ 0xC3 := by omega
    rw [ExecuteOneInstruction_plain _ _ cpu (0xC2 + 8 * cc) hInt hHalt h (by omega) (by omega)
      (by omega) (by omega), ExecuteOpcode_jp_cc _ cc hcc, hw, hc]
    refine ⟨_, rfl, rfl, ?_, rfl, rfl⟩
    simp only [hne, false_or, ReadOpcode, e3]

/-- JP Z,0x1234 fetched at 0x0100: with Z set (F = 0x40) PC = 0x1234, with Z clear
(F = 0x00) PC = 0x0103; MEMPTR = 0x1234 and 10 T-states both times. -/
theorem jp_spec_witness :
    (∃ s, ExecuteOneInstruction noDecoder noDecoder (cpuJp 0x40) = some (10, s) ∧
      s.MEMPTR = 0x1234 ∧ s.PC = 0x1234) ∧
    (∃ s, ExecuteOneInstruction noDecoder noDecoder (cpuJp 0x00) = some (10, s) ∧
      s.MEMPTR = 0x1234 ∧ s.PC = 0x0103) := by
  obtain ⟨s, h1, h2, h3, _⟩ := jp_spec noDecoder noDecoder (cpuJp 0x40) 0x1234 1 (by decide)
    rfl rfl (Or.inr rfl) rfl rfl
  obtain ⟨t, k1, k2, k3, _⟩ := jp_spec noDecoder noDecoder (cpuJp 0x00) 0x1234 1 (by decide)
    rfl rfl (Or.inr rfl) rfl rfl
  exact ⟨⟨s, h1, h2, h3.trans (by decide)⟩, ⟨t, k1, k2, k3.trans (by decide)⟩⟩

/-! ## C33: JR e and JR cc,e -/

theorem uint16_add (p : Nat) (d : Int) : (p + uint16 d) % 65536 = uint16 ((p : Int) + d) := by
  unfold uint16
  omega

theorem uint16_mod_add (p k : Nat) (d : Int) :
    uint16 ((((p + k) % 65536 : Nat) : Int) + d) = uint16 ((p : Int) + k + d) := by
  unfold uint16
  omega

theorem ExecuteOpcode_jr (cpu : CPU) :
    ExecuteOpcode cpu 0x18 = some (12,
      { cpu with
        PC := uint16 ((((cpu.PC + 1) % 65536 : Nat) : Int) + int8 (ReadByte cpu cpu.PC))
        MEMPTR := uint16 ((((cpu.PC + 1) % 65536 : Nat) : Int) + int8 (ReadByte cpu cpu.PC)) }) := by
  simp only [ExecuteOpcode, ExecuteOpcode_10, ReadDisplacement, uint16_add]

theorem ExecuteOpcode_jr_cc (cpu : CPU) (cc : Nat) (hcc : cc < 4) :
    ExecuteOpcode cpu (0x20 + 8 * cc) =
      if condition cpu cc = true then some (12,
        { cpu with
          PC := uint16 ((((cpu.PC + 1) % 65536 : Nat) : Int) + int8 (ReadByte cpu cpu.PC))
          MEMPTR := uint16 ((((cpu.PC + 1) % 65536 : Nat) : Int) + int8 (ReadByte cpu cpu.PC)) })
      else some (7, { cpu with PC := (cpu.PC + 1) % 65536 }) := by
  interval_cases cc
  · simp only [ExecuteOpcode, ExecuteOpcode_20, condition, ReadDisplacement, uint16_add]
  · simp only [ExecuteOpcode, ExecuteOpcode_20, condition, ReadDisplacement, uint16_add]
  · simp only [ExecuteOpcode, ExecuteOpcode_30, condition, ReadDisplacement, uint16_add]
  · simp only [ExecuteOpcode, ExecuteOpcode_30, condition, ReadDisplacement, uint16_add]

/-- C33: a step that fetches at p JR e (0x18) or JR cc,e (0x20 + 8 * cc, cc among NZ,
Z, NC, C) with the displacement byte e at p + 1: if the branch is taken
(unconditional, or the condition holds) it returns 12 and leaves
PC = (p + 2 + sign-extended e) mod 65536 and MEMPTR equal to that new PC; otherwise it
returns 7 and leaves PC = (p + 2) mod 65536 and MEMPTR unchanged; the flags and every
field other than PC, MEMPTR and R are unchanged either way. -/
theorem jr_spec (ExecuteEDOpcode ExecuteFDOpcode : CPU → Nat → Option (Nat × CPU))
    (cpu : CPU) (e cc : Nat) (hcc : cc < 4)
    (hInt : (cpu.IFF1 && CheckInterrupt cpu) = false) (hHalt : cpu.HALT = false)
    (h0 : ReadByte cpu cpu.PC = 0x18 ∨ ReadByte cpu cpu.PC = 0x20 + 8 * cc)
    (h1 : ReadByte cpu ((cpu.PC + 1) % 65536) = e) :
    ∃ s, (ReadByte cpu cpu.PC = 0x18 ∨ condition cpu cc = true →
        ExecuteOneInstruction ExecuteEDOpcode ExecuteFDOpcode cpu = some (12, s) ∧
        s.PC = uint16 ((cpu.PC : Int) + 2 + int8 e) ∧ s.MEMPTR = s.PC) ∧
      (¬ (ReadByte cpu cpu.PC = 0x18 ∨ condition cpu cc = true) →
        ExecuteOneInstruction ExecuteEDOpcode ExecuteFDOpcode cpu = some (7, s) ∧
        s.PC = (cpu.PC + 2) % 65536 ∧ s.MEMPTR = cpu.MEMPTR) ∧
      s.F = cpu.F ∧ s = { cpu with PC := s.PC, MEMPTR := s.MEMPTR, R := s.R } := by
  have e2 : ((cpu.PC + 1) % 65536 + 1) % 65536 = (cpu.PC + 2) % 65536 := by omega
  have e3 : uint16 (((((cpu.PC + 1) % 65536 + 1) % 65536 : Nat) : Int) + int8 e) =
      uint16 ((cpu.PC : Int) + 2 + int8 e) := by
    rw [e2]
    exact uint16_mod_add cpu.PC 2 (int8 e)
  have hd : ReadByte (ReadOpcode cpu).2 (ReadOpcode cpu).2.PC = e := h1
  have hp : (ReadOpcode cpu).2.PC = (cpu.PC + 1) % 65536 := rfl
  have hc : condition (ReadOpcode cpu).2 cc = condition cpu cc :=
    condition_congr _ _ rfl cc
  rcases h0 with h | h
  · rw [ExecuteOneInstruction_plain _ _ cpu 0x18 hInt hHalt h (by decide) (by decide)
      (by decide) (by decide), ExecuteOpcode_jr, hd, hp, e3]
    exact ⟨_, fun _ => ⟨rfl, rfl, rfl⟩, fun hn => absurd (Or.inl h) hn, rfl, rfl⟩
  · have hne : ReadByte cpu cpu.PC ≠ 0x18 := by omega
    rw [ExecuteOneInstruction_plain _ _ cpu (0x20 + 8 * cc) hInt hHalt h (by omega) (by omega)
      (by omega) (by omega), ExecuteOpcode_jr_cc _ cc (by omega), hd, hp, e3, hc, e2]
    rcases Bool.eq_false_or_eq_true (condition cpu cc) with hcnd | hcnd
    · rw [if_pos hcnd]
      exact ⟨_, fun _ => ⟨rfl, rfl, rfl⟩, fun hn => absurd (Or.inr hcnd) hn, rfl, rfl⟩
    · rw [if_neg (by rw [hcnd]; decide)]
      refine ⟨_, fun ht => ?_, fun _ => ⟨rfl, rfl, rfl⟩, rfl, rfl⟩
      rcases ht with ht | ht
      · exact absurd ht hne
      · rw [hcnd] at ht
        exact absurd ht (by decide)

/-- JR NZ,-2 fetched at 0x0100: with Z clear it is taken (12 T-states, PC = 0x0100,
MEMPTR = 0x0100); with Z set it is not (7 T-states, PC = 0x0102, MEMPTR kept). -/
theorem jr_spec_witness :
    (∃ s, ExecuteOneInstruction noDecoder noDecoder (cpuJr 0x00) = some (12, s) ∧
      s.PC = 0x0100 ∧ s.MEMPTR = 0x0100) ∧
    (∃ s, ExecuteOneInstruction noDecoder noDecoder (cpuJr 0x40) = some (7, s) ∧
      s.PC = 0x0102 ∧ s.MEMPTR = 0x4321) := by
  obtain ⟨s, h1, _, _⟩ := jr_spec noDecoder noDecoder (cpuJr 0x00) 0xFE 0 (by decide)
    rfl rfl (Or.inr rfl) rfl
  obtain ⟨t, _, k2, _⟩ := jr_spec noDecoder noDecoder (cpuJr 0x40) 0xFE 0 (by decide)
    rfl rfl (Or.inr rfl) rfl
  obtain ⟨a1, a2, a3⟩ := h1 (Or.inr (by decide))
  obtain ⟨b1, b2, b3⟩ := k2 (by decide)
  exact ⟨⟨s, a1, a2.trans (by decide), a3.trans (a2.trans (by decide))⟩,
    ⟨t, b1, b2, b3⟩⟩

/-! ## C34: CALL cc,nn and RET cc -/

theorem ExecuteOpcode_call_cc (cpu : CPU) (cc : Nat) (hcc : cc < 8) :
    ExecuteOpcode cpu (0xC4 + 8 * cc) =
      if condition cpu cc = true then some (17,
        { (Push { (ReadImmediateWord cpu).2 with MEMPTR := (ReadImmediateWord cpu).1 }
            (ReadImmediateWord cpu).2.PC) with PC := (ReadImmediateWord cpu).1 })
      else some (10, { (ReadImmediateWord cpu).2 with MEMPTR := (ReadImmediateWord cpu).1 }) := by
  have hF : ∀ (m k : Nat), GetFlag { (ReadImmediateWord cpu).2 with MEMPTR := m } k =
      GetFlag cpu k := fun _ _ => rfl
  interval_cases cc
  · simp only [ExecuteOpcode, ExecuteOpcode_C0, condition, hF]
  · simp only [ExecuteOpcode, ExecuteOpcode_C0, condition, hF]
  · simp only [ExecuteOpcode, ExecuteOpcode_D0, condition, hF]
  · simp only [ExecuteOpcode, ExecuteOpcode_D0, condition, hF]
  · simp only [ExecuteOpcode, ExecuteOpcode_E0, condition, hF]
  · simp only [ExecuteOpcode, ExecuteOpcode_E0, condition, hF]
  · simp only [ExecuteOpcode, ExecuteOpcode_F0, condition, hF]
  · simp only [ExecuteOpcode, ExecuteOpcode_F0, condition, hF]

theorem ExecuteOpcode_ret_cc (cpu : CPU) (cc : Nat) (hcc : cc < 8) :
    ExecuteOpcode cpu (0xC0 + 8 * cc) =
      if condition cpu cc = true then some (11,
        { (Pop cpu).2 with PC := (Pop cpu).1, MEMPTR := (Pop cpu).1 })
      else some (5, cpu) := by
  interval_cases cc
  · simp only [ExecuteOpcode, ExecuteOpcode_C0, condition]
  · simp only [ExecuteOpcode, ExecuteOpcode_C0, condition]
  · simp only [ExecuteOpcode, ExecuteOpcode_D0, condition]
  · simp only [ExecuteOpcode, ExecuteOpcode_D0, condition]
  · simp only [ExecuteOpcode, ExecuteOpcode_E0, condition]
  · simp only [ExecuteOpcode, ExecuteOpcode_E0, condition]
  · simp only [ExecuteOpcode, ExecuteOpcode_F0, condition]
  · simp only [ExecuteOpcode, ExecuteOpcode_F0, condition]

/-- C34: a step that fetches at p CALL cc,nn (0xC4 + 8 * cc, operand bytes nn mod 256
and nn / 256 at p + 1 and p + 2): with the condition true it returns 17, decreases SP
by 2, writes (p + 3) mod 65536 little-endian at the new SP and nowhere else, and sets
PC = nn; with the condition false it returns 10, leaves SP and memory unchanged and
PC = (p + 3) mod 65536; MEMPTR = nn in both cases. A step that fetches RET cc
(0xC0 + 8 * cc): with the condition true it returns 11, sets PC to the little-endian
word at SP, increases SP by 2 and sets MEMPTR to the new PC; with the condition false
it returns 5 and leaves SP unchanged and PC = (p + 1) mod 65536. -/
theorem call_ret_spec (ExecuteEDOpcode ExecuteFDOpcode : CPU → Nat → Option (Nat × CPU))
    (cpu : CPU) (nn cc : Nat) (hcc : cc < 8)
    (hInt : (cpu.IFF1 && CheckInterrupt cpu) = false) (hHalt : cpu.HALT = false) :
    (ReadByte cpu cpu.PC = 0xC4 + 8 * cc →
      ReadByte cpu ((cpu.PC + 1) % 65536) = nn % 256 →
      ReadByte cpu ((cpu.PC + 2) % 65536) = nn / 256 →
      ∃ s, (condition cpu cc = true →
          ExecuteOneInstruction ExecuteEDOpcode ExecuteFDOpcode cpu = some (17, s) ∧
          s.SP = uint16 ((cpu.SP : Int) - 2) ∧
          s.Memory s.SP = (cpu.PC + 3) % 65536 % 256 ∧
          s.Memory ((s.SP + 1) % 65536) = (cpu.PC + 3) % 65536 / 256 % 256 ∧
          (∀ a, a ≠ s.SP → a ≠ (s.SP + 1) % 65536 → s.Memory a = cpu.Memory a) ∧
          s.PC = nn) ∧
        (condition cpu cc = false →
          ExecuteOneInstruction ExecuteEDOpcode ExecuteFDOpcode cpu = some (10, s) ∧
          s.SP = cpu.SP ∧ s.Memory = cpu.Memory ∧ s.PC = (cpu.PC + 3) % 65536) ∧
        s.MEMPTR = nn) ∧
    (ReadByte cpu cpu.PC = 0xC0 + 8 * cc →
      ∃ s, (condition cpu cc = true →
          ExecuteOneInstruction ExecuteEDOpcode ExecuteFDOpcode cpu = some (11, s) ∧
          s.PC = ReadWord cpu cpu.SP ∧ s.SP = (cpu.SP + 2) % 65536 ∧ s.MEMPTR = s.PC) ∧
        (condition cpu cc = false →
          ExecuteOneInstruction ExecuteEDOpcode ExecuteFDOpcode cpu = some (5, s) ∧
          s.SP = cpu.SP ∧ s.PC = (cpu.PC + 1) % 65536)) := by
  have hc : condition (ReadOpcode cpu).2 cc = condition cpu cc :=
    condition_congr _ _ rfl cc
  constructor
  · intro h0 h1 h2
    have e2 : ((cpu.PC + 1) % 65536 + 1) % 65536 = (cpu.PC + 2) % 65536 := by omega
    have e3 : (((cpu.PC + 1) % 65536 + 1) % 65536 + 1) % 65536 = (cpu.PC + 3) % 65536 := by
      omega
    have hw := ReadImmediateWord_eq (ReadOpcode cpu).2 nn h1
      (by simp only [ReadOpcode, ReadByte, e2]; exact h2)
    rw [ExecuteOneInstruction_plain _ _ cpu (0xC4 + 8 * cc) hInt hHalt h0 (by omega) (by omega)
      (by omega) (by omega), ExecuteOpcode_call_cc _ cc hcc, hw, hc]
    simp only [ReadOpcode, e3]
    rcases Bool.eq_false_or_eq_true (condition cpu cc) with hcnd | hcnd
    · rw [if_pos hcnd]
      obtain ⟨p1, p2, p3, p4, _⟩ := Push_spec
        { cpu with PC := (cpu.PC + 3) % 65536, MEMPTR := nn,
                   R := (cpu.R &&& 0x80) ||| (((cpu.R + 1) % 256) &&& 0x7F) }
        ((cpu.PC + 3) % 65536)
      refine ⟨_, fun _ => ⟨rfl, p1, p2, p3, p4, rfl⟩, fun hf => ?_, ?_⟩
      · rw [hcnd] at hf
        exact absurd hf (by decide)
      · simp [Push_eq]
    · rw [if_neg (by rw [hcnd]; decide)]
      refine ⟨_, fun ht => ?_, fun _ => ⟨rfl, rfl, rfl, rfl⟩, rfl⟩
      rw [hcnd] at ht
      exact absurd ht (by decide)
  · intro h0
    rw [ExecuteOneInstruction_plain _ _ cpu (0xC0 + 8 * cc) hInt hHalt h0 (by omega) (by omega)
      (by omega) (by omega), ExecuteOpcode_ret_cc _ cc hcc, hc]
    rcases Bool.eq_false_or_eq_true (condition cpu cc) with hcnd | hcnd
    · rw [if_pos hcnd]
      refine ⟨_, fun _ => ⟨rfl, rfl, rfl, rfl⟩, fun hf => ?_⟩
      rw [hcnd] at hf
      exact absurd hf (by decide)
    · rw [if_neg (by rw [hcnd]; decide)]
      refine ⟨_, fun ht => ?_, fun _ => ⟨rfl, rfl, rfl⟩⟩
      rw [hcnd] at ht
      exact absurd ht (by decide)

/-- CALL Z,0x1234 fetched at 0x0100 with SP = 0x8000: with Z set, 17 T-states,
SP = 0x7FFE, the bytes 0x03, 0x01 at 0x7FFE, 0x7FFF and PC = 0x1234; with Z clear, 10
T-states and PC = 0x0103. RET Z fetched at 0x0100 with the word 0x0103 on the stack:
with Z set, 11 T-states, PC = 0x0103 and SP = 0x8000; with Z clear, 5 T-states and
PC = 0x0101. -/
theorem call_ret_spec_witness :
    (∃ s, ExecuteOneInstruction noDecoder noDecoder (cpuCall 0x40) = some (17, s) ∧
      s.SP = 0x7FFE ∧ s.Memory 0x7FFE = 0x03 ∧ s.Memory 0x7FFF = 0x01 ∧ s.PC = 0x1234 ∧
      s.MEMPTR = 0x1234) ∧
    (∃ s, ExecuteOneInstruction noDecoder noDecoder (cpuCall 0x00) = some (10, s) ∧
      s.SP = 0x8000 ∧ s.PC = 0x0103 ∧ s.MEMPTR = 0x1234) ∧
    (∃ s, ExecuteOneInstruction noDecoder noDecoder (cpuRet 0x40) = some (11, s) ∧
      s.PC = 0x0103 ∧ s.SP = 0x8000 ∧ s.MEMPTR = 0x0103) ∧
    (∃ s, ExecuteOneInstruction noDecoder noDecoder (cpuRet 0x00) = some (5, s) ∧
      s.SP = 0x7FFE ∧ s.PC = 0x0101) := by
  obtain ⟨s1, a1, _, a3⟩ := (call_ret_spec noDecoder noDecoder (cpuCall 0x40) 0x1234 1
    (by decide) rfl rfl).1 rfl rfl rfl
  obtain ⟨s2, _, b2, b3⟩ := (call_ret_spec noDecoder noDecoder (cpuCall 0x00) 0x1234 1
    (by decide) rfl rfl).1 rfl rfl rfl
  obtain ⟨s3, c1, _⟩ := (call_ret_spec noDecoder noDecoder (cpuRet 0x40) 0 1
    (by decide) rfl rfl).2 rfl
  obtain ⟨s4, _, d2⟩ := (call_ret_spec noDecoder noDecoder (cpuRet 0x00) 0 1
    (by decide) rfl rfl).2 rfl
  obtain ⟨x1, x2, x3, x4, _, x6⟩ := a1 (by decide)
  obtain ⟨y1, y2, _, y4⟩ := b2 (by decide)
  obtain ⟨z1, z2, z3, z4⟩ := c1 (by decide)
  obtain ⟨w1, w2, w3⟩ := d2 (by decide)
  have hsp : s1.SP = 0x7FFE := x2.trans (by decide)
  rw [hsp] at x3 x4
  exact ⟨⟨s1, x1, hsp, x3, x4, x6, a3⟩, ⟨s2, y1, y2, y4, b3⟩,
    ⟨s3, z1, z2.trans (by decide), z3, z4.trans (z2.trans (by decide))⟩, ⟨s4, w1, w2, w3⟩⟩

/-! ## C35: the Push/Pop round trip -/

theorem Pop_Push (cpu : CPU) (v : Nat) (hSP : cpu.SP < 65536) (hv : v < 65536) :
    Pop (Push cpu v) = (v, { (Push cpu v) with SP := cpu.SP }) := by
  have h1 := uint16_lt ((cpu.SP : Int) - 2)
  have h2 : (uint16 ((cpu.SP : Int) - 2) + 2) % 65536 = cpu.SP := by
    unfold uint16 at h1 ⊢
    omega
  have h3 := pair_split v hv
  rw [Push_eq]
  generalize uint16 ((cpu.SP : Int) - 2) = sp at h1 h2
  have h4 : sp ≠ (sp + 1) % 65536 := by omega
  simp only [Pop, ReadByte, h2, if_true, if_neg h4, h3]

theorem pushOpcode_eq (cpu : CPU) (j : Nat) (hj : j < 5) :
    pushOpcode cpu j = some (if j = 4 then 15 else 11, Push cpu (pairValue cpu j)) := by
  interval_cases j
  · simp only [pushOpcode, pairValue, ExecuteOpcode, ExecuteOpcode_C0]; rfl
  · simp only [pushOpcode, pairValue, ExecuteOpcode, ExecuteOpcode_D0]; rfl
  · simp only [pushOpcode, pairValue, ExecuteOpcode, ExecuteOpcode_E0]; rfl
  · simp only [pushOpcode, pairValue, ExecuteOpcode, ExecuteOpcode_F0]; rfl
  · simp only [pushOpcode, pairValue, ExecuteDDOpcode, ExecuteDDOpcode_E0]; rfl

theorem popOpcode_eq (cpu : CPU) (k : Nat) (hk : k < 5) (hw : (Pop cpu).1 < 65536) :
    ∃ t, popOpcode cpu k = some (if k = 4 then 14 else 10, t) ∧
      pairValue t k = (Pop cpu).1 ∧ t.SP = (Pop cpu).2.SP := by
  have h := pair_split _ hw
  interval_cases k
  · exact ⟨SetBC (Pop cpu).2 (Pop cpu).1,
      by simp only [popOpcode, ExecuteOpcode, ExecuteOpcode_C0]; rfl, h, rfl⟩
  · exact ⟨SetDE (Pop cpu).2 (Pop cpu).1,
      by simp only [popOpcode, ExecuteOpcode, ExecuteOpcode_D0]; rfl, h, rfl⟩
  · exact ⟨SetHL (Pop cpu).2 (Pop cpu).1,
      by simp only [popOpcode, ExecuteOpcode, ExecuteOpcode_E0]; rfl, h, rfl⟩
  · exact ⟨SetAF (Pop cpu).2 (Pop cpu).1,
      by simp only [popOpcode, ExecuteOpcode, ExecuteOpcode_F0]; rfl, h, rfl⟩
  · exact ⟨{ (Pop cpu).2 with IX := (Pop cpu).1 },
      by simp only [popOpcode, ExecuteDDOpcode, ExecuteDDOpcode_E0]; rfl, rfl, rfl⟩

theorem pairValue_lt (cpu : CPU) (j : Nat) (hA : cpu.A < 256) (hF : cpu.F < 256)
    (hB : cpu.B < 256) (hC : cpu.C < 256) (hD : cpu.D < 256) (hE : cpu.E < 256)
    (hH : cpu.H < 256) (hL : cpu.L < 256) (hIX : cpu.IX < 65536) :
    pairValue cpu j < 65536 := by
  unfold pairValue
  split
  · exact pair_lt _ _ hB hC
  · exact pair_lt _ _ hD hE
  · exact pair_lt _ _ hH hL
  · exact pair_lt _ _ hA hF
  · exact hIX

/-- C35: for SP and v below 65536, Push v followed by Pop returns v and restores SP,
the low byte of v standing at (SP - 2) mod 65536 and the high byte at (SP - 1) mod
65536 in between; consequently PUSH rr followed by POP rr', for rr and rr' among BC,
DE, HL, AF and IX (numbered j and k), returns 11 and 10 T-states (15 and 14 for IX) and
leaves rr' equal to the prior rr and SP unchanged. -/
theorem push_pop_roundtrip (cpu : CPU) (v : Nat) (hSP : cpu.SP < 65536) (hv : v < 65536)
    (hA : cpu.A < 256) (hF : cpu.F < 256) (hB : cpu.B < 256) (hC : cpu.C < 256)
    (hD : cpu.D < 256) (hE : cpu.E < 256) (hH : cpu.H < 256) (hL : cpu.L < 256)
    (hIX : cpu.IX < 65536) :
    ((Pop (Push cpu v)).1 = v ∧ (Pop (Push cpu v)).2.SP = cpu.SP ∧
      (Push cpu v).SP = uint16 ((cpu.SP : Int) - 2) ∧
      (Push cpu v).Memory (uint16 ((cpu.SP : Int) - 2)) = v % 256 ∧
      (Push cpu v).Memory (uint16 ((cpu.SP : Int) - 1)) = v / 256) ∧
    ∀ j k, j < 5 → k < 5 →
      ∃ s t, pushOpcode cpu j = some (if j = 4 then 15 else 11, s) ∧
        popOpcode s k = some (if k = 4 then 14 else 10, t) ∧
        pairValue t k = pairValue cpu j ∧ t.SP = cpu.SP := by
  constructor
  · obtain ⟨p1, p2, p3, _, _⟩ := Push_spec cpu v
    have e : (uint16 ((cpu.SP : Int) - 2) + 1) % 65536 = uint16 ((cpu.SP : Int) - 1) := by
      unfold uint16
      omega
    rw [p1] at p2 p3
    rw [e] at p3
    refine ⟨by rw [Pop_Push cpu v hSP hv], by rw [Pop_Push cpu v hSP hv], p1, p2, ?_⟩
    rw [p3]
    omega
  · intro j k hj hk
    have hw := pairValue_lt cpu j hA hF hB hC hD hE hH hL hIX
    have hpp := Pop_Push cpu (pairValue cpu j) hSP hw
    obtain ⟨t, h1, h2, h3⟩ := popOpcode_eq (Push cpu (pairValue cpu j)) k hk
      (by rw [hpp]; exact hw)
    rw [hpp] at h2 h3
    exact ⟨_, t, pushOpcode_eq cpu j hj, h1, h2, h3⟩

/-- PUSH BC; POP DE on `cpuPush` (BC = 0x1234, SP = 0x8000): the bytes 0x34 and 0x12
stand at 0x7FFE and 0x7FFF, DE becomes 0x1234 and SP is 0x8000 again. -/
theorem push_pop_roundtrip_witness :
    (Push cpuPush 0x1234).Memory 0x7FFE = 0x34 ∧ (Push cpuPush 0x1234).Memory 0x7FFF = 0x12 ∧
    (Pop (Push cpuPush 0x1234)).1 = 0x1234 ∧
    ∃ s t, ExecuteOpcode cpuPush 0xC5 = some (11, s) ∧ ExecuteOpcode s 0xD1 = some (10, t) ∧
      GetDE t = 0x1234 ∧ t.SP = 0x8000 := by
  have h := push_pop_roundtrip cpuPush 0x1234 (by decide) (by decide) (by decide) (by decide)
    (by decide) (by decide) (by decide) (by decide) (by decide) (by decide) (by decide)
  obtain ⟨s, t, h1, h2, h3, h4⟩ := h.2 0 1 (by decide) (by decide)
  exact ⟨h.1.2.2.2.1, h.1.2.2.2.2, h.1.1, s, t, h1, h2, h3.trans (by decide), h4⟩

/-! ## C36: the exchange instructions -/

theorem pair_unpack (h l : Nat) (hh : h < 256) (hl : l < 256) :
    (((h <<< 8) ||| l) >>> 8) % 256 = h ∧ ((h <<< 8) ||| l) % 256 = l := by
  rw [pair_eq h l hl, Nat.shiftRight_eq_div_pow]
  simp only [Nat.reducePow]
  omega

theorem ExecuteOpcode_ex_af (cpu : CPU) (hA : cpu.A < 256) (hF : cpu.F < 256)
    (hA_ : cpu.A_ < 256) (hF_ : cpu.F_ < 256) :
    ExecuteOpcode cpu 0x08 =
      some (4, { cpu with A := cpu.A_, F := cpu.F_, A_ := cpu.A, F_ := cpu.F }) := by
  obtain ⟨a1, a2⟩ := pair_unpack cpu.A cpu.F hA hF
  obtain ⟨b1, b2⟩ := pair_unpack cpu.A_ cpu.F_ hA_ hF_
  simp only [ExecuteOpcode, ExecuteOpcode_00, GetAF, GetAF_, SetAF, SetAF_, a1, a2, b1, b2]

theorem ExecuteOpcode_exx (cpu : CPU) (hB : cpu.B < 256) (hC : cpu.C < 256)
    (hD : cpu.D < 256) (hE : cpu.E < 256) (hH : cpu.H < 256) (hL : cpu.L < 256)
    (hB_ : cpu.B_ < 256) (hC_ : cpu.C_ < 256) (hD_ : cpu.D_ < 256) (hE_ : cpu.E_ < 256)
    (hH_ : cpu.H_ < 256) (hL_ : cpu.L_ < 256) :
    ExecuteOpcode cpu 0xD9 =
      some (4, { cpu with B := cpu.B_, C := cpu.C_, D := cpu.D_, E := cpu.E_, H := cpu.H_,
                          L := cpu.L_, B_ := cpu.B, C_ := cpu.C, D_ := cpu.D, E_ := cpu.E,
                          H_ := cpu.H, L_ := cpu.L }) := by
  obtain ⟨a1, a2⟩ := pair_unpack cpu.B cpu.C hB hC
  obtain ⟨a3, a4⟩ := pair_unpack cpu.D cpu.E hD hE
  obtain ⟨a5, a6⟩ := pair_unpack cpu.H cpu.L hH hL
  obtain ⟨b1, b2⟩ := pair_unpack cpu.B_ cpu.C_ hB_ hC_
  obtain ⟨b3, b4⟩ := pair_unpack cpu.D_ cpu.E_ hD_ hE_
  obtain ⟨b5, b6⟩ := pair_unpack cpu.H_ cpu.L_ hH_ hL_
  simp only [ExecuteOpcode, ExecuteOpcode_D0, GetBC, GetDE, GetHL, GetBC_, GetDE_, GetHL_,
    SetBC, SetDE, SetHL, SetBC_, SetDE_, SetHL_, a1, a2, a3, a4, a5, a6, b1, b2, b3, b4, b5, b6]

/-- C36: EX AF,AF' (0x08) returns 4 and swaps exactly (A, F) with (A', F'); EXX (0xD9)
returns 4 and swaps exactly (B, C, D, E, H, L) with their shadow registers; neither
changes any other field, and executing either of them twice gives back the state it
started from (the registers hold bytes). -/
theorem exchange_involutive (cpu : CPU) (hA : cpu.A < 256) (hF : cpu.F < 256)
    (hB : cpu.B < 256) (hC : cpu.C < 256) (hD : cpu.D < 256) (hE : cpu.E < 256)
    (hH : cpu.H < 256) (hL : cpu.L < 256) (hA_ : cpu.A_ < 256) (hF_ : cpu.F_ < 256)
    (hB_ : cpu.B_ < 256) (hC_ : cpu.C_ < 256) (hD_ : cpu.D_ < 256) (hE_ : cpu.E_ < 256)
    (hH_ : cpu.H_ < 256) (hL_ : cpu.L_ < 256) :
    (∃ s, ExecuteOpcode cpu 0x08 = some (4, s) ∧
      s = { cpu with A := cpu.A_, F := cpu.F_, A_ := cpu.A, F_ := cpu.F } ∧
      ExecuteOpcode s 0x08 = some (4, cpu)) ∧
    (∃ s, ExecuteOpcode cpu 0xD9 = some (4, s) ∧
      s = { cpu with B := cpu.B_, C := cpu.C_, D := cpu.D_, E := cpu.E_, H := cpu.H_,
                     L := cpu.L_, B_ := cpu.B, C_ := cpu.C, D_ := cpu.D, E_ := cpu.E,
                     H_ := cpu.H, L_ := cpu.L } ∧
      ExecuteOpcode s 0xD9 = some (4, cpu)) := by
  refine ⟨⟨_, ExecuteOpcode_ex_af cpu hA hF hA_ hF_, rfl, ?_⟩,
    ⟨_, ExecuteOpcode_exx cpu hB hC hD hE hH hL hB_ hC_ hD_ hE_ hH_ hL_, rfl, ?_⟩⟩
  · rw [ExecuteOpcode_ex_af _ hA_ hF_ hA hF]
  · rw [ExecuteOpcode_exx _ hB_ hC_ hD_ hE_ hH_ hL_ hB hC hD hE hH hL]

/-- On `cpuBanks`, EX AF,AF' leaves A = 0x11 and A' = 0x01, EXX leaves B = 0x13 and
L' = 0x08, and each executed twice returns `cpuBanks`. -/
theorem exchange_involutive_witness :
    (∃ s, ExecuteOpcode cpuBanks 0x08 = some (4, s) ∧ s.A = 0x11 ∧ s.A_ = 0x01 ∧
      ExecuteOpcode s 0x08 = some (4, cpuBanks)) ∧
    (∃ s, ExecuteOpcode cpuBanks 0xD9 = some (4, s) ∧ s.B = 0x13 ∧ s.L_ = 0x08 ∧
      ExecuteOpcode s 0xD9 = some (4, cpuBanks)) := by
  obtain ⟨⟨s, h1, h2, h3⟩, ⟨t, k1, k2, k3⟩⟩ := exchange_involutive cpuBanks
    (by decide) (by decide) (by decide) (by decide) (by decide) (by decide) (by decide)
    (by decide) (by decide) (by decide) (by decide) (by decide) (by decide) (by decide)
    (by decide) (by decide)
  exact ⟨⟨s, h1, by rw [h2]; rfl, by rw [h2]; rfl, h3⟩, ⟨t, k1, by rw [k2]; rfl, by rw [k2]; rfl, k3⟩⟩

/-! ## C37: the prefix arms of ExecuteOpcode -/

theorem ExecuteOpcode_ED (cpu : CPU) : ExecuteOpcode cpu 0xED = some (0, cpu) := by
  simp only [ExecuteOpcode, ExecuteOpcode_E0]

theorem ExecuteDDOpcode_DD_FD (cpu : CPU) :
    ExecuteDDOpcode cpu 0xDD = some (8, cpu) ∧ ExecuteDDOpcode cpu 0xFD = some (8, cpu) := by
  constructor
  · simp only [ExecuteDDOpcode, ExecuteDDOpcode_D0]
  · simp only [ExecuteDDOpcode, ExecuteDDOpcode_F0]

theorem ExecuteOneInstruction_DD
    (ExecuteEDOpcode ExecuteFDOpcode : CPU → Nat → Option (Nat × CPU)) (cpu : CPU)
    (hInt : (cpu.IFF1 && CheckInterrupt cpu) = false) (hHalt : cpu.HALT = false)
    (h0 : ReadByte cpu cpu.PC = 0xDD) :
    ExecuteOneInstruction ExecuteEDOpcode ExecuteFDOpcode cpu =
      ExecuteDDOpcode (ReadOpcode (ReadOpcode cpu).2).2 (ReadByte cpu ((cpu.PC + 1) % 65536)) := by
  unfold ExecuteOneInstruction
  rw [hInt, hHalt]
  simp only [Bool.false_eq_true, if_false, ReadOpcode_fst]
  rw [show cpu.Memory cpu.PC = 0xDD from h0]
  rfl

/-- C37: a step that fetches the bytes DD b: for b = 0xED the default branch of
ExecuteDDOpcode hands 0xED to ExecuteOpcode, whose prefix arm returns 0 T-states, the
state being the one reached by the two fetches; for b = 0xDD and b = 0xFD the step
returns 8, and for b = 0xCB it is executeDDCBOpcode, without going through
ExecuteOpcode. -/
theorem dd_prefix_arms (ExecuteEDOpcode ExecuteFDOpcode : CPU → Nat → Option (Nat × CPU))
    (cpu : CPU) (b : Nat)
    (hInt : (cpu.IFF1 && CheckInterrupt cpu) = false) (hHalt : cpu.HALT = false)
    (h0 : ReadByte cpu cpu.PC = 0xDD) (h1 : ReadByte cpu ((cpu.PC + 1) % 65536) = b) :
    (b = 0xED →
      ExecuteOneInstruction ExecuteEDOpcode ExecuteFDOpcode cpu =
        ExecuteOpcode (ReadOpcode (ReadOpcode cpu).2).2 0xED ∧
      ExecuteOneInstruction ExecuteEDOpcode ExecuteFDOpcode cpu =
        some (0, (ReadOpcode (ReadOpcode cpu).2).2)) ∧
    (b = 0xDD ∨ b = 0xFD →
      ExecuteOneInstruction ExecuteEDOpcode ExecuteFDOpcode cpu =
        some (8, (ReadOpcode (ReadOpcode cpu).2).2)) ∧
    (b = 0xCB →
      ExecuteOneInstruction ExecuteEDOpcode ExecuteFDOpcode cpu =
        some (executeDDCBOpcode (ReadOpcode (ReadOpcode cpu).2).2)) := by
  have hstep := ExecuteOneInstruction_DD ExecuteEDOpcode ExecuteFDOpcode cpu hInt hHalt h0
  rw [h1] at hstep
  refine ⟨fun hb => ?_, fun hb => ?_, fun hb => ?_⟩
  · subst hb
    rw [hstep, ExecuteDDOpcode_default _ 0xED (by decide) (by decide), ExecuteOpcode_ED]
    exact ⟨rfl, rfl⟩
  · rcases hb with hb | hb <;> subst hb <;> rw [hstep]
    · exact (ExecuteDDOpcode_DD_FD _).1
    · exact (ExecuteDDOpcode_DD_FD _).2
  · subst hb
    rw [hstep, ExecuteDDOpcode_CB]

/-- The bytes DD ED at address 0: the step returns 0 T-states with PC = 2. -/
theorem dd_prefix_arms_witness :
    ∃ s, ExecuteOneInstruction noDecoder noDecoder cpuDDED = some (0, s) ∧ s.PC = 2 ∧
      ExecuteOpcode s 0xED = some (0, s) := by
  have h := ((dd_prefix_arms noDecoder noDecoder cpuDDED 0xED rfl rfl rfl rfl).1 rfl)
  exact ⟨_, h.2, rfl, h.1.symm.trans h.2⟩

/-! ## C38: DAA and packed-BCD arithmetic -/

theorem daa_A_C (s : CPU) :
    (daa s).A = (if GetFlag s FLAG_N = true then (s.A + 256 - daaCorrection s) % 256
      else (s.A + daaCorrection s) % 256) ∧
    GetFlag (daa s) FLAG_C = (GetFlag s FLAG_C || ((daaCorrection s &&& 0x60) != 0)) := by
  rw [daa_unfold]
  constructor
  · simp
  · simp

theorem add8_ACHN (cpu : CPU) (v : Nat) (hA : cpu.A < 256) (hv : v < 256) :
    (add8 cpu v).A = (cpu.A + v) % 256 ∧
    GetFlag (add8 cpu v) FLAG_C = decide (cpu.A + v > 255) ∧
    GetFlag (add8 cpu v) FLAG_H = decide ((cpu.A &&& 0xF) + (v &&& 0xF) > 0xF) ∧
    GetFlag (add8 cpu v) FLAG_N = false := by
  refine ⟨?_, ?_, ?_, ?_⟩
  · simp [add8, UpdateSZXYFlags]
  · simp [add8, UpdateSZXYFlags]
    omega
  · simp [add8, UpdateSZXYFlags]
    omega
  · simp [add8, UpdateSZXYFlags]

theorem sub8_ACHN (cpu : CPU) (v : Nat) :
    (sub8 cpu v).A = (cpu.A + 256 - v) % 256 ∧
    GetFlag (sub8 cpu v) FLAG_C = decide (cpu.A < v) ∧
    GetFlag (sub8 cpu v) FLAG_H = decide ((cpu.A &&& 0xF) < (v &&& 0xF)) ∧
    GetFlag (sub8 cpu v) FLAG_N = true := by
  refine ⟨?_, ?_, ?_, ?_⟩
  · simp [sub8, UpdateSZXYFlags]
  · simp [sub8, UpdateSZXYFlags]
  · simp [sub8, UpdateSZXYFlags]
  · simp [sub8, UpdateSZXYFlags]

set_option maxRecDepth 1000000 in
theorem bcd_add_digits : ∀ a1, a1 < 10 → ∀ a0, a0 < 10 → ∀ b1, b1 < 10 → ∀ b0, b0 < 10 →
    ((16 * a1 + a0 + (16 * b1 + b0)) % 256 +
        ((if decide (((16 * a1 + a0) &&& 15) + ((16 * b1 + b0) &&& 15) > 15) = true ∨
            ((16 * a1 + a0 + (16 * b1 + b0)) % 256) &&& 15 > 9 then 6 else 0) |||
          (if decide (16 * a1 + a0 + (16 * b1 + b0) > 255) = true ∨
            (16 * a1 + a0 + (16 * b1 + b0)) % 256 > 153 then 96 else 0))) % 256 =
      bcdEncode ((10 * a1 + a0 + (10 * b1 + b0)) % 100) ∧
    (decide (16 * a1 + a0 + (16 * b1 + b0) > 255) ||
      ((((if decide (((16 * a1 + a0) &&& 15) + ((16 * b1 + b0) &&& 15) > 15) = true ∨
            ((16 * a1 + a0 + (16 * b1 + b0)) % 256) &&& 15 > 9 then 6 else 0) |||
          (if decide (16 * a1 + a0 + (16 * b1 + b0) > 255) = true ∨
            (16 * a1 + a0 + (16 * b1 + b0)) % 256 > 153 then 96 else 0)) &&& 96) != 0)) =
      decide (10 * a1 + a0 + (10 * b1 + b0) ≥ 100) := by
  decide

set_option maxRecDepth 1000000 in
theorem bcd_sub_digits : ∀ a1, a1 < 10 → ∀ a0, a0 < 10 → ∀ b1, b1 < 10 → ∀ b0, b0 < 10 →
    ((16 * a1 + a0 + 256 - (16 * b1 + b0)) % 256 + 256 -
        ((if decide (((16 * a1 + a0) &&& 15) < ((16 * b1 + b0) &&& 15)) = true ∨
            ((16 * a1 + a0 + 256 - (16 * b1 + b0)) % 256) &&& 15 > 9 then 6 else 0) |||
          (if decide (16 * a1 + a0 < 16 * b1 + b0) = true ∨
            (16 * a1 + a0 + 256 - (16 * b1 + b0)) % 256 > 153 then 96 else 0))) % 256 =
      bcdEncode ((10 * a1 + a0 + 100 - (10 * b1 + b0)) % 100) ∧
    (decide (16 * a1 + a0 < 16 * b1 + b0) ||
      ((((if decide (((16 * a1 + a0) &&& 15) < ((16 * b1 + b0) &&& 15)) = true ∨
            ((16 * a1 + a0 + 256 - (16 * b1 + b0)) % 256) &&& 15 > 9 then 6 else 0) |||
          (if decide (16 * a1 + a0 < 16 * b1 + b0) = true ∨
            (16 * a1 + a0 + 256 - (16 * b1 + b0)) % 256 > 153 then 96 else 0)) &&& 96) != 0)) =
      decide (10 * a1 + a0 < 10 * b1 + b0) := by
  decide

/-- C38: for packed-BCD bytes A and b (each nibble at most 9) and any prior F, add8
followed by daa leaves A equal to the packed-BCD encoding of the decimal sum modulo
100 with C set iff the sum is at least 100, and sub8 followed by daa leaves A equal to
the packed-BCD encoding of the decimal difference modulo 100 with C set iff the
minuend is less than the subtrahend. -/
theorem daa_bcd (cpu : CPU) (b : Nat) (hA1 : cpu.A / 16 ≤ 9) (hA0 : cpu.A % 16 ≤ 9)
    (hb1 : b / 16 ≤ 9) (hb0 : b % 16 ≤ 9) :
    ((daa (add8 cpu b)).A = bcdEncode ((bcdValue cpu.A + bcdValue b) % 100) ∧
      GetFlag (daa (add8 cpu b)) FLAG_C = decide (bcdValue cpu.A + bcdValue b ≥ 100)) ∧
    ((daa (sub8 cpu b)).A = bcdEncode ((bcdValue cpu.A + 100 - bcdValue b) % 100) ∧
      GetFlag (daa (sub8 cpu b)) FLAG_C = decide (bcdValue cpu.A < bcdValue b)) := by
  have hA : cpu.A < 256 := by omega
  have hb : b < 256 := by omega
  obtain ⟨f1, f2, f3, f4⟩ := add8_ACHN cpu b hA hb
  obtain ⟨d1, d2⟩ := daa_A_C (add8 cpu b)
  obtain ⟨g1, g2, g3, g4⟩ := sub8_ACHN cpu b
  obtain ⟨e1, e2⟩ := daa_A_C (sub8 cpu b)
  rw [d1, d2, e1, e2]
  simp only [daaCorrection, f1, f2, f3, f4, g1, g2, g3, g4, Bool.false_eq_true, if_false,
    if_true]
  have ea : cpu.A = 16 * (cpu.A / 16) + cpu.A % 16 := (Nat.div_add_mod cpu.A 16).symm
  have eb : b = 16 * (b / 16) + b % 16 := (Nat.div_add_mod b 16).symm
  unfold bcdValue
  clear f1 f2 f3 f4 g1 g2 g3 g4 d1 d2 e1 e2 hA hb
  generalize cpu.A / 16 = a1 at *
  generalize cpu.A % 16 = a0 at *
  generalize cpu.A = a at *
  generalize b / 16 = b1 at *
  generalize b % 16 = b0 at *
  subst ea eb
  exact ⟨bcd_add_digits a1 (by omega) a0 (by omega) b1 (by omega) b0 (by omega),
    bcd_sub_digits a1 (by omega) a0 (by omega) b1 (by omega) b0 (by omega)⟩

/-- The BCD bytes 0x19 and 0x28 (19 and 28): add8 then daa gives 0x47 with C clear, and
sub8 then daa gives 0x91 with C set (19 - 28 = -9 = 91 modulo 100). -/
theorem daa_bcd_witness :
    (daa (add8 { cpu0 with A := 0x19 } 0x28)).A = 0x47 ∧
    GetFlag (daa (add8 { cpu0 with A := 0x19 } 0x28)) FLAG_C = false ∧
    (daa (sub8 { cpu0 with A := 0x19 } 0x28)).A = 0x91 ∧
    GetFlag (daa (sub8 { cpu0 with A := 0x19 } 0x28)) FLAG_C = true :=
  have h := daa_bcd { cpu0 with A := 0x19 } 0x28 (by decide) (by decide) (by decide) (by decide)
  ⟨h.1.1.trans (by decide), h.1.2.trans (by decide), h.2.1.trans (by decide),
    h.2.2.trans (by decide)⟩

/-! ## C39-C40: carry variants and rotations through carry -/

/-- C39: when the carry flag is clear, adc8 gives the same state as add8, and sbc8
the same state as sub8: the same A and the same flag byte F (A and v are bytes). -/
theorem carry_clear_variants (cpu : CPU) (v : Nat) (hA : cpu.A < 256) (hv : v < 256)
    (hC : GetFlag cpu FLAG_C = false) :
    (adc8 cpu v = add8 cpu v ∧ (adc8 cpu v).A = (add8 cpu v).A ∧
      (adc8 cpu v).F = (add8 cpu v).F) ∧
    (sbc8 cpu v = sub8 cpu v ∧ (sbc8 cpu v).A = (sub8 cpu v).A ∧
      (sbc8 cpu v).F = (sub8 cpu v).F) := by
  have e1 : decide ((cpu.A : Int) + (v : Int) + ((0 : Nat) : Int) > 0xFF) =
      decide ((cpu.A + v) % 256 < cpu.A) := by
    rw [Bool.eq_iff_iff]; simp; omega
  have e2 : decide ((cpu.A : Int) - (v : Int) - ((0 : Nat) : Int) < 0) = decide (cpu.A < v) := by
    rw [Bool.eq_iff_iff]; simp
  have e3 : decide ((((cpu.A &&& 0x0F) + (v &&& 0x0F)) % 256 + 0) % 256 > 0x0F) =
      decide (((cpu.A &&& 0x0F) + (v &&& 0x0F)) % 256 > 0x0F) := by
    rw [Bool.eq_iff_iff]; simp
  have e4 : decide ((cpu.A &&& 0x0F) < ((v &&& 0x0F) + 0) % 256) =
      decide ((cpu.A &&& 0x0F) < (v &&& 0x0F)) := by
    have : (v &&& 0x0F) < 16 := Nat.lt_of_le_of_lt Nat.and_le_right (by decide)
    rw [Bool.eq_iff_iff]; simp; omega
  have a1 : adc8 cpu v = add8 cpu v := by
    simp only [adc8, add8, hC, boolToByte, Bool.false_eq_true, if_false, e1, e3]
  have a2 : sbc8 cpu v = sub8 cpu v := by
    simp only [sbc8, sub8, hC, boolToByte, Bool.false_eq_true, if_false, e2, e4]
  exact ⟨⟨a1, by rw [a1], by rw [a1]⟩, ⟨a2, by rw [a2], by rw [a2]⟩⟩

/-- With A = 0x7F, v = 0x01 and F = 0: adc8 and add8 both leave A = 0x80, and sbc8 and
sub8 both leave A = 0x7E, with equal flag bytes. -/
theorem carry_clear_variants_witness :
    (adc8 { cpu0 with A := 0x7F } 0x01).A = 0x80 ∧
    (adc8 { cpu0 with A := 0x7F } 0x01).F = (add8 { cpu0 with A := 0x7F } 0x01).F ∧
    (sbc8 { cpu0 with A := 0x7F } 0x01).A = 0x7E ∧
    (sbc8 { cpu0 with A := 0x7F } 0x01).F = (sub8 { cpu0 with A := 0x7F } 0x01).F :=
  have h := carry_clear_variants { cpu0 with A := 0x7F } 0x01 (by decide) (by decide) (by decide)
  ⟨h.1.2.1.trans (by decide), h.1.2.2, h.2.2.1.trans (by decide), h.2.2.2⟩

theorem rotate_through_carry (v c : Nat) (hv : v < 256) (hc : c ≤ 1) :
    (v * 2 % 256 + c) / 2 + v / 128 * 128 = v ∧ (v * 2 % 256 + c) % 2 = c ∧
    (v / 2 + c * 128) * 2 % 256 + v % 2 = v ∧ (v / 2 + c * 128) / 128 = c ∧
    v * 2 % 256 + c < 256 ∧ v / 2 + c * 128 < 256 := by
  omega

theorem boolToByte_testBit (v : Nat) (hv : v < 256) :
    boolToByte (v.testBit 7) = v / 128 ∧ boolToByte (v.testBit 0) = v % 2 := by
  have h7 : v.testBit 7 = decide (v / 128 = 1) := by
    simp only [Nat.testBit_to_div_mod, Nat.reducePow]
    rw [Bool.eq_iff_iff]; simp; omega
  have h0 : v.testBit 0 = decide (v % 2 = 1) := by
    simp only [Nat.testBit_to_div_mod, Nat.reducePow]
    rw [Bool.eq_iff_iff]; simp
  rw [h7, h0]
  unfold boolToByte
  constructor
  · by_cases h : v / 128 = 1 <;> simp [h]; omega
  · by_cases h : v % 2 = 1 <;> simp [h]; omega

theorem testBit_of_boolToByte (x : Nat) (b : Bool) (hx : x < 256) :
    (x % 2 = boolToByte b → x.testBit 0 = b) ∧ (x / 128 = boolToByte b → x.testBit 7 = b) := by
  obtain ⟨h7, h0⟩ := boolToByte_testBit x hx
  constructor
  · intro h
    rw [← h0] at h
    revert h
    cases x.testBit 0 <;> cases b <;> simp [boolToByte]
  · intro h
    rw [← h7] at h
    revert h
    cases x.testBit 7 <;> cases b <;> simp [boolToByte]

theorem rl_fst (cpu : CPU) (v : Nat) (hv : v < 256) :
    (rl cpu v).1 = v * 2 % 256 + boolToByte (GetFlag cpu FLAG_C) ∧
    GetFlag (rl cpu v).2 FLAG_C = v.testBit 7 := by
  obtain ⟨_, _, h3, h4, _, _, _⟩ := rotate_values v hv
  constructor
  · simp only [rl]
    cases GetFlag cpu FLAG_C
    · simpa [boolToByte] using h4
    · simpa [boolToByte] using h3
  · simp [rl, UpdateSZXYPVFlags]

theorem rr_fst (cpu : CPU) (v : Nat) (hv : v < 256) :
    (rr cpu v).1 = v / 2 + boolToByte (GetFlag cpu FLAG_C) * 128 ∧
    GetFlag (rr cpu v).2 FLAG_C = v.testBit 0 := by
  obtain ⟨_, _, _, _, h5, h6, _⟩ := rotate_values v hv
  constructor
  · simp only [rr]
    cases GetFlag cpu FLAG_C
    · simpa [boolToByte] using h6
    · simpa [boolToByte] using h5
  · simp only [rr, UpdateSZXYPVFlags, SetFlagState_eq, ClearFlag_eq, FLAG_C, FLAG_H, FLAG_N,
      FLAG_S, FLAG_Z, FLAG_X, FLAG_Y, FLAG_PV, FLAG_3, FLAG_5, GetFlag_1, and_1_ne]
    simp

/-- C40: on a byte v, rl followed by rr returns v and leaves the carry flag as it was
before the rl, and rr followed by rl returns v and leaves the carry flag as it was
before the rr. -/
theorem rl_rr_inverse (cpu : CPU) (v : Nat) (hv : v < 256) :
    ((rr (rl cpu v).2 (rl cpu v).1).1 = v ∧
      GetFlag (rr (rl cpu v).2 (rl cpu v).1).2 FLAG_C = GetFlag cpu FLAG_C) ∧
    ((rl (rr cpu v).2 (rr cpu v).1).1 = v ∧
      GetFlag (rl (rr cpu v).2 (rr cpu v).1).2 FLAG_C = GetFlag cpu FLAG_C) := by
  have hb : boolToByte (GetFlag cpu FLAG_C) ≤ 1 := by
    unfold boolToByte; split <;> omega
  obtain ⟨a1, a2, a3, a4, a5, a6⟩ :=
    rotate_through_carry v (boolToByte (GetFlag cpu FLAG_C)) hv hb
  obtain ⟨t7, t0⟩ := boolToByte_testBit v hv
  obtain ⟨r1, c1⟩ := rl_fst cpu v hv
  obtain ⟨r2, c2⟩ := rr_fst cpu v hv
  have b1 : (rl cpu v).1 < 256 := by rw [r1]; exact a5
  have b2 : (rr cpu v).1 < 256 := by rw [r2]; exact a6
  obtain ⟨r3, c3⟩ := rr_fst (rl cpu v).2 (rl cpu v).1 b1
  obtain ⟨r4, c4⟩ := rl_fst (rr cpu v).2 (rr cpu v).1 b2
  refine ⟨⟨?_, ?_⟩, ⟨?_, ?_⟩⟩
  · rw [r3, c1, t7, r1]; exact a1
  · rw [c3]
    exact (testBit_of_boolToByte _ _ b1).1 (by rw [r1]; exact a2)
  · rw [r4, c2, t0, r2]; exact a3
  · rw [c4]
    exact (testBit_of_boolToByte _ _ b2).2 (by rw [r2]; exact a4)

/-- The byte 0x81 with the carry clear: rl gives 0x02 with C = 1, and rr of that gives
back 0x81 with C = 0. -/
theorem rl_rr_inverse_witness :
    (rl cpu0 0x81).1 = 0x02 ∧ (rr (rl cpu0 0x81).2 (rl cpu0 0x81).1).1 = 0x81 ∧
    GetFlag (rr (rl cpu0 0x81).2 (rl cpu0 0x81).1).2 FLAG_C = false :=
  have h := rl_rr_inverse cpu0 0x81 (by decide)
  ⟨by decide, h.1.1, h.1.2.trans (by decide)⟩

end Z80
